import Mathlib

/-!
# IGMPv2 host handler of the Circle network stack

A shallow embedding of `lib/net/igmphandler.cpp` (class `CIGMPHandler`), of the
receive and send paths of `lib/net/networklayer.cpp`, of the multicast operations
of `lib/net/udpconnection.cpp` and `lib/macaddress.cpp`, and of the value types
they use, followed by theorems about the embedded operations.

Conventions of the embedding

* An octet is a `Fin 256`.  Wider machine integers are natural numbers; where the
  source computes in a fixed width the reduction is written out.
* A member function that changes the object and calls collaborators becomes a
  function from the state before the call to the state after it, paired with the
  list of collaborator calls it made, in order (`TCall`).
* What a collaborator hands back (the random number, the handle returned by
  `StartKernelTimer`, the own IP address of `CNetConfig`) is an argument.
* Logging is not modelled.
-/

namespace Circle

/-- One byte of a packet or of an address. -/
abbrev Octet := Fin 256

/-! ## CIPAddress -/

/-- Modelled from the spec: `CIPAddress` (circle/net/ipaddress.h and ipaddress.cpp are
not among the sources).  Four octets A.B.C.D and the flag that says whether the
address was explicitly assigned. -/
structure CIPAddress where
  m_bValid : Bool
  o0 : Octet
  o1 : Octet
  o2 : Octet
  o3 : Octet
deriving DecidableEq, Repr

namespace CIPAddress

/-- Modelled from the spec: the default constructor `CIPAddress ()` gives an address
that is not set.  Its octets are indeterminate in the object; the model fixes them
to zero. -/
def unset : CIPAddress := ⟨false, 0, 0, 0, 0⟩

/-- Modelled from the spec: construction from four octets in memory,
`CIPAddress (const u8 *pAddress)`; the result is set. -/
def ofOctets (a b c d : Octet) : CIPAddress := ⟨true, a, b, c, d⟩

/-- Modelled from the spec: construction from a `u32`; the comment at
igmphandler.cpp:310 gives the layout `nAddress = A | (B<<8) | (C<<16) | (D<<24)`. -/
def ofU32 (nAddress : Nat) : CIPAddress :=
  ⟨true, Fin.ofNat (nAddress % 256), Fin.ofNat (nAddress / 256 % 256),
    Fin.ofNat (nAddress / 65536 % 256), Fin.ofNat (nAddress / 16777216 % 256)⟩

/-- Modelled from the spec: `IsSet` (explicitly assigned). -/
def IsSet (a : CIPAddress) : Bool := a.m_bValid

/-- Modelled from the spec: `IsNull` (all zero). -/
def IsNull (a : CIPAddress) : Bool :=
  a.o0 == 0 && a.o1 == 0 && a.o2 == 0 && a.o3 == 0

/-- Modelled from the spec: `IsBroadcast` (255.255.255.255). -/
def IsBroadcast (a : CIPAddress) : Bool :=
  a.o0 == 255 && a.o1 == 255 && a.o2 == 255 && a.o3 == 255

/-- Modelled from the spec: `IsMulticast` (A in [224,239]). -/
def IsMulticast (a : CIPAddress) : Bool :=
  decide (224 ≤ a.o0.val) && decide (a.o0.val ≤ 239)

/-- Modelled from the spec: `IsLinkLocalMulticast` (224.0.0.0/24). -/
def IsLinkLocalMulticast (a : CIPAddress) : Bool :=
  a.o0 == 224 && a.o1 == 0 && a.o2 == 0

/-- Modelled from the spec: `operator==` compares the four octets. -/
def opEq (a b : CIPAddress) : Bool :=
  a.o0 == b.o0 && a.o1 == b.o1 && a.o2 == b.o2 && a.o3 == b.o3

/-- Modelled from the spec: `CopyTo (u8 *pBuffer)` writes the four octets A, B, C, D. -/
def CopyTo (a : CIPAddress) : List Octet := [a.o0, a.o1, a.o2, a.o3]

end CIPAddress

/-! ## CChecksumCalculator -/

/-- Modelled from the spec: the 16-bit words of a byte range, each pair of octets
read as one word with the first octet as the high byte; a last single octet is
padded with a zero octet (checksumcalculator.cpp is not among the sources). -/
def checksumWords : List Octet → List Nat
  | [] => []
  | [b] => [256 * b.val]
  | b0 :: b1 :: rest => (256 * b0.val + b1.val) :: checksumWords rest

/-- Modelled from the spec: one folding step of the one's-complement sum, the
carry out of bit 15 is added back in. -/
def checksumFold (nSum : Nat) : Nat := nSum % 65536 + nSum / 65536

/-- Modelled from the spec: the one's-complement sum of the words of a range,
folded to 16 bits after every addition. -/
def checksumSum (buf : List Octet) : Nat :=
  (checksumWords buf).foldl (fun nSum w => checksumFold (nSum + w)) 0

/-- Modelled from the spec: `CChecksumCalculator::SimpleCalculate`, the standard
16-bit one's-complement Internet checksum of a byte range.  The value is the one
whose high byte is the first octet of the checksum field on the wire. -/
def SimpleCalculate (buf : List Octet) : Nat := 65535 - checksumSum buf

/-- Modelled from the spec: `CHECKSUM_OK`, what the checksum yields over a range
whose checksum field already holds the right value. -/
def CHECKSUM_OK : Nat := 0

/-! ## Constants and the IGMP message -/

/-- `IGMP_MEMBERSHIP_QUERY`, igmphandler.h:14. -/
def IGMP_MEMBERSHIP_QUERY : Octet := 0x11
/-- `IGMP_V2_MEMBERSHIP_REPORT`, igmphandler.h:15. -/
def IGMP_V2_MEMBERSHIP_REPORT : Octet := 0x16
/-- `IGMP_LEAVE_GROUP`, igmphandler.h:16. -/
def IGMP_LEAVE_GROUP : Octet := 0x17
/-- `IGMP_MAX_RESPONSE_DELAY_DEFAULT`, igmphandler.h:20 (tenths of a second). -/
def IGMP_MAX_RESPONSE_DELAY_DEFAULT : Nat := 100

/-- Modelled from the spec: `IPPROTO_IGMP`, IP protocol 2 (circle/net/in.h is not
among the sources; networklayer.cpp:166 repeats the value). -/
def IPPROTO_IGMP : Nat := 2

/-- Modelled from the spec: `HZ`, the timer ticks per second; the comment at
igmphandler.cpp:216 gives 100 (circle/sysconfig.h is not among the sources). -/
def HZ : Nat := 100

/-- Modelled from the spec: the conversion `MSEC2HZ` from milliseconds to timer
ticks, rounding down, in 32-bit unsigned arithmetic (circle/timer.h is not among
the sources). -/
def MSEC2HZ (msec : Nat) : Nat := msec * HZ % 4294967296 / 1000

/-- `struct TIGMPHeader`, igmphandler.h:22, packed, eight octets.  `nChecksum` is
held as the 16-bit value whose high byte is the first octet of the field. -/
structure TIGMPHeader where
  nType : Octet
  nMaxRespTime : Octet
  nChecksum : Nat
  GroupAddress : List Octet
deriving DecidableEq, Repr

/-- `sizeof (TIGMPHeader)`. -/
def sizeofTIGMPHeader : Nat := 8

namespace TIGMPHeader

/-- The eight octets of the header in memory order. -/
def bytes (h : TIGMPHeader) : List Octet :=
  [h.nType, h.nMaxRespTime, Fin.ofNat (h.nChecksum / 256 % 256), Fin.ofNat (h.nChecksum % 256)]
    ++ h.GroupAddress

/-- The cast `(const TIGMPHeader *) pPacket`: the header read from the first eight
octets of a buffer. -/
def ofPacket (pPacket : List Octet) : TIGMPHeader :=
  { nType := pPacket.getD 0 0
    nMaxRespTime := pPacket.getD 1 0
    nChecksum := 256 * (pPacket.getD 2 0).val + (pPacket.getD 3 0).val
    GroupAddress := [pPacket.getD 4 0, pPacket.getD 5 0, pPacket.getD 6 0, pPacket.getD 7 0] }

end TIGMPHeader

/-! ## Collaborator calls -/

/-- A call the handler makes to a collaborator. -/
inductive TCall where
  /-- `m_pNetworkLayer->Send (rReceiver, pPacket, nLength, nProtocol)`. -/
  | Send (rReceiver : CIPAddress) (pPacket : List Octet) (nLength : Nat) (nProtocol : Nat)
  /-- `CTimer::Get ()->CancelKernelTimer (hTimer)`. -/
  | CancelKernelTimer (hTimer : Nat)
  /-- `CTimer::Get ()->StartKernelTimer (nDelay, StaticTimerHandler, this, 0)`. -/
  | StartKernelTimer (nDelay : Nat)
deriving DecidableEq, Repr

/-- Whether a call is a `Send`. -/
def TCall.isSend : TCall → Bool
  | .Send _ _ _ _ => true
  | _ => false

/-! ## CIGMPHandler -/

/-- `struct TGroupMembership`, igmphandler.h:51. -/
structure TGroupMembership where
  Address : CIPAddress
deriving DecidableEq, Repr

/-- The data members of `CIGMPHandler` that the operations read and write.
`m_JoinedGroups` is the `CList` of memberships, an ordered sequence in join order
(circle/list.h is not among the sources): `Append` adds at the end, `Remove` takes
out the element the pointer designates.  `m_hKernelTimer` is the timer handle, 0
when there is none. -/
structure CIGMPHandler where
  m_JoinedGroups : List TGroupMembership
  m_hKernelTimer : Nat
  m_bReportScheduled : Bool
  m_ScheduledGroupAddress : CIPAddress
deriving DecidableEq, Repr

namespace CIGMPHandler

/-- The constructor, igmphandler.cpp:11: no membership, no timer, no report
scheduled, scheduled address left default constructed. -/
def init : CIGMPHandler :=
  { m_JoinedGroups := []
    m_hKernelTimer := 0
    m_bReportScheduled := false
    m_ScheduledGroupAddress := CIPAddress.unset }

/-- The loop of `FindGroup`, igmphandler.cpp:50: scan from position `i`. -/
def FindGroupFrom (rGroupAddress : CIPAddress) :
    Nat → List TGroupMembership → Option (Nat × TGroupMembership)
  | _, [] => none
  | i, pGroup :: rest =>
    if pGroup.Address.opEq rGroupAddress then some (i, pGroup)
    else FindGroupFrom rGroupAddress (i + 1) rest

/-- `CIGMPHandler::FindGroup`, igmphandler.cpp:48.  The pointer it returns is the
position in the list together with the membership found there; the null pointer
is `none`. -/
def FindGroup (s : CIGMPHandler) (rGroupAddress : CIPAddress) : Option (Nat × TGroupMembership) :=
  FindGroupFrom rGroupAddress 0 s.m_JoinedGroups

/-- The message built by `SendMembershipReport` and `SendLeaveGroup`
(igmphandler.cpp:270-278 and 300-307): zeroed header, type, group, then the
checksum of the eight octets stored in the checksum field. -/
def BuildMessage (nType : Octet) (rGroupAddress : CIPAddress) : TIGMPHeader :=
  let igmp_packet : TIGMPHeader :=
    { nType := nType, nMaxRespTime := 0, nChecksum := 0, GroupAddress := rGroupAddress.CopyTo }
  { igmp_packet with nChecksum := SimpleCalculate igmp_packet.bytes }

/-- `CIGMPHandler::SendMembershipReport`, igmphandler.cpp:262.  `own` is
`*m_pNetConfig->GetIPAddress ()`. -/
def SendMembershipReport (own : CIPAddress) (rGroupAddress : CIPAddress) : List TCall :=
  if !own.IsSet then []
  else
    [TCall.Send rGroupAddress (BuildMessage IGMP_V2_MEMBERSHIP_REPORT rGroupAddress).bytes
      sizeofTIGMPHeader IPPROTO_IGMP]

/-- The all-routers address 224.0.0.2, `CIPAddress AllRoutersIP (0x020000E0)`,
igmphandler.cpp:313. -/
def AllRoutersIP : CIPAddress := CIPAddress.ofU32 0x020000E0

/-- `CIGMPHandler::SendLeaveGroup`, igmphandler.cpp:292. -/
def SendLeaveGroup (own : CIPAddress) (rGroupAddress : CIPAddress) : List TCall :=
  if !own.IsSet then []
  else
    [TCall.Send AllRoutersIP (BuildMessage IGMP_LEAVE_GROUP rGroupAddress).bytes
      sizeofTIGMPHeader IPPROTO_IGMP]

/-- `CIGMPHandler::JoinGroup`, igmphandler.cpp:61. -/
def JoinGroup (own : CIPAddress) (s : CIGMPHandler) (rGroupAddress : CIPAddress) :
    CIGMPHandler × List TCall :=
  if !rGroupAddress.IsMulticast then (s, [])
  else if (s.FindGroup rGroupAddress).isSome then (s, [])
  else
    let pNewGroup : TGroupMembership := { Address := rGroupAddress }
    ({ s with m_JoinedGroups := s.m_JoinedGroups ++ [pNewGroup] },
      SendMembershipReport own rGroupAddress)

/-- `CIGMPHandler::LeaveGroup`, igmphandler.cpp:88. -/
def LeaveGroup (own : CIPAddress) (s : CIGMPHandler) (rGroupAddress : CIPAddress) :
    CIGMPHandler × List TCall :=
  if !rGroupAddress.IsMulticast then (s, [])
  else
    match s.FindGroup rGroupAddress with
    | none => (s, [])
    | some (i, _) =>
      let sent := SendLeaveGroup own rGroupAddress
      let (s1, cancelled) :=
        if s.m_bReportScheduled && s.m_ScheduledGroupAddress.opEq rGroupAddress then
          ({ s with m_hKernelTimer := 0
                    m_bReportScheduled := false
                    m_ScheduledGroupAddress := CIPAddress.unset },
            if s.m_hKernelTimer != 0 then [TCall.CancelKernelTimer s.m_hKernelTimer] else [])
        else (s, [])
      ({ s1 with m_JoinedGroups := s1.m_JoinedGroups.eraseIdx i }, sent ++ cancelled)

/-- The response window of a query in milliseconds, igmphandler.cpp:148-152: the
raw field counts tenths of a second, 0 stands for the default. -/
def maxRespTimeMs (nMaxRespTime : Octet) : Nat :=
  let maxRespTimeTenths : Nat :=
    if nMaxRespTime.val = 0 then IGMP_MAX_RESPONSE_DELAY_DEFAULT else nMaxRespTime.val
  maxRespTimeTenths * 100

/-- The delay chosen for the report in milliseconds, igmphandler.cpp:211-219.
`nRandom` is what `CScheduler::GetRandomNumber ()` returned. -/
def randomDelayMs (nMaxRespMs nRandom : Nat) : Nat :=
  if nMaxRespMs > 0 then
    let d := nRandom % nMaxRespMs
    if d < 10 && nMaxRespMs ≥ 10 then 10
    else if d == 0 && nMaxRespMs > 0 then 1
    else d
  else 0

/-- The number of ticks handed to `StartKernelTimer`, igmphandler.cpp:221-224. -/
def nDelayTicks (nRandomDelayMs : Nat) : Nat :=
  let n := MSEC2HZ nRandomDelayMs
  if n == 0 && nRandomDelayMs > 0 then 1 else n

/-- The choice of the group to report, igmphandler.cpp:165-202: the address that
is assigned to `m_ScheduledGroupAddress`, or `none` where the source leaves the
switch with `break`. -/
def SelectGroup (s : CIGMPHandler) (groupQueryAddress : CIPAddress) : Option CIPAddress :=
  if groupQueryAddress.IsNull then
    match s.m_JoinedGroups with
    | [] => none
    | pGroupToReport :: _ =>
      if pGroupToReport.Address.IsLinkLocalMulticast then
        match s.m_JoinedGroups.find? (fun p => !p.Address.IsLinkLocalMulticast) with
        | some p => some p.Address
        | none => none
      else some pGroupToReport.Address
  else
    if groupQueryAddress.IsLinkLocalMulticast then none
    else
      match s.FindGroup groupQueryAddress with
      | some (_, pGroup) => some pGroup.Address
      | none => none

/-- The case `IGMP_MEMBERSHIP_QUERY` of `ProcessPacket`, igmphandler.cpp:145-244.
`hStart` is the handle `StartKernelTimer` returns, 0 when the timer could not be
started. -/
def ProcessQuery (s : CIGMPHandler) (pHeader : TIGMPHeader) (nRandom hStart : Nat) :
    CIGMPHandler × List TCall :=
  let groupQueryAddress :=
    CIPAddress.ofOctets (pHeader.GroupAddress.getD 0 0) (pHeader.GroupAddress.getD 1 0)
      (pHeader.GroupAddress.getD 2 0) (pHeader.GroupAddress.getD 3 0)
  if s.m_bReportScheduled then (s, [])
  else
    match s.SelectGroup groupQueryAddress with
    | none => (s, [])
    | some scheduled =>
      let s1 := { s with m_ScheduledGroupAddress := scheduled }
      if scheduled.IsSet && scheduled.IsMulticast then
        let cancelled :=
          if s1.m_hKernelTimer != 0 then [TCall.CancelKernelTimer s1.m_hKernelTimer] else []
        let ticks := nDelayTicks (randomDelayMs (maxRespTimeMs pHeader.nMaxRespTime) nRandom)
        ({ s1 with m_hKernelTimer := hStart, m_bReportScheduled := (hStart != 0) },
          cancelled ++ [TCall.StartKernelTimer ticks])
      else (s1, [])

/-- The checksum test of `ProcessPacket`, igmphandler.cpp:132-137: the header is
copied, the checksum field of the copy is zeroed, and the checksum is computed
over `nLength` octets starting at the copy.  The copy is eight octets long;
`mem` is the memory that follows it, which the computation runs into when
`nLength` is more than eight. -/
def ChecksumMatches (pPacket mem : List Octet) : Bool :=
  let pHeader := TIGMPHeader.ofPacket pPacket
  let testHeader := { pHeader with nChecksum := 0 }
  let calculated_checksum := SimpleCalculate ((testHeader.bytes ++ mem).take pPacket.length)
  pHeader.nChecksum == calculated_checksum

/-- `CIGMPHandler::ProcessPacket`, igmphandler.cpp:122.  `pPacket` is the buffer
of `nLength` octets; `rSenderIP` is only logged and is left out. -/
def ProcessPacket (s : CIGMPHandler) (pPacket mem : List Octet) (nRandom hStart : Nat) :
    CIGMPHandler × List TCall :=
  if pPacket.length < sizeofTIGMPHeader then (s, [])
  else if !ChecksumMatches pPacket mem then (s, [])
  else
    let pHeader := TIGMPHeader.ofPacket pPacket
    if pHeader.nType == IGMP_MEMBERSHIP_QUERY then s.ProcessQuery pHeader nRandom hStart
    else (s, [])

/-- `CIGMPHandler::InstanceTimerHandler`, igmphandler.cpp:353. -/
def InstanceTimerHandler (own : CIPAddress) (s : CIGMPHandler) : CIGMPHandler × List TCall :=
  let sent :=
    if s.m_bReportScheduled && s.m_ScheduledGroupAddress.IsSet
        && s.m_ScheduledGroupAddress.IsMulticast then
      SendMembershipReport own s.m_ScheduledGroupAddress
    else []
  ({ s with m_bReportScheduled := false, m_ScheduledGroupAddress := CIPAddress.unset }, sent)

/-- `CIGMPHandler::StaticTimerHandler`, igmphandler.cpp:340: what the kernel timer
calls when the deadline expires. -/
def StaticTimerHandler (own : CIPAddress) (pThis : CIGMPHandler) : CIGMPHandler × List TCall :=
  let r := InstanceTimerHandler own pThis
  ({ r.1 with m_hKernelTimer := 0 }, r.2)

/-- The states the handler can be in: the state the constructor leaves, and every
state reached from it by `JoinGroup`, `LeaveGroup`, `ProcessPacket` and the expiry
of the deadline, with any own address, any buffer, any random number and any
outcome of `StartKernelTimer`.  `JoinGroup` stores the address it is given; the
address passed to it is a set one, as the accessors of `CIPAddress` require. -/
inductive Reachable : CIGMPHandler → Prop where
  | init : Reachable CIGMPHandler.init
  | join (own g : CIPAddress) (s : CIGMPHandler) :
      Reachable s → g.IsSet = true → Reachable (JoinGroup own s g).1
  | leave (own g : CIPAddress) (s : CIGMPHandler) :
      Reachable s → Reachable (LeaveGroup own s g).1
  | packet (pPacket mem : List Octet) (nRandom hStart : Nat) (s : CIGMPHandler) :
      Reachable s → Reachable (ProcessPacket s pPacket mem nRandom hStart).1
  | expiry (own : CIPAddress) (s : CIGMPHandler) :
      Reachable s → Reachable (StaticTimerHandler own s).1

/-- A buffer that `ProcessPacket` takes as a membership query: it has at least
`sizeof (TIGMPHeader)` octets, it passes the checksum test, and its type is
`IGMP_MEMBERSHIP_QUERY`. -/
def IsMembershipQuery (pPacket mem : List Octet) : Bool :=
  decide (sizeofTIGMPHeader ≤ pPacket.length) && ChecksumMatches pPacket mem
    && (TIGMPHeader.ofPacket pPacket).nType == IGMP_MEMBERSHIP_QUERY

/-- The group address field of a buffer, `CIPAddress groupQueryAddress
(pHeader->GroupAddress)`, igmphandler.cpp:147. -/
def QueryGroup (pPacket : List Octet) : CIPAddress :=
  CIPAddress.ofOctets (pPacket.getD 4 0) (pPacket.getD 5 0) (pPacket.getD 6 0) (pPacket.getD 7 0)

/-- One received buffer together with what the collaborators hand back while it
is processed. -/
structure TReceived where
  pPacket : List Octet
  mem : List Octet
  nRandom : Nat
  hStart : Nat

/-- `ProcessPacket` called for a sequence of received buffers, one after the
other; the calls made are collected in order. -/
def ProcessPackets (s : CIGMPHandler) : List TReceived → CIGMPHandler × List TCall
  | [] => (s, [])
  | x :: rest =>
    let r := ProcessPacket s x.pPacket x.mem x.nRandom x.hStart
    let r2 := ProcessPackets r.1 rest
    (r2.1, r.2 ++ r2.2)

/-- What holds of the data members in every state the handler can be in: each
joined address is set and multicast, no two memberships have the same address, a
scheduled report is for a set, multicast, not link-local address that is joined,
and the timer handle is non-zero exactly while a report is scheduled. -/
structure Inv (s : CIGMPHandler) : Prop where
  joined_ok : ∀ p ∈ s.m_JoinedGroups, p.Address.IsSet = true ∧ p.Address.IsMulticast = true
  joined_nodup : s.m_JoinedGroups.Pairwise (fun p q => p.Address.opEq q.Address = false)
  armed_group : s.m_bReportScheduled = true →
    s.m_ScheduledGroupAddress.IsSet = true ∧ s.m_ScheduledGroupAddress.IsMulticast = true ∧
    s.m_ScheduledGroupAddress.IsLinkLocalMulticast = false ∧
    ({ Address := s.m_ScheduledGroupAddress } : TGroupMembership) ∈ s.m_JoinedGroups
  armed_timer : s.m_bReportScheduled = true → s.m_hKernelTimer ≠ 0
  idle_timer : s.m_bReportScheduled = false → s.m_hKernelTimer = 0

end CIGMPHandler

/-! ## CNetworkLayer

`lib/net/networklayer.cpp`.  The declarations of circle/net/networklayer.h
(`TIPHeader`, `TNetworkPrivateData` and the `IP_` constants) are not among the
sources.  A 16-bit header field is read by the little-endian host as the first
octet plus 256 times the second; `x & 0xF` is written `x % 16`, `x >> 4` is
`x / 16`, and the test of one flag bit is a quotient taken modulo 2. -/

/-- Modelled from the spec: `OnSameNetwork (other, mask)`, the two addresses agree
on every bit of the netmask. -/
def CIPAddress.OnSameNetwork (a rAddress2 pNetMask : CIPAddress) : Bool :=
  a.o0.val &&& pNetMask.o0.val == rAddress2.o0.val &&& pNetMask.o0.val &&
  a.o1.val &&& pNetMask.o1.val == rAddress2.o1.val &&& pNetMask.o1.val &&
  a.o2.val &&& pNetMask.o2.val == rAddress2.o2.val &&& pNetMask.o2.val &&
  a.o3.val &&& pNetMask.o3.val == rAddress2.o3.val &&& pNetMask.o3.val

/-- Modelled from the spec: the snapshot of `CNetConfig` that the network layer
reads, own address, netmask, default gateway and subnet broadcast address
(circle/net/netconfig.h is not among the sources). -/
structure CNetConfig where
  m_IPAddress : CIPAddress
  m_NetMask : CIPAddress
  m_DefaultGateway : CIPAddress
  m_BroadcastAddress : CIPAddress
deriving DecidableEq, Repr

/-- The compile-time constants of the IP layer whose values neither the sources
nor the spec give: the size of a frame buffer and the identification put into
every header that is sent. -/
structure TIPConstants where
  FRAME_BUFFER_SIZE : Nat
  IP_IDENTIFICATION_DEFAULT : Nat
deriving DecidableEq, Repr

/-- Modelled from the spec: `sizeof (TIPHeader)`, 20 octets. -/
def sizeofTIPHeader : Nat := 20
/-- Modelled from the spec: `IP_VERSION`, 4. -/
def IP_VERSION : Nat := 4
/-- Modelled from the spec: `IP_HEADER_LENGTH_DWORD_MIN`, 5. -/
def IP_HEADER_LENGTH_DWORD_MIN : Nat := 5
/-- Modelled from the spec: `IP_HEADER_LENGTH_DWORD_MAX`, 15. -/
def IP_HEADER_LENGTH_DWORD_MAX : Nat := 15
/-- Modelled from the spec: `IP_TOS_ROUTINE`, type of service 0. -/
def IP_TOS_ROUTINE : Octet := 0
/-- Modelled from the spec: `IP_FLAGS_DF`, the don't-fragment flag in the field as
the host reads it, bit 6 of the first octet. -/
def IP_FLAGS_DF : Nat := 64
/-- Modelled from the spec: `IP_FRAGMENT_OFFSET_FIRST`, fragment offset 0. -/
def IP_FRAGMENT_OFFSET_FIRST : Nat := 0
/-- Modelled from the spec: `IP_TTL_DEFAULT`, 64. -/
def IP_TTL_DEFAULT : Octet := 64
/-- Modelled from the spec: `IP_TTL_MULTICAST`, 1. -/
def IP_TTL_MULTICAST : Octet := 1
/-- Modelled from the spec: `IPPROTO_ICMP`, IP protocol 1. -/
def IPPROTO_ICMP : Nat := 1
/-- Modelled from the spec: `ICMP_CODE_DEST_NET_UNREACH`, the code of the
destination-unreachable (net) notification. -/
def ICMP_CODE_DEST_NET_UNREACH : Nat := 0

/-- A 16-bit field of two octets in memory as the little-endian host reads it. -/
def hostU16 (b0 b1 : Octet) : Nat := b0.val + 256 * b1.val

/-- Modelled from the spec: `le2be16` and `BE`, the two octets of a 16-bit value
exchanged. -/
def le2be16 (v : Nat) : Nat := 256 * (v % 256) + v / 256 % 256

/-- The two octets in memory of a 16-bit value the little-endian host stores. -/
def hostU16Octets (v : Nat) : List Octet := [Fin.ofNat (v % 256), Fin.ofNat (v / 256 % 256)]

/-- Modelled from the spec: the test `field & IP_FLAGS_MF` of the more-fragments
flag, bit 5 of the first octet of the field, on the field as the host reads it. -/
def hasMoreFragments (nFlagsFragmentOffset : Nat) : Bool := nFlagsFragmentOffset / 32 % 2 != 0

/-- Modelled from the spec: `IP_FRAGMENT_OFFSET (field)`, the low 13 bits of the
field in network order. -/
def IP_FRAGMENT_OFFSET (field : Nat) : Nat := field % 8192

/-- The `n` octets that are read from a pointer: the octets of the buffer as far as
they go, then the memory that follows the buffer. -/
def readOctets (pBuffer : List Octet) (beyond : Nat → Octet) (n : Nat) : List Octet :=
  pBuffer.take n ++ (List.range (n - pBuffer.length)).map beyond

/-- `struct TNetworkPrivateData`, filled at networklayer.cpp:144-148. -/
structure TNetworkPrivateData where
  nProtocol : Octet
  SourceAddress : List Octet
  DestinationAddress : List Octet
deriving DecidableEq, Repr

/-- Modelled from the spec: an entry of a `CNetQueue`, the octets copied by
`Enqueue (pBuffer, nLength, pParam)`, the length given and the metadata
(circle/net/netqueue.h is not among the sources). -/
structure TNetQueueEntry where
  pBuffer : List Octet
  nLength : Nat
  pParam : TNetworkPrivateData
deriving DecidableEq, Repr

/-- A call the network layer makes to a collaborator. -/
inductive TNetCall where
  /-- `m_pIGMPHandler->ProcessPacket (pPacket, nLength, rSenderIP)`. -/
  | ProcessPacket (pPacket : List Octet) (nLength : Nat) (rSenderIP : CIPAddress)
  /-- A call the IGMP handler makes while it runs. -/
  | Handler (call : TCall)
  /-- `m_pLinkLayer->Send (rNextHop, pFrame, nLength)`. -/
  | LinkSend (rNextHop : CIPAddress) (pFrame : List Octet) (nLength : Nat)
  /-- `SendFailed (nICMPCode, pReturnedPacket, nLength)`, which hands the
  destination-unreachable notification to the ICMP handler. -/
  | SendFailed (nICMPCode : Nat) (pReturnedPacket : List Octet) (nLength : Nat)
deriving DecidableEq, Repr

/-- The data members of `CNetworkLayer` that `Process` reads and writes: the
generic receive queue, the ICMP queue, the second ICMP queue (null unless enabled)
and the IGMP handler (null before `Initialize`).  `Enqueue` adds at the end. -/
structure CNetworkLayer where
  m_RxQueue : List TNetQueueEntry
  m_ICMPRxQueue : List TNetQueueEntry
  m_pICMPRxQueue2 : Option (List TNetQueueEntry)
  m_pIGMPHandler : Option CIGMPHandler
deriving DecidableEq, Repr

namespace CNetworkLayer

/-- The field `nVersionIHL` of the header at the start of a buffer. -/
def nVersionIHL (Buffer : List Octet) : Nat := (Buffer.getD 0 0).val

/-- The header length in octets, networklayer.cpp:89 and 95. -/
def nHeaderLength (Buffer : List Octet) : Nat := nVersionIHL Buffer % 16 * 4

/-- The field `nFlagsFragmentOffset` as the host reads it. -/
def nFlagsFragmentOffset (Buffer : List Octet) : Nat :=
  hostU16 (Buffer.getD 6 0) (Buffer.getD 7 0)

/-- `le2be16 (pHeader->nTotalLength)`, networklayer.cpp:137. -/
def nTotalLength (Buffer : List Octet) : Nat :=
  le2be16 (hostU16 (Buffer.getD 2 0) (Buffer.getD 3 0))

/-- The field `nProtocol`. -/
def nProtocol (Buffer : List Octet) : Octet := Buffer.getD 9 0

/-- The field `SourceAddress`. -/
def SourceAddress (Buffer : List Octet) : List Octet :=
  [Buffer.getD 12 0, Buffer.getD 13 0, Buffer.getD 14 0, Buffer.getD 15 0]

/-- The field `DestinationAddress`. -/
def DestinationAddress (Buffer : List Octet) : List Octet :=
  [Buffer.getD 16 0, Buffer.getD 17 0, Buffer.getD 18 0, Buffer.getD 19 0]

/-- `CIPAddress IPAddressDestination (pHeader->DestinationAddress)`,
networklayer.cpp:107. -/
def IPAddressDestination (Buffer : List Octet) : CIPAddress :=
  CIPAddress.ofOctets (Buffer.getD 16 0) (Buffer.getD 17 0) (Buffer.getD 18 0)
    (Buffer.getD 19 0)

/-- The checks of networklayer.cpp:83-105: `true` when none of them leaves the
loop body with `continue`. -/
def PassesHeaderChecks (Buffer : List Octet) : Bool :=
  if Buffer.length ≤ sizeofTIPHeader then false
  else if nVersionIHL Buffer % 16 < IP_HEADER_LENGTH_DWORD_MIN
      || nVersionIHL Buffer % 16 > IP_HEADER_LENGTH_DWORD_MAX then false
  else if Buffer.length ≤ nHeaderLength Buffer then false
  else if SimpleCalculate (Buffer.take (nHeaderLength Buffer)) != CHECKSUM_OK
      || nVersionIHL Buffer / 16 != IP_VERSION then false
  else true

/-- The check of networklayer.cpp:107-128: `true` when the destination address
does not make the loop body `continue`. -/
def PassesDestinationCheck (cfg : CNetConfig) (Buffer : List Octet) : Bool :=
  if !cfg.m_IPAddress.IsNull then
    if !cfg.m_IPAddress.opEq (IPAddressDestination Buffer)
        && !(IPAddressDestination Buffer).IsBroadcast
        && !(IPAddressDestination Buffer).IsMulticast
        && !cfg.m_BroadcastAddress.opEq (IPAddressDestination Buffer) then false
    else true
  else
    if !(IPAddressDestination Buffer).IsBroadcast
        && !(IPAddressDestination Buffer).IsMulticast then false
    else true

/-- The condition of networklayer.cpp:130-132 under which the frame is dropped as
a fragment. -/
def IsFragment (Buffer : List Octet) : Bool :=
  hasMoreFragments (nFlagsFragmentOffset Buffer)
    || IP_FRAGMENT_OFFSET (le2be16 (nFlagsFragmentOffset Buffer)) != IP_FRAGMENT_OFFSET_FIRST

/-- The payload length after networklayer.cpp:142 and 150, the 32-bit unsigned
difference of the total length and the header length. -/
def nPayloadLength (Buffer : List Octet) : Nat :=
  (nTotalLength Buffer + 4294967296 - nHeaderLength Buffer) % 4294967296

/-- The octets handed on from `Buffer+nHeaderLength` with the payload length;
`beyond` is the memory that follows the received frame. -/
def Payload (Buffer : List Octet) (beyond : Nat → Octet) : List Octet :=
  readOctets (Buffer.drop (nHeaderLength Buffer)) beyond (nPayloadLength Buffer)

/-- The metadata filled at networklayer.cpp:144-148. -/
def PrivateData (Buffer : List Octet) : TNetworkPrivateData :=
  { nProtocol := nProtocol Buffer
    SourceAddress := SourceAddress Buffer
    DestinationAddress := DestinationAddress Buffer }

/-- The queue entry made of the payload and the metadata. -/
def QueueEntry (Buffer : List Octet) (beyond : Nat → Octet) : TNetQueueEntry :=
  { pBuffer := Payload Buffer beyond
    nLength := nPayloadLength Buffer
    pParam := PrivateData Buffer }

/-- The dispatch by protocol, networklayer.cpp:152-178.  `mem`, `nRandom` and
`hStart` are handed to the IGMP handler. -/
def Dispatch (s : CNetworkLayer) (Buffer : List Octet) (beyond : Nat → Octet)
    (mem : List Octet) (nRandom hStart : Nat) : CNetworkLayer × List TNetCall :=
  if (nProtocol Buffer).val == IPPROTO_ICMP then
    ({ s with
        m_pICMPRxQueue2 := s.m_pICMPRxQueue2.map (fun q => q ++ [QueueEntry Buffer beyond])
        m_ICMPRxQueue := s.m_ICMPRxQueue ++ [QueueEntry Buffer beyond] }, [])
  else if (nProtocol Buffer).val == IPPROTO_IGMP then
    match s.m_pIGMPHandler with
    | some pIGMPHandler =>
      let senderIP :=
        CIPAddress.ofOctets (Buffer.getD 12 0) (Buffer.getD 13 0) (Buffer.getD 14 0)
          (Buffer.getD 15 0)
      let r := pIGMPHandler.ProcessPacket (Payload Buffer beyond) mem nRandom hStart
      ({ s with m_pIGMPHandler := some r.1 },
        TNetCall.ProcessPacket (Payload Buffer beyond) (nPayloadLength Buffer) senderIP
          :: r.2.map TNetCall.Handler)
    | none => (s, [])
  else ({ s with m_RxQueue := s.m_RxQueue ++ [QueueEntry Buffer beyond] }, [])

/-- The body of the loop of `CNetworkLayer::Process`, networklayer.cpp:83-178, for
one frame that `m_pLinkLayer->Receive` returned; `nResultLength` is the length of
`Buffer`. -/
def ProcessFrame (cfg : CNetConfig) (s : CNetworkLayer) (Buffer : List Octet)
    (beyond : Nat → Octet) (mem : List Octet) (nRandom hStart : Nat) :
    CNetworkLayer × List TNetCall :=
  if !PassesHeaderChecks Buffer then (s, [])
  else if !PassesDestinationCheck cfg Buffer then (s, [])
  else if IsFragment Buffer then (s, [])
  else if Buffer.length < nTotalLength Buffer then (s, [])
  else Dispatch s Buffer beyond mem nRandom hStart

/-- A frame that `Process` accepts: it passes the header checks, the destination
check, the fragment check and the total-length check. -/
def Accepted (cfg : CNetConfig) (Buffer : List Octet) : Bool :=
  PassesHeaderChecks Buffer && PassesDestinationCheck cfg Buffer && !IsFragment Buffer
    && !decide (Buffer.length < nTotalLength Buffer)

/-- The header that `Send` builds, networklayer.cpp:202-219, with the given value
in the checksum field. -/
def BuildHeader (k : TIPConstants) (own rReceiver : CIPAddress) (nPacketLength nProtocol : Nat)
    (nHeaderChecksum : Nat) : List Octet :=
  [Fin.ofNat (IP_VERSION * 16 + IP_HEADER_LENGTH_DWORD_MIN), IP_TOS_ROUTINE]
    ++ hostU16Octets (le2be16 (nPacketLength % 65536))
    ++ hostU16Octets (le2be16 k.IP_IDENTIFICATION_DEFAULT)
    ++ hostU16Octets (IP_FLAGS_DF ||| le2be16 IP_FRAGMENT_OFFSET_FIRST)
    ++ [if rReceiver.IsMulticast then IP_TTL_MULTICAST else IP_TTL_DEFAULT,
        Fin.ofNat (nProtocol % 256),
        Fin.ofNat (nHeaderChecksum / 256 % 256), Fin.ofNat (nHeaderChecksum % 256)]
    ++ own.CopyTo ++ rReceiver.CopyTo

/-- The packet that `Send` builds: the header with its checksum, then the payload,
networklayer.cpp:199-223. -/
def PacketBuffer (k : TIPConstants) (own rReceiver : CIPAddress) (pPacket : List Octet)
    (nPacketLength nProtocol : Nat) : List Octet :=
  BuildHeader k own rReceiver nPacketLength nProtocol
      (SimpleCalculate (BuildHeader k own rReceiver nPacketLength nProtocol 0))
    ++ pPacket

/-- The length guard of `Send`, networklayer.cpp:192-197, is passed: the 32-bit
sum of the header size and the payload length is more than the header size and at
most `FRAME_BUFFER_SIZE`. -/
def PassesLengthGuard (k : TIPConstants) (pPacket : List Octet) : Bool :=
  decide (sizeofTIPHeader < (sizeofTIPHeader + pPacket.length) % 4294967296)
    && decide ((sizeofTIPHeader + pPacket.length) % 4294967296 ≤ k.FRAME_BUFFER_SIZE)

/-- The frame that goes to the link layer when `SendMembershipReport` hands its
message for the group to `Send`: the header for 28 octets and protocol 2, then the
eight octets of the report. -/
def ReportFrame (k : TIPConstants) (own rGroupAddress : CIPAddress) : List Octet :=
  PacketBuffer k own rGroupAddress
    (CIGMPHandler.BuildMessage IGMP_V2_MEMBERSHIP_REPORT rGroupAddress).bytes 28 IPPROTO_IGMP

/-- `CNetworkLayer::Send`, networklayer.cpp:190.  `nLength` is the length of
`pPacket`; `pGateway` is what `m_RouteCache.GetRoute` returns, the four octets of a
gateway or null; `bLinkSent` is what `m_pLinkLayer->Send` returns. -/
def Send (k : TIPConstants) (cfg : CNetConfig) (pGateway : Option (Octet × Octet × Octet × Octet))
    (bLinkSent : Bool) (rReceiver : CIPAddress) (pPacket : List Octet) (nProtocol : Nat) :
    Bool × List TNetCall :=
  let nPacketLength := (sizeofTIPHeader + pPacket.length) % 4294967296
  if nPacketLength ≤ sizeofTIPHeader || nPacketLength > k.FRAME_BUFFER_SIZE then (false, [])
  else
    let packet := PacketBuffer k cfg.m_IPAddress rReceiver pPacket nPacketLength nProtocol
    if cfg.m_IPAddress.IsNull && !rReceiver.IsBroadcast then
      (false, [TNetCall.SendFailed ICMP_CODE_DEST_NET_UNREACH packet nPacketLength])
    else if !rReceiver.IsMulticast
        && !cfg.m_IPAddress.OnSameNetwork rReceiver cfg.m_NetMask then
      match pGateway with
      | some (a, b, c, d) =>
        (bLinkSent, [TNetCall.LinkSend (CIPAddress.ofOctets a b c d) packet nPacketLength])
      | none =>
        if cfg.m_DefaultGateway.IsNull then
          (false, [TNetCall.SendFailed ICMP_CODE_DEST_NET_UNREACH packet nPacketLength])
        else (bLinkSent, [TNetCall.LinkSend cfg.m_DefaultGateway packet nPacketLength])
    else (bLinkSent, [TNetCall.LinkSend rReceiver packet nPacketLength])

end CNetworkLayer

/-! ## CMACAddress

`lib/macaddress.cpp`. -/

/-- The data members of `CMACAddress`: six octets and the flag that they are
valid. -/
structure CMACAddress where
  m_bValid : Bool
  m_Address : List Octet
deriving DecidableEq, Repr

namespace CMACAddress

/-- `CMACAddress::IsMulticast`, macaddress.cpp:107. -/
def IsMulticast (a : CMACAddress) : Bool := (a.m_Address.getD 0 0).val &&& 0x01 != 0

/-- `CMACAddress::SetToMulticastIP`, macaddress.cpp:115: all six octets and the flag
are written, so the result does not depend on the address held before.
`rIPAddress.Get ()` gives the four octets of the address. -/
def SetToMulticastIP (rIPAddress : CIPAddress) : CMACAddress :=
  { m_bValid := true
    m_Address := [0x01, 0x00, 0x5E, Fin.ofNat (rIPAddress.o1.val &&& 0x7F),
      rIPAddress.o2, rIPAddress.o3] }

end CMACAddress

/-! ## CUDPConnection

`lib/net/udpconnection.cpp`. -/

/-- Modelled from the spec: `IPPROTO_UDP`, IP protocol 17 (circle/net/in.h is not
among the sources). -/
def IPPROTO_UDP : Nat := 17

/-- `sizeof (TUDPHeader)`, udpconnection.cpp:26: four 16-bit fields. -/
def sizeofTUDPHeader : Nat := 8

/-- `UDP_CHECKSUM_NONE`, udpconnection.cpp:32. -/
def UDP_CHECKSUM_NONE : Nat := 0

/-- Modelled from the spec: `be2le16`, the two octets of a 16-bit value exchanged. -/
def be2le16 (v : Nat) : Nat := 256 * (v % 256) + v / 256 % 256

/-- `struct TUDPPrivateData`, udpconnection.cpp:36. -/
structure TUDPPrivateData where
  SourceAddress : List Octet
  nSourcePort : Nat
deriving DecidableEq, Repr

/-- Modelled from the spec: an entry of the receive queue of the connection, the
octets copied by `Enqueue`, the length given and the metadata. -/
structure TUDPQueueEntry where
  pBuffer : List Octet
  nLength : Nat
  pParam : TUDPPrivateData
deriving DecidableEq, Repr

/-- A call the connection makes to a collaborator. -/
inductive TUDPCall where
  /-- `m_pNetworkLayer->NotifyJoinGroup (rGroupAddress)`. -/
  | NotifyJoinGroup (rGroupAddress : CIPAddress)
  /-- `m_pNetworkLayer->NotifyLeaveGroup (rGroupAddress)`. -/
  | NotifyLeaveGroup (rGroupAddress : CIPAddress)
  /-- `m_Event.Set ()`. -/
  | EventSet
deriving DecidableEq, Repr

/-- The data members of `CUDPConnection` and of its base `CNetConnection` that the
operations read and write. -/
structure CUDPConnection where
  m_ForeignIP : CIPAddress
  m_nForeignPort : Nat
  m_nOwnPort : Nat
  m_bOpen : Bool
  m_bActiveOpen : Bool
  m_bBroadcastsAllowed : Bool
  m_nErrno : Int
  m_MulticastGroup : CIPAddress
  m_RxQueue : List TUDPQueueEntry
deriving DecidableEq, Repr

namespace CUDPConnection

/-- `CUDPConnection::IsMulticastConnection`, udpconnection.cpp:460. -/
def IsMulticastConnection (c : CUDPConnection) : Bool :=
  c.m_MulticastGroup.IsSet && c.m_MulticastGroup.IsMulticast

/-- `CUDPConnection::JoinMulticastGroup`, udpconnection.cpp:426: the value
returned, the connection afterwards and the calls made. -/
def JoinMulticastGroup (c : CUDPConnection) (rGroupAddress : CIPAddress) :
    Int × CUDPConnection × List TUDPCall :=
  if !rGroupAddress.IsSet || !rGroupAddress.IsMulticast then (-1, c, [])
  else if c.m_bActiveOpen then (-1, c, [])
  else
    (0, { c with m_MulticastGroup := rGroupAddress }, [TUDPCall.NotifyJoinGroup rGroupAddress])

/-- `CUDPConnection::LeaveMulticastGroup`, udpconnection.cpp:448. -/
def LeaveMulticastGroup (c : CUDPConnection) (rGroupAddress : CIPAddress) :
    Int × CUDPConnection × List TUDPCall :=
  if c.m_MulticastGroup.IsSet && c.m_MulticastGroup.opEq rGroupAddress then
    (0, { c with m_MulticastGroup := CIPAddress.unset },
      [TUDPCall.NotifyLeaveGroup rGroupAddress])
  else (0, c, [])

/-- The field `nSourcePort` of the UDP header after `be2le16`. -/
def nSourcePort (pPacket : List Octet) : Nat :=
  be2le16 (hostU16 (pPacket.getD 0 0) (pPacket.getD 1 0))

/-- The field `nDestPort` of the UDP header after `be2le16`. -/
def nDestPort (pPacket : List Octet) : Nat :=
  be2le16 (hostU16 (pPacket.getD 2 0) (pPacket.getD 3 0))

/-- The field `nLength` of the UDP header after `be2le16`. -/
def nHeaderLengthField (pPacket : List Octet) : Nat :=
  be2le16 (hostU16 (pPacket.getD 4 0) (pPacket.getD 5 0))

/-- The field `nChecksum` of the UDP header as the host reads it. -/
def nChecksumField (pPacket : List Octet) : Nat :=
  hostU16 (pPacket.getD 6 0) (pPacket.getD 7 0)

/-- The flag `isForThisConnection`, udpconnection.cpp:355-385. -/
def isForThisConnection (cfg : CNetConfig) (c : CUDPConnection) (pPacket : List Octet)
    (rSenderIP rReceiverIP : CIPAddress) : Bool :=
  if rReceiverIP.IsMulticast then
    if c.IsMulticastConnection && c.m_MulticastGroup.opEq rReceiverIP then true else false
  else if c.m_bActiveOpen then
    if c.m_nForeignPort == nSourcePort pPacket && c.m_ForeignIP.opEq rSenderIP then true
    else false
  else
    if rReceiverIP.IsBroadcast || rReceiverIP.opEq cfg.m_BroadcastAddress then
      if c.m_bBroadcastsAllowed then true else false
    else true

/-- `CUDPConnection::PacketReceived`, udpconnection.cpp:333.  `nLength` is the
length of `pPacket`; `nCalculated` is what `m_Checksum.Calculate (pPacket, nLength)`
returns for the pseudo header of sender and receiver. -/
def PacketReceived (cfg : CNetConfig) (c : CUDPConnection) (pPacket : List Octet)
    (rSenderIP rReceiverIP : CIPAddress) (nProtocol : Nat) (nCalculated : Nat) :
    Int × CUDPConnection × List TUDPCall :=
  if nProtocol != IPPROTO_UDP then (0, c, [])
  else if pPacket.length ≤ sizeofTUDPHeader then (-1, c, [])
  else if c.m_nOwnPort != nDestPort pPacket then (0, c, [])
  else if !isForThisConnection cfg c pPacket rSenderIP rReceiverIP then (0, c, [])
  else if pPacket.length < nHeaderLengthField pPacket then (-1, c, [])
  else if nChecksumField pPacket != UDP_CHECKSUM_NONE && nCalculated != CHECKSUM_OK then
    (-1, c, [])
  else
    let nLength := pPacket.length - sizeofTUDPHeader
    let pData : TUDPPrivateData :=
      { SourceAddress := rSenderIP.CopyTo, nSourcePort := nSourcePort pPacket }
    (1, { c with m_RxQueue := c.m_RxQueue ++
            [{ pBuffer := pPacket.drop sizeofTUDPHeader, nLength := nLength, pParam := pData }] },
      [TUDPCall.EventSet])

end CUDPConnection

/-! ## Verification over the whole range, notifications and events -/

/-- The form of verification that `CNetworkLayer::Process` applies to the IP header,
networklayer.cpp:101: the checksum over the whole range, checksum field included,
is `CHECKSUM_OK`. -/
def ChecksumOkOverWhole (buf : List Octet) : Bool := SimpleCalculate buf == CHECKSUM_OK

namespace CNetworkLayer

/-- `CNetworkLayer::NotifyJoinGroup`, networklayer.cpp:414.  The handler reads the
own address from the configuration; the calls it makes are recorded. -/
def NotifyJoinGroup (cfg : CNetConfig) (s : CNetworkLayer) (rGroupAddress : CIPAddress) :
    CNetworkLayer × List TNetCall :=
  match s.m_pIGMPHandler with
  | some pIGMPHandler =>
    let r := pIGMPHandler.JoinGroup cfg.m_IPAddress rGroupAddress
    ({ s with m_pIGMPHandler := some r.1 }, r.2.map TNetCall.Handler)
  | none => (s, [])

/-- `CNetworkLayer::NotifyLeaveGroup`, networklayer.cpp:422. -/
def NotifyLeaveGroup (cfg : CNetConfig) (s : CNetworkLayer) (rGroupAddress : CIPAddress) :
    CNetworkLayer × List TNetCall :=
  match s.m_pIGMPHandler with
  | some pIGMPHandler =>
    let r := pIGMPHandler.LeaveGroup cfg.m_IPAddress rGroupAddress
    ({ s with m_pIGMPHandler := some r.1 }, r.2.map TNetCall.Handler)
  | none => (s, [])

/-- What one call of a UDP connection does in the network layer; `m_Event.Set ()`
does not reach the network layer. -/
def Notified (cfg : CNetConfig) (s : CNetworkLayer) : TUDPCall → CNetworkLayer × List TNetCall
  | TUDPCall.NotifyJoinGroup rGroupAddress => NotifyJoinGroup cfg s rGroupAddress
  | TUDPCall.NotifyLeaveGroup rGroupAddress => NotifyLeaveGroup cfg s rGroupAddress
  | TUDPCall.EventSet => (s, [])

/-- The calls of a UDP connection carried out in the network layer one after the
other. -/
def NotifiedAll (cfg : CNetConfig) (s : CNetworkLayer) :
    List TUDPCall → CNetworkLayer × List TNetCall
  | [] => (s, [])
  | call :: rest =>
    let r := Notified cfg s call
    let r2 := NotifiedAll cfg r.1 rest
    (r2.1, r.2 ++ r2.2)

end CNetworkLayer

namespace CIGMPHandler

/-- An event the handler reacts to, with what its collaborators hand back while it
is handled: the own address read from the configuration, the memory after the copy
of the header, the random number, the handle of the timer. -/
inductive TEvent where
  /-- `JoinGroup (rGroupAddress)`. -/
  | JoinGroup (own rGroupAddress : CIPAddress)
  /-- `LeaveGroup (rGroupAddress)`. -/
  | LeaveGroup (own rGroupAddress : CIPAddress)
  /-- `ProcessPacket (pPacket, nLength, rSenderIP)`. -/
  | ProcessPacket (pPacket mem : List Octet) (nRandom hStart : Nat)
  /-- The kernel timer calls `StaticTimerHandler`. -/
  | TimerExpired (own : CIPAddress)
deriving DecidableEq, Repr

/-- The handler reacting to one event. -/
def Handle (s : CIGMPHandler) : TEvent → CIGMPHandler × List TCall
  | TEvent.JoinGroup own rGroupAddress => JoinGroup own s rGroupAddress
  | TEvent.LeaveGroup own rGroupAddress => LeaveGroup own s rGroupAddress
  | TEvent.ProcessPacket pPacket mem nRandom hStart => ProcessPacket s pPacket mem nRandom hStart
  | TEvent.TimerExpired own => StaticTimerHandler own s

/-- The handler reacting to a sequence of events, one after the other; the calls
made are collected in order. -/
def HandleAll (s : CIGMPHandler) : List TEvent → CIGMPHandler × List TCall
  | [] => (s, [])
  | e :: rest =>
    let r := Handle s e
    let r2 := HandleAll r.1 rest
    (r2.1, r.2 ++ r2.2)

end CIGMPHandler

/-! ## Sample inputs -/

namespace Sample

/-- The own address 192.168.1.10. -/
def own : CIPAddress := CIPAddress.ofOctets 192 168 1 10
/-- The group 239.1.2.3. -/
def g239_1_2_3 : CIPAddress := CIPAddress.ofOctets 239 1 2 3
/-- The group 239.5.5.5. -/
def g239_5_5_5 : CIPAddress := CIPAddress.ofOctets 239 5 5 5
/-- The group 239.9.9.9. -/
def g239_9_9_9 : CIPAddress := CIPAddress.ofOctets 239 9 9 9
/-- The link-local group 224.0.0.1. -/
def g224_0_0_1 : CIPAddress := CIPAddress.ofOctets 224 0 0 1
/-- The link-local group 224.0.0.5. -/
def g224_0_0_5 : CIPAddress := CIPAddress.ofOctets 224 0 0 5

/-- A membership query of eight octets with the given response time and group and
a checksum field that holds the checksum of the message. -/
def query (nMaxRespTime : Octet) (g : CIPAddress) : List Octet :=
  ({ nType := IGMP_MEMBERSHIP_QUERY
     nMaxRespTime := nMaxRespTime
     nChecksum :=
       SimpleCalculate [IGMP_MEMBERSHIP_QUERY, nMaxRespTime, 0, 0, g.o0, g.o1, g.o2, g.o3]
     GroupAddress := g.CopyTo } : TIGMPHeader).bytes

/-- The handler after joining 239.1.2.3. -/
def joined1 : CIGMPHandler := (CIGMPHandler.JoinGroup own CIGMPHandler.init g239_1_2_3).1

/-- The handler after joining 224.0.0.1 and then 239.5.5.5. -/
def joined2 : CIGMPHandler :=
  (CIGMPHandler.JoinGroup own (CIGMPHandler.JoinGroup own CIGMPHandler.init g224_0_0_1).1
    g239_5_5_5).1

/-- The handler after joining 239.5.5.5. -/
def joined3 : CIGMPHandler := (CIGMPHandler.JoinGroup own CIGMPHandler.init g239_5_5_5).1

/-- The handler after joining 239.5.5.5 and accepting a general query, the timer
started with handle 7. -/
def armed3 : CIGMPHandler :=
  (CIGMPHandler.ProcessPacket joined3 (query 100 (CIPAddress.ofOctets 0 0 0 0)) [] 123456 7).1

/-- The handler after joining 239.5.5.5 and accepting a general query while the
own address is not set, the timer started with handle 7. -/
def armedNoIp : CIGMPHandler :=
  (CIGMPHandler.ProcessPacket
    (CIGMPHandler.JoinGroup CIPAddress.unset CIGMPHandler.init g239_5_5_5).1
    (query 100 (CIPAddress.ofOctets 0 0 0 0)) [] 123456 7).1

/-- A membership query of ten octets: the eight octets of a general query with
maxRespTime 100 and checksum field EE 9A, followed by the two octets AB CD. -/
def longQuery : List Octet := [0x11, 100, 0xEE, 0x9A, 0, 0, 0, 0, 0xAB, 0xCD]

/-- Two octets 00 01 in the memory that follows the copy of the header. -/
def memAfterCopy : List Octet := [0, 1]

/-- A configuration: own address 192.168.1.10, netmask 255.255.255.0, default
gateway 192.168.1.1, subnet broadcast 192.168.1.255. -/
def config : CNetConfig :=
  { m_IPAddress := own
    m_NetMask := CIPAddress.ofOctets 255 255 255 0
    m_DefaultGateway := CIPAddress.ofOctets 192 168 1 1
    m_BroadcastAddress := CIPAddress.ofOctets 192 168 1 255 }

/-- The configuration before an address is assigned: own address 0.0.0.0. -/
def configNoIp : CNetConfig :=
  { m_IPAddress := CIPAddress.ofOctets 0 0 0 0
    m_NetMask := CIPAddress.ofOctets 0 0 0 0
    m_DefaultGateway := CIPAddress.ofOctets 0 0 0 0
    m_BroadcastAddress := CIPAddress.ofOctets 255 255 255 255 }

/-- Constants: frame buffers of 1600 octets, identification 0. -/
def constants : TIPConstants := { FRAME_BUFFER_SIZE := 1600, IP_IDENTIFICATION_DEFAULT := 0 }

/-- The frame of 28 octets that carries a general query from 192.168.1.1 to
224.0.0.1, protocol 2. -/
def queryFrame : List Octet :=
  CNetworkLayer.PacketBuffer constants (CIPAddress.ofOctets 192 168 1 1) g224_0_0_1
    (query 100 (CIPAddress.ofOctets 0 0 0 0)) 28 2

/-- The frame `queryFrame` with the more-fragments flag set in place of the
don't-fragment flag, and the header checksum of that header. -/
def fragmentFrame : List Octet :=
  [0x45, 0, 0, 28, 0, 0, 0x20, 0, 1, 2, 0xF8, 0x35, 192, 168, 1, 1, 224, 0, 0, 1]
    ++ query 100 (CIPAddress.ofOctets 0 0 0 0)

/-- The memory that follows a received frame, all zero. -/
def beyond : Nat → Octet := fun _ => 0

/-- A network layer after `Initialize` whose IGMP handler has joined 239.5.5.5;
the queues are empty and the second ICMP queue is not enabled. -/
def layer : CNetworkLayer :=
  { m_RxQueue := [], m_ICMPRxQueue := [], m_pICMPRxQueue2 := none, m_pIGMPHandler := some joined3 }

/-- A passive UDP endpoint on port 5000, as the second constructor leaves it. -/
def udpPassive : CUDPConnection :=
  { m_ForeignIP := CIPAddress.unset, m_nForeignPort := 0, m_nOwnPort := 5000, m_bOpen := true,
    m_bActiveOpen := false, m_bBroadcastsAllowed := false, m_nErrno := 0,
    m_MulticastGroup := CIPAddress.unset, m_RxQueue := [] }

/-- The passive endpoint on port 5000 subscribed to 239.1.2.3. -/
def udpSubscribed : CUDPConnection := { udpPassive with m_MulticastGroup := g239_1_2_3 }

/-- An active-open UDP endpoint on port 5000 connected to 192.168.1.20 port 7000. -/
def udpActive : CUDPConnection :=
  { udpPassive with m_ForeignIP := CIPAddress.ofOctets 192 168 1 20, m_nForeignPort := 7000,
                    m_bActiveOpen := true }

/-- A UDP datagram of nine octets from port 7000 to port 5000, length field 9,
checksum field 0, one octet of data. -/
def datagramTo5000 : List Octet := [0x1B, 0x58, 0x13, 0x88, 0, 9, 0, 0, 0x2A]

/-- The same datagram addressed to port 6000. -/
def datagramTo6000 : List Octet := [0x1B, 0x58, 0x17, 0x70, 0, 9, 0, 0, 0x2A]

/-- A group-specific query for 238.155.0.0 with maximum response time 100 whose
checksum field holds 0xFFFF; the other three words add up to 0xFFFF. -/
def queryFieldFFFF : List Octet := [0x11, 0x64, 0xFF, 0xFF, 0xEE, 0x9B, 0, 0]

/-- A frame of 28 octets from 192.168.1.1 to 224.0.0.1, protocol 2, that carries a
general query; its total-length field holds 8, less than the header length, and the
header checksum 0xD849 is the one of these twenty octets. -/
def shortTotalFrame : List Octet :=
  [0x45, 0, 0, 8, 0, 0, 0x40, 0, 1, 2, 0xD8, 0x49, 192, 168, 1, 1, 224, 0, 0, 1]
    ++ query 100 (CIPAddress.ofOctets 0 0 0 0)

/-- A frame of 29 octets from 192.168.1.1 to 192.168.1.10, protocol 17, that
carries a UDP datagram of nine octets; its total-length field holds 0, and the
header checksum 0xB791 is the one of these twenty octets. -/
def zeroTotalFrame : List Octet :=
  [0x45, 0, 0, 0, 0, 0, 0x40, 0, 64, 17, 0xB7, 0x91, 192, 168, 1, 1, 192, 168, 1, 10]
    ++ datagramTo5000

/-- The configuration `config` with an own address that has not been set. -/
def configUnset : CNetConfig := { config with m_IPAddress := CIPAddress.unset }

end Sample

end Circle

/-! ## Lemmas on addresses and on the membership list -/

namespace Circle

theorem CIPAddress.opEq_iff (a b : CIPAddress) :
    a.opEq b = true ↔ a.o0 = b.o0 ∧ a.o1 = b.o1 ∧ a.o2 = b.o2 ∧ a.o3 = b.o3 := by
  simp [CIPAddress.opEq, Bool.and_eq_true, and_assoc]

theorem CIPAddress.opEq_self (a : CIPAddress) : a.opEq a = true := by
  simp [CIPAddress.opEq_iff]

theorem CIPAddress.opEq_false_iff (a b : CIPAddress) :
    a.opEq b = false ↔ ¬ (a.o0 = b.o0 ∧ a.o1 = b.o1 ∧ a.o2 = b.o2 ∧ a.o3 = b.o3) := by
  rw [← CIPAddress.opEq_iff]; simp

/-- Two addresses that compare equal with `operator==` are both multicast or
both not. -/
theorem CIPAddress.IsMulticast_congr {a b : CIPAddress} (h : a.opEq b = true) :
    a.IsMulticast = b.IsMulticast := by
  rw [CIPAddress.opEq_iff] at h
  simp [CIPAddress.IsMulticast, h.1]

/-- Two addresses that compare equal with `operator==` are both link-local
multicast or both not. -/
theorem CIPAddress.IsLinkLocalMulticast_congr {a b : CIPAddress} (h : a.opEq b = true) :
    a.IsLinkLocalMulticast = b.IsLinkLocalMulticast := by
  rw [CIPAddress.opEq_iff] at h
  simp [CIPAddress.IsLinkLocalMulticast, h.1, h.2.1, h.2.2.1]

namespace CIGMPHandler

/-- The scan finds nothing exactly when no membership of the list has the address. -/
theorem FindGroupFrom_eq_none (g : CIPAddress) (l : List TGroupMembership) (i : Nat) :
    FindGroupFrom g i l = none ↔ ∀ p ∈ l, p.Address.opEq g = false := by
  induction l generalizing i with
  | nil => simp [FindGroupFrom]
  | cons p rest ih =>
    by_cases hp : p.Address.opEq g = true
    · simp [FindGroupFrom, hp]
    · simp [FindGroupFrom, hp, ih]

/-- What the scan finds is the first membership with the address: the list splits
around it, and nothing before it has the address. -/
theorem FindGroupFrom_eq_some (g : CIPAddress) (l : List TGroupMembership) (i j : Nat)
    (p : TGroupMembership) (h : FindGroupFrom g i l = some (j, p)) :
    ∃ l1 l2, l = l1 ++ p :: l2 ∧ j = i + l1.length ∧ p.Address.opEq g = true ∧
      ∀ q ∈ l1, q.Address.opEq g = false := by
  induction l generalizing i with
  | nil => simp [FindGroupFrom] at h
  | cons q rest ih =>
    by_cases hq : q.Address.opEq g = true
    · simp [FindGroupFrom, hq] at h
      refine ⟨[], rest, ?_, ?_, ?_, ?_⟩
      · simp [h.2]
      · simp [h.1]
      · rw [← h.2]; exact hq
      · simp
    · simp [FindGroupFrom, hq] at h
      obtain ⟨l1, l2, h1, h2, h3, h4⟩ := ih (i + 1) h
      refine ⟨q :: l1, l2, ?_, ?_, h3, ?_⟩
      · simp [h1]
      · simp [h2]; omega
      · intro r hr
        rcases List.mem_cons.mp hr with hr | hr
        · subst hr; simpa using hq
        · exact h4 r hr

/-- Removing the element that follows a prefix, by its position. -/
theorem eraseIdx_append_cons (l1 l2 : List TGroupMembership) (p : TGroupMembership) :
    (l1 ++ p :: l2).eraseIdx l1.length = l1 ++ l2 := by
  induction l1 with
  | nil => simp
  | cons q l1 ih => simp [ih]

/-- A membership with the address is found when one is in the list. -/
theorem FindGroupFrom_isSome_of_mem (g : CIPAddress) (l : List TGroupMembership) (i : Nat)
    (p : TGroupMembership) (hp : p ∈ l) (hg : p.Address.opEq g = true) :
    (FindGroupFrom g i l).isSome = true := by
  cases h : FindGroupFrom g i l with
  | some r => rfl
  | none =>
    rw [FindGroupFrom_eq_none] at h
    rw [h p hp] at hg
    cases hg

end CIGMPHandler

end Circle

/-! ## The invariant of the reachable states -/

namespace Circle

namespace CIGMPHandler

theorem Inv_init : Inv init := by
  constructor <;> simp [init]

theorem Inv_JoinGroup (own g : CIPAddress) (s : CIGMPHandler) (hs : Inv s)
    (hg : g.IsSet = true) : Inv (JoinGroup own s g).1 := by
  unfold JoinGroup
  by_cases hm : g.IsMulticast = true
  · cases hf : s.FindGroup g with
    | some r => simpa [hm, hf] using hs
    | none =>
      have hnone := (FindGroupFrom_eq_none g s.m_JoinedGroups 0).mp hf
      simp only [hm, hf, Bool.not_true, Bool.false_eq_true, if_false, Option.isSome_none]
      constructor
      · intro p hp
        rcases List.mem_append.mp hp with hp | hp
        · exact hs.joined_ok p hp
        · simp at hp; subst hp; exact ⟨hg, hm⟩
      · simp only [List.pairwise_append]
        refine ⟨hs.joined_nodup, by simp, ?_⟩
        intro p hp q hq
        simp at hq; subst hq
        exact hnone p hp
      · intro ha
        obtain ⟨h1, h2, h3, h4⟩ := hs.armed_group ha
        exact ⟨h1, h2, h3, List.mem_append_left _ h4⟩
      · exact hs.armed_timer
      · exact hs.idle_timer
  · simpa [hm] using hs

/-- The state and calls of `LeaveGroup` for a multicast address that is found in
the list, written with the list split around the membership found. -/
theorem LeaveGroup_found (own g : CIPAddress) (s : CIGMPHandler)
    (hm : g.IsMulticast = true) (i : Nat) (p : TGroupMembership)
    (hf : s.FindGroup g = some (i, p)) :
    ∃ l1 l2, s.m_JoinedGroups = l1 ++ p :: l2 ∧ p.Address.opEq g = true ∧
      (∀ q ∈ l1, q.Address.opEq g = false) ∧
      LeaveGroup own s g =
        if s.m_bReportScheduled && s.m_ScheduledGroupAddress.opEq g then
          ({ m_JoinedGroups := l1 ++ l2, m_hKernelTimer := 0, m_bReportScheduled := false,
             m_ScheduledGroupAddress := CIPAddress.unset },
            SendLeaveGroup own g ++
              (if s.m_hKernelTimer != 0 then [TCall.CancelKernelTimer s.m_hKernelTimer] else []))
        else ({ s with m_JoinedGroups := l1 ++ l2 }, SendLeaveGroup own g ++ []) := by
  obtain ⟨l1, l2, h1, h2, h3, h4⟩ := FindGroupFrom_eq_some g s.m_JoinedGroups 0 i p hf
  refine ⟨l1, l2, h1, h3, h4, ?_⟩
  have hi : i = l1.length := by omega
  unfold LeaveGroup
  simp only [hm, hf, Bool.not_true, Bool.false_eq_true, if_false]
  by_cases hc : (s.m_bReportScheduled && s.m_ScheduledGroupAddress.opEq g) = true
  · simp only [hc, if_true, h1, hi, eraseIdx_append_cons]
  · simp only [hc, if_false, h1, hi, eraseIdx_append_cons, Bool.false_eq_true]

theorem Inv_LeaveGroup (own g : CIPAddress) (s : CIGMPHandler) (hs : Inv s) :
    Inv (LeaveGroup own s g).1 := by
  by_cases hm : g.IsMulticast = true
  · cases hf : s.FindGroup g with
    | none => simpa [LeaveGroup, hm, hf] using hs
    | some r =>
      obtain ⟨i, p⟩ := r
      obtain ⟨l1, l2, h1, h2, h3, h4⟩ := LeaveGroup_found own g s hm i p hf
      rw [h4]
      have hok := hs.joined_ok
      have hnd := hs.joined_nodup
      rw [h1] at hok hnd
      have hok2 : ∀ q ∈ l1 ++ l2, q.Address.IsSet = true ∧ q.Address.IsMulticast = true := by
        intro q hq
        apply hok q
        rcases List.mem_append.mp hq with hq | hq
        · exact List.mem_append_left _ hq
        · exact List.mem_append_right _ (List.mem_cons_of_mem _ hq)
      have hnd2 : (l1 ++ l2).Pairwise (fun p q => p.Address.opEq q.Address = false) := by
        refine hnd.sublist ?_
        exact List.Sublist.append_left (List.sublist_cons_self p l2) l1
      by_cases hc : (s.m_bReportScheduled && s.m_ScheduledGroupAddress.opEq g) = true
      · simp only [hc, if_true]
        constructor <;> simp_all
      · simp only [hc, if_false, Bool.false_eq_true]
        refine ⟨hok2, hnd2, ?_, hs.armed_timer, hs.idle_timer⟩
        intro ha
        obtain ⟨a1, a2, a3, a4⟩ := hs.armed_group ha
        refine ⟨a1, a2, a3, ?_⟩
        have hne : s.m_ScheduledGroupAddress.opEq g = false := by
          simp only [show s.m_bReportScheduled = true from ha, Bool.true_and] at hc
          simpa using hc
        rw [h1] at a4
        simp only [List.mem_append, List.mem_cons] at a4 ⊢
        rcases a4 with a4 | a4 | a4
        · exact Or.inl a4
        · rw [← a4] at h2
          simp only at h2
          rw [h2] at hne
          cases hne
        · exact Or.inr a4
  · simpa [LeaveGroup, hm] using hs

/-- The group chosen for a query is the address of a membership of the list and
is not link-local multicast. -/
theorem SelectGroup_some (s : CIGMPHandler) (q g : CIPAddress)
    (h : s.SelectGroup q = some g) :
    ({ Address := g } : TGroupMembership) ∈ s.m_JoinedGroups ∧
      g.IsLinkLocalMulticast = false := by
  unfold SelectGroup at h
  by_cases hq : q.IsNull = true
  · simp only [hq, if_true] at h
    cases hl : s.m_JoinedGroups with
    | nil => simp [hl] at h
    | cons p rest =>
      simp only [hl] at h
      by_cases hp : p.Address.IsLinkLocalMulticast = true
      · simp only [hp, if_true] at h
        cases hfind : List.find? (fun p => !p.Address.IsLinkLocalMulticast) (p :: rest) with
        | none => simp [hfind] at h
        | some r =>
          simp only [hfind, Option.some.injEq] at h
          have h1 := List.find?_some hfind
          have h2 := List.mem_of_find?_eq_some hfind
          subst h
          exact ⟨h2, by simpa using h1⟩
      · simp only [hp, if_false, Option.some.injEq, Bool.false_eq_true] at h
        subst h
        exact ⟨List.mem_cons_self _ _, by simpa using hp⟩
  · simp only [hq, if_false, Bool.false_eq_true] at h
    by_cases hl : q.IsLinkLocalMulticast = true
    · simp [hl] at h
    · simp only [hl, if_false, Bool.false_eq_true] at h
      cases hf : s.FindGroup q with
      | none => simp [hf] at h
      | some r =>
        obtain ⟨i, p⟩ := r
        simp only [hf, Option.some.injEq] at h
        obtain ⟨l1, l2, h1, _, h3, _⟩ := FindGroupFrom_eq_some q s.m_JoinedGroups 0 i p hf
        subst h
        refine ⟨?_, ?_⟩
        · rw [h1]; simp
        · rw [CIPAddress.IsLinkLocalMulticast_congr h3]; simpa using hl

theorem Inv_ProcessQuery (s : CIGMPHandler) (pHeader : TIGMPHeader) (nRandom hStart : Nat)
    (hs : Inv s) : Inv (s.ProcessQuery pHeader nRandom hStart).1 := by
  unfold ProcessQuery
  by_cases ha : s.m_bReportScheduled = true
  · simpa [ha] using hs
  · simp only [ha, if_false, Bool.false_eq_true]
    generalize CIPAddress.ofOctets (pHeader.GroupAddress.getD 0 0) (pHeader.GroupAddress.getD 1 0)
      (pHeader.GroupAddress.getD 2 0) (pHeader.GroupAddress.getD 3 0) = q
    cases hsel : s.SelectGroup q with
    | none => simpa using hs
    | some g =>
      obtain ⟨hmem, hll⟩ := SelectGroup_some s q g hsel
      obtain ⟨hset, hmc⟩ := hs.joined_ok _ hmem
      simp only at hset hmc
      simp only [hset, hmc, Bool.and_self, if_true]
      refine ⟨hs.joined_ok, hs.joined_nodup, ?_, ?_, ?_⟩
      · intro _; exact ⟨hset, hmc, hll, hmem⟩
      · intro h; simpa using h
      · intro h; simpa using h

theorem Inv_ProcessPacket (s : CIGMPHandler) (pPacket mem : List Octet) (nRandom hStart : Nat)
    (hs : Inv s) : Inv (ProcessPacket s pPacket mem nRandom hStart).1 := by
  unfold ProcessPacket
  split
  · exact hs
  · split
    · exact hs
    · simp only
      split
      · exact Inv_ProcessQuery s _ nRandom hStart hs
      · exact hs

theorem Inv_StaticTimerHandler (own : CIPAddress) (s : CIGMPHandler) (hs : Inv s) :
    Inv (StaticTimerHandler own s).1 := by
  constructor <;> simp [StaticTimerHandler, InstanceTimerHandler, hs.joined_nodup]
  exact hs.joined_ok

/-- Every state the handler can be in satisfies the invariant. -/
theorem Reachable.inv {s : CIGMPHandler} (h : Reachable s) : Inv s := by
  induction h with
  | init => exact Inv_init
  | join own g s _ hg ih => exact Inv_JoinGroup own g s ih hg
  | leave own g s _ ih => exact Inv_LeaveGroup own g s ih
  | packet pPacket mem nRandom hStart s _ ih => exact Inv_ProcessPacket s pPacket mem nRandom hStart ih
  | expiry own s _ ih => exact Inv_StaticTimerHandler own s ih

end CIGMPHandler

end Circle

/-! ## Joining and leaving a group -/

namespace Circle

namespace CIGMPHandler

/-- The checksum is a 16-bit value. -/
theorem SimpleCalculate_lt (buf : List Octet) : SimpleCalculate buf < 65536 := by
  unfold SimpleCalculate; omega

/-- The octet made from zero is the zero octet. -/
theorem octet_ofNat_zero : (Fin.ofNat 0 : Octet) = 0 := rfl

/-- With a local IP set, `SendLeaveGroup` makes one call: a Send to 224.0.0.2 of
the eight octets of the leave-group message. -/
theorem SendLeaveGroup_of_own_set (own g : CIPAddress) (hOwn : own.IsSet = true) :
    SendLeaveGroup own g =
      [TCall.Send (CIPAddress.ofOctets 224 0 0 2)
        [0x17, 0,
          Fin.ofNat (SimpleCalculate [0x17, 0, 0, 0, g.o0, g.o1, g.o2, g.o3] / 256 % 256),
          Fin.ofNat (SimpleCalculate [0x17, 0, 0, 0, g.o0, g.o1, g.o2, g.o3] % 256),
          g.o0, g.o1, g.o2, g.o3] 8 2] := by
  have hall : AllRoutersIP = CIPAddress.ofOctets 224 0 0 2 := by decide
  simp [SendLeaveGroup, hOwn, BuildMessage, TIGMPHeader.bytes, CIPAddress.CopyTo,
    IGMP_LEAVE_GROUP, sizeofTIGMPHeader, IPPROTO_IGMP, octet_ofNat_zero, hall]

/-- With a local IP set, `SendMembershipReport` makes one call: a Send to the group
of the eight octets of the membership report. -/
theorem SendMembershipReport_of_own_set (own g : CIPAddress) (hOwn : own.IsSet = true) :
    SendMembershipReport own g =
      [TCall.Send g
        [0x16, 0,
          Fin.ofNat (SimpleCalculate [0x16, 0, 0, 0, g.o0, g.o1, g.o2, g.o3] / 256 % 256),
          Fin.ofNat (SimpleCalculate [0x16, 0, 0, 0, g.o0, g.o1, g.o2, g.o3] % 256),
          g.o0, g.o1, g.o2, g.o3] 8 2] := by
  simp [SendMembershipReport, hOwn, BuildMessage, TIGMPHeader.bytes, CIPAddress.CopyTo,
    IGMP_V2_MEMBERSHIP_REPORT, sizeofTIGMPHeader, IPPROTO_IGMP, octet_ofNat_zero]

/-- C1: for every handler state, with a local IP set and a multicast group g that
is not joined, JoinGroup(g) appends g to the joined list and makes exactly one
collaborator call, a Send with destination g, protocol 2 and length 8 whose eight
octets are type 0x16, maxRespTime 0, the two octets of the Internet checksum of the
message with a zero checksum field (a 16-bit value), and the four octets of g; the
armed flag, the scheduled group and the timer handle are unchanged. -/
theorem JoinGroup_new_group_sends_one_report (own g : CIPAddress) (s : CIGMPHandler)
    (hOwn : own.IsSet = true) (hMc : g.IsMulticast = true) (hNew : s.FindGroup g = none) :
    (JoinGroup own s g).1.m_JoinedGroups = s.m_JoinedGroups ++ [{ Address := g }] ∧
    (JoinGroup own s g).2 =
      [TCall.Send g
        [0x16, 0,
          Fin.ofNat (SimpleCalculate [0x16, 0, 0, 0, g.o0, g.o1, g.o2, g.o3] / 256 % 256),
          Fin.ofNat (SimpleCalculate [0x16, 0, 0, 0, g.o0, g.o1, g.o2, g.o3] % 256),
          g.o0, g.o1, g.o2, g.o3] 8 2] ∧
    SimpleCalculate [0x16, 0, 0, 0, g.o0, g.o1, g.o2, g.o3] < 65536 ∧
    (JoinGroup own s g).1.m_bReportScheduled = s.m_bReportScheduled ∧
    (JoinGroup own s g).1.m_ScheduledGroupAddress = s.m_ScheduledGroupAddress ∧
    (JoinGroup own s g).1.m_hKernelTimer = s.m_hKernelTimer := by
  refine ⟨?_, ?_, SimpleCalculate_lt _, ?_, ?_, ?_⟩ <;>
    simp [JoinGroup, hMc, hNew, SendMembershipReport, hOwn, BuildMessage, TIGMPHeader.bytes,
      CIPAddress.CopyTo, IGMP_V2_MEMBERSHIP_REPORT, sizeofTIGMPHeader, IPPROTO_IGMP,
      octet_ofNat_zero]

/-- Witness of C1: with own address 192.168.1.10, joining 239.1.2.3 from the
initial state hands one report for 239.1.2.3 to Send. -/
theorem JoinGroup_new_group_sends_one_report_witness :
    (JoinGroup Sample.own init Sample.g239_1_2_3).2 =
      [TCall.Send Sample.g239_1_2_3 [0x16, 0, 0xF8, 0xFA, 239, 1, 2, 3] 8 2] :=
  (JoinGroup_new_group_sends_one_report Sample.own Sample.g239_1_2_3 init
    (by decide) (by decide) (by decide)).2.1

/-- C2: for every state the handler can be in, with a local IP set and a multicast
group g that is joined, LeaveGroup(g) makes exactly one Send, to 224.0.0.2 with
protocol 2 and length 8, carrying type 0x17, maxRespTime 0, the checksum and the
four octets of g (followed by the cancellation of the timer when the scheduled
report was for g); afterwards g is not in the joined list, a report that is still
scheduled is not for g, and if the scheduled report was for g then the armed flag
is false, the scheduled group is unset and the timer handle is 0. -/
theorem LeaveGroup_joined_group (own g : CIPAddress) (s : CIGMPHandler)
    (hs : Reachable s) (hOwn : own.IsSet = true) (hMc : g.IsMulticast = true)
    (hJoined : (s.FindGroup g).isSome = true) :
    (LeaveGroup own s g).2 =
      TCall.Send (CIPAddress.ofOctets 224 0 0 2)
        [0x17, 0,
          Fin.ofNat (SimpleCalculate [0x17, 0, 0, 0, g.o0, g.o1, g.o2, g.o3] / 256 % 256),
          Fin.ofNat (SimpleCalculate [0x17, 0, 0, 0, g.o0, g.o1, g.o2, g.o3] % 256),
          g.o0, g.o1, g.o2, g.o3] 8 2 ::
        (if s.m_bReportScheduled = true ∧ s.m_ScheduledGroupAddress.opEq g = true then
          [TCall.CancelKernelTimer s.m_hKernelTimer] else []) ∧
    (LeaveGroup own s g).1.FindGroup g = none ∧
    ((LeaveGroup own s g).1.m_bReportScheduled = true →
      (LeaveGroup own s g).1.m_ScheduledGroupAddress.opEq g = false) ∧
    (s.m_bReportScheduled = true → s.m_ScheduledGroupAddress.opEq g = true →
      (LeaveGroup own s g).1.m_bReportScheduled = false ∧
      (LeaveGroup own s g).1.m_ScheduledGroupAddress.IsSet = false ∧
      (LeaveGroup own s g).1.m_hKernelTimer = 0) := by
  have hinv := hs.inv
  cases hf : s.FindGroup g with
  | none => rw [hf] at hJoined; cases hJoined
  | some r =>
    obtain ⟨i, p⟩ := r
    obtain ⟨l1, l2, h1, h2, h3, h4⟩ := LeaveGroup_found own g s hMc i p hf
    have hsend := SendLeaveGroup_of_own_set own g hOwn
    have hgone : ∀ q ∈ l1 ++ l2, q.Address.opEq g = false := by
      intro q hq
      rcases List.mem_append.mp hq with hq | hq
      · exact h3 q hq
      · have hnd := hinv.joined_nodup
        rw [h1, List.pairwise_append] at hnd
        have hpq := (List.pairwise_cons.mp hnd.2.1).1 q hq
        rw [CIPAddress.opEq_false_iff] at hpq ⊢
        rw [CIPAddress.opEq_iff] at h2
        intro hqg
        apply hpq
        refine ⟨?_, ?_, ?_, ?_⟩
        · rw [h2.1, hqg.1]
        · rw [h2.2.1, hqg.2.1]
        · rw [h2.2.2.1, hqg.2.2.1]
        · rw [h2.2.2.2, hqg.2.2.2]
    have hfind : FindGroupFrom g 0 (l1 ++ l2) = none := (FindGroupFrom_eq_none g _ 0).mpr hgone
    rw [h4, hsend]
    by_cases ha : s.m_bReportScheduled = true
    · by_cases hm : s.m_ScheduledGroupAddress.opEq g = true
      · have ht : s.m_hKernelTimer ≠ 0 := hinv.armed_timer ha
        simp [ha, hm, ht, FindGroup, hfind, CIPAddress.unset, CIPAddress.IsSet]
      · have hm2 : s.m_ScheduledGroupAddress.opEq g = false := by simpa using hm
        simp [ha, hm2, FindGroup, hfind]
    · have ha2 : s.m_bReportScheduled = false := by simpa using ha
      simp [ha2, FindGroup, hfind]

/-- Witness of C2: after joining 239.1.2.3 with own address 192.168.1.10, leaving
239.1.2.3 hands one leave-group message to Send, destination 224.0.0.2. -/
theorem LeaveGroup_joined_group_witness :
    (LeaveGroup Sample.own Sample.joined1 Sample.g239_1_2_3).2 =
      [TCall.Send (CIPAddress.ofOctets 224 0 0 2) [0x17, 0, 0xF7, 0xFA, 239, 1, 2, 3] 8 2] ∧
    (LeaveGroup Sample.own Sample.joined1 Sample.g239_1_2_3).1.FindGroup Sample.g239_1_2_3
      = none :=
  have h := LeaveGroup_joined_group Sample.own Sample.g239_1_2_3 Sample.joined1
    (Reachable.join Sample.own Sample.g239_1_2_3 init Reachable.init (by decide))
    (by decide) (by decide) (by decide)
  ⟨h.1, h.2.1⟩

/-- An address that is link-local multicast is multicast. -/
theorem IsMulticast_of_IsLinkLocalMulticast (g : CIPAddress)
    (h : g.IsLinkLocalMulticast = true) : g.IsMulticast = true := by
  simp only [CIPAddress.IsLinkLocalMulticast, Bool.and_eq_true, beq_iff_eq] at h
  rw [CIPAddress.IsMulticast, h.1.1]
  decide

/-- C3 does not hold as stated: 224.0.0.5 is link-local multicast, and with own
address 192.168.1.10 JoinGroup(224.0.0.5) on the initial state records the
membership, so the joined list changes, and hands a membership report for
224.0.0.5 to Send. -/
theorem JoinGroup_link_local_counterexample :
    Sample.g224_0_0_5.IsLinkLocalMulticast = true ∧
    (JoinGroup Sample.own init Sample.g224_0_0_5).1.m_JoinedGroups =
      [{ Address := Sample.g224_0_0_5 }] ∧
    (JoinGroup Sample.own init Sample.g224_0_0_5).1.m_JoinedGroups ≠ init.m_JoinedGroups ∧
    (JoinGroup Sample.own init Sample.g224_0_0_5).2 =
      [TCall.Send Sample.g224_0_0_5 [0x16, 0, 0x09, 0xFA, 224, 0, 0, 5] 8 2] := by
  decide

/-- C3 as amended: for every link-local multicast address g and every handler
state, JoinGroup(g) treats g as any other multicast group.  If g is already joined
the call changes nothing and makes no call; if g is not joined, g is appended to
the joined list, and the armed flag, the scheduled group and the timer handle are
unchanged. -/
theorem JoinGroup_link_local_records_membership (own g : CIPAddress) (s : CIGMPHandler)
    (hll : g.IsLinkLocalMulticast = true) :
    ((s.FindGroup g).isSome = true → JoinGroup own s g = (s, [])) ∧
    (s.FindGroup g = none →
      (JoinGroup own s g).1.m_JoinedGroups = s.m_JoinedGroups ++ [{ Address := g }] ∧
      (JoinGroup own s g).1.m_bReportScheduled = s.m_bReportScheduled ∧
      (JoinGroup own s g).1.m_ScheduledGroupAddress = s.m_ScheduledGroupAddress ∧
      (JoinGroup own s g).1.m_hKernelTimer = s.m_hKernelTimer) := by
  have hMc := IsMulticast_of_IsLinkLocalMulticast g hll
  constructor
  · intro h
    simp [JoinGroup, hMc, h]
  · intro h
    simp [JoinGroup, hMc, h]

/-- Witness of the amended C3: joining the link-local group 224.0.0.1 from the
initial state records it. -/
theorem JoinGroup_link_local_records_membership_witness :
    (JoinGroup Sample.own init Sample.g224_0_0_1).1.m_JoinedGroups =
      init.m_JoinedGroups ++ [{ Address := Sample.g224_0_0_1 }] :=
  ((JoinGroup_link_local_records_membership Sample.own Sample.g224_0_0_1 init
    (by decide)).2 (by decide)).1

/-- C4: for every handler state, with a local IP set and a multicast group g that
is not joined, a second JoinGroup(g) after the first changes nothing and makes no
call, so that the state after both calls is the state after the first, and the two
calls together hand exactly one message to Send, the membership report for g. -/
theorem JoinGroup_twice_same_as_once (own own2 g : CIPAddress) (s : CIGMPHandler)
    (hOwn : own.IsSet = true) (hMc : g.IsMulticast = true) (hNew : s.FindGroup g = none) :
    JoinGroup own2 (JoinGroup own s g).1 g = ((JoinGroup own s g).1, []) ∧
    (JoinGroup own s g).2 ++ (JoinGroup own2 (JoinGroup own s g).1 g).2 =
      [TCall.Send g (BuildMessage IGMP_V2_MEMBERSHIP_REPORT g).bytes 8 2] := by
  have h1 : JoinGroup own s g =
      ({ s with m_JoinedGroups := s.m_JoinedGroups ++ [{ Address := g }] },
        [TCall.Send g (BuildMessage IGMP_V2_MEMBERSHIP_REPORT g).bytes 8 2]) := by
    simp [JoinGroup, hMc, hNew, SendMembershipReport, hOwn, sizeofTIGMPHeader, IPPROTO_IGMP]
  have hfound : (FindGroup { s with m_JoinedGroups := s.m_JoinedGroups ++ [{ Address := g }] }
      g).isSome = true :=
    FindGroupFrom_isSome_of_mem g _ 0 { Address := g } (by simp) (CIPAddress.opEq_self g)
  have h2 : JoinGroup own2 (JoinGroup own s g).1 g = ((JoinGroup own s g).1, []) := by
    rw [h1]
    simp only [JoinGroup, hMc, hfound, Bool.not_true, Bool.false_eq_true, if_false, if_true]
  refine ⟨h2, ?_⟩
  rw [h2, h1]
  rfl

/-- Witness of C4: with own address 192.168.1.10, joining 239.1.2.3 a second time
leaves the state of the first join and makes no call. -/
theorem JoinGroup_twice_same_as_once_witness :
    JoinGroup Sample.own (JoinGroup Sample.own init Sample.g239_1_2_3).1 Sample.g239_1_2_3 =
      ((JoinGroup Sample.own init Sample.g239_1_2_3).1, []) :=
  (JoinGroup_twice_same_as_once Sample.own Sample.own Sample.g239_1_2_3 init
    (by decide) (by decide) (by decide)).1

/-! ## Scheduled reports -/

/-- C5: in every state reached from the initial state by JoinGroup, LeaveGroup,
ProcessPacket and deadline expiry, whatever the timer returns when it is started,
if a report is armed then the scheduled group is set, is multicast, is not
link-local multicast and is found in the joined list. -/
theorem armed_group_is_joined_and_reportable (s : CIGMPHandler) (hs : Reachable s)
    (hArmed : s.m_bReportScheduled = true) :
    s.m_ScheduledGroupAddress.IsSet = true ∧
    s.m_ScheduledGroupAddress.IsMulticast = true ∧
    s.m_ScheduledGroupAddress.IsLinkLocalMulticast = false ∧
    (s.FindGroup s.m_ScheduledGroupAddress).isSome = true := by
  obtain ⟨h1, h2, h3, h4⟩ := hs.inv.armed_group hArmed
  exact ⟨h1, h2, h3,
    FindGroupFrom_isSome_of_mem _ _ 0 _ h4 (CIPAddress.opEq_self _)⟩

/-- Witness of C5: after joining 239.5.5.5 and accepting a general query the
report is armed for 239.5.5.5, which is joined. -/
theorem armed_group_is_joined_and_reportable_witness :
    Sample.armed3.m_bReportScheduled = true ∧
    (Sample.armed3.FindGroup Sample.armed3.m_ScheduledGroupAddress).isSome = true :=
  ⟨by decide,
    (armed_group_is_joined_and_reportable Sample.armed3
      (Reachable.packet _ _ _ _ _
        (Reachable.join Sample.own Sample.g239_5_5_5 init Reachable.init (by decide)))
      (by decide)).2.2.2⟩

/-- A buffer taken as a membership query is handed to the query case. -/
theorem ProcessPacket_of_query (s : CIGMPHandler) (pPacket mem : List Octet)
    (nRandom hStart : Nat) (hQuery : IsMembershipQuery pPacket mem = true) :
    ProcessPacket s pPacket mem nRandom hStart =
      s.ProcessQuery (TIGMPHeader.ofPacket pPacket) nRandom hStart := by
  simp only [IsMembershipQuery, Bool.and_eq_true, decide_eq_true_eq] at hQuery
  obtain ⟨⟨hlen, hck⟩, hty⟩ := hQuery
  have hlen2 : ¬ pPacket.length < sizeofTIGMPHeader := by omega
  simp only [ProcessPacket, hlen2, hck, hty, if_false, if_true, Bool.not_true,
    Bool.false_eq_true]

/-- When a report is armed the query case changes nothing and makes no call. -/
theorem ProcessQuery_armed (s : CIGMPHandler) (pHeader : TIGMPHeader) (nRandom hStart : Nat)
    (hArmed : s.m_bReportScheduled = true) :
    s.ProcessQuery pHeader nRandom hStart = (s, []) := by
  simp [ProcessQuery, hArmed]

/-- When a report is armed, a sequence of membership queries changes nothing and
makes no call. -/
theorem ProcessPackets_armed (s : CIGMPHandler) (received : List TReceived)
    (hArmed : s.m_bReportScheduled = true)
    (hAll : ∀ x ∈ received, IsMembershipQuery x.pPacket x.mem = true) :
    ProcessPackets s received = (s, []) := by
  induction received with
  | nil => rfl
  | cons x rest ih =>
    have hx := hAll x (List.mem_cons_self _ _)
    have hrest := ih (fun y hy => hAll y (List.mem_cons_of_mem _ hy))
    simp only [ProcessPackets, ProcessPacket_of_query s _ _ _ _ hx,
      ProcessQuery_armed s _ _ _ hArmed, hrest, List.append_nil]

/-- The expiry of the deadline makes at most one call. -/
theorem StaticTimerHandler_calls_le_one (own : CIPAddress) (s : CIGMPHandler) :
    (StaticTimerHandler own s).2.length ≤ 1 := by
  simp only [StaticTimerHandler, InstanceTimerHandler, SendMembershipReport]
  split
  · split <;> simp
  · simp

/-- C6: for every handler state with a report armed and every membership query
that passes the length and checksum tests (general or group-specific, any
maxRespTime), ProcessPacket leaves the whole state unchanged and makes no call, so
no timer is started and nothing is sent; the same holds of any sequence of such
queries, and the queries together with the expiry of the deadline that follows
them hand at most one message to Send. -/
theorem ProcessPacket_armed_ignores_query (s : CIGMPHandler) (pPacket mem : List Octet)
    (nRandom hStart : Nat) (hArmed : s.m_bReportScheduled = true)
    (hQuery : IsMembershipQuery pPacket mem = true) :
    ProcessPacket s pPacket mem nRandom hStart = (s, []) ∧
    ∀ (own : CIPAddress) (received : List TReceived),
      (∀ x ∈ received, IsMembershipQuery x.pPacket x.mem = true) →
      ProcessPackets s received = (s, []) ∧
      (((ProcessPackets s received).2 ++
          (StaticTimerHandler own (ProcessPackets s received).1).2).filter
        TCall.isSend).length ≤ 1 := by
  constructor
  · rw [ProcessPacket_of_query s pPacket mem nRandom hStart hQuery]
    exact ProcessQuery_armed s _ nRandom hStart hArmed
  · intro own received hAll
    have h := ProcessPackets_armed s received hArmed hAll
    refine ⟨h, ?_⟩
    rw [h]
    exact le_trans (List.length_filter_le _ _)
      (by simpa using StaticTimerHandler_calls_le_one own s)

/-- Witness of C6: in the state armed for 239.5.5.5 a further general query with
maxRespTime 1 changes nothing and makes no call. -/
theorem ProcessPacket_armed_ignores_query_witness :
    ProcessPacket Sample.armed3 (Sample.query 1 (CIPAddress.ofOctets 0 0 0 0)) [] 99 8 =
      (Sample.armed3, []) :=
  (ProcessPacket_armed_ignores_query Sample.armed3
    (Sample.query 1 (CIPAddress.ofOctets 0 0 0 0)) [] 99 8 (by decide) (by decide)).1

/-- For a general query the group chosen is the address of the first membership
of the list that is not link-local multicast. -/
theorem SelectGroup_general (s : CIGMPHandler) (q : CIPAddress) (hq : q.IsNull = true) :
    s.SelectGroup q =
      (s.m_JoinedGroups.find? (fun p => !p.Address.IsLinkLocalMulticast)).map
        (fun p => p.Address) := by
  unfold SelectGroup
  simp only [hq, if_true]
  cases hl : s.m_JoinedGroups with
  | nil => simp
  | cons p rest =>
    simp only
    by_cases hp : p.Address.IsLinkLocalMulticast = true
    · simp only [hp, if_true]
      cases List.find? (fun p => !p.Address.IsLinkLocalMulticast) (p :: rest) <;> rfl
    · simp [hp]

/-- For a group-specific query the group chosen is the queried address when it is
not link-local multicast and is found in the list, and there is none otherwise. -/
theorem SelectGroup_specific (s : CIGMPHandler) (q : CIPAddress) (hs : Inv s)
    (hq : q.IsNull = false) (hset : q.IsSet = true) :
    s.SelectGroup q =
      if q.IsLinkLocalMulticast = false ∧ (s.FindGroup q).isSome = true then some q
      else none := by
  unfold SelectGroup
  simp only [hq, if_false, Bool.false_eq_true]
  by_cases hl : q.IsLinkLocalMulticast = true
  · simp [hl]
  · have hl2 : q.IsLinkLocalMulticast = false := by simpa using hl
    simp only [hl2, if_false, true_and, Bool.false_eq_true]
    cases hf : s.FindGroup q with
    | none => simp
    | some r =>
      obtain ⟨i, p⟩ := r
      obtain ⟨l1, l2, h1, _, h3, _⟩ := FindGroupFrom_eq_some q s.m_JoinedGroups 0 i p hf
      have hp : p ∈ s.m_JoinedGroups := by rw [h1]; simp
      have hpset := (hs.joined_ok p hp).1
      rw [CIPAddress.opEq_iff] at h3
      have : p.Address = q := by
        cases hpa : p.Address with
        | mk v a b c d =>
          cases q with
          | mk v2 a2 b2 c2 d2 =>
            simp only [hpa, CIPAddress.IsSet] at h3 hpset hset
            simp [h3.1, h3.2.1, h3.2.2.1, h3.2.2.2, hpset, hset]
      simp [this]

/-- What `ProcessPacket` does with a membership query when no report is armed, in
a state the handler can be in: if a group is chosen the timer is started for it,
and the report is armed when the timer could be started; if none is chosen nothing
changes. -/
theorem ProcessPacket_query_idle (s : CIGMPHandler) (hs : Inv s)
    (hIdle : s.m_bReportScheduled = false) (pPacket mem : List Octet) (nRandom hStart : Nat)
    (hQuery : IsMembershipQuery pPacket mem = true) :
    ProcessPacket s pPacket mem nRandom hStart =
      match s.SelectGroup (QueryGroup pPacket) with
      | some g =>
        ({ s with m_hKernelTimer := hStart, m_bReportScheduled := (hStart != 0),
                  m_ScheduledGroupAddress := g },
          [TCall.StartKernelTimer (nDelayTicks (randomDelayMs
            (maxRespTimeMs (TIGMPHeader.ofPacket pPacket).nMaxRespTime) nRandom))])
      | none => (s, []) := by
  have hq : CIPAddress.ofOctets ((TIGMPHeader.ofPacket pPacket).GroupAddress.getD 0 0)
      ((TIGMPHeader.ofPacket pPacket).GroupAddress.getD 1 0)
      ((TIGMPHeader.ofPacket pPacket).GroupAddress.getD 2 0)
      ((TIGMPHeader.ofPacket pPacket).GroupAddress.getD 3 0) = QueryGroup pPacket := by
    simp [TIGMPHeader.ofPacket, QueryGroup]
  rw [ProcessPacket_of_query s pPacket mem nRandom hStart hQuery]
  simp only [ProcessQuery, hIdle, hq, if_false, Bool.false_eq_true]
  cases hsel : s.SelectGroup (QueryGroup pPacket) with
  | none => rfl
  | some g =>
    obtain ⟨hmem, _⟩ := SelectGroup_some s _ g hsel
    obtain ⟨hset, hmc⟩ := hs.joined_ok _ hmem
    simp only at hset hmc
    have ht := hs.idle_timer hIdle
    simp [hset, hmc, ht]

/-- C7: for every state the handler can be in with no report armed and every
general query (group 0.0.0.0) that passes the length and checksum tests, when the
timer is started with a non-zero handle ProcessPacket arms a report for the first
group in join order that is not link-local multicast: the only call is the start of
the timer, the handle is stored, the armed flag is set and the scheduled group is
that group; when the joined list is empty or holds only link-local groups the state
is unchanged and no call is made. -/
theorem general_query_arms_first_reportable_group (s : CIGMPHandler) (hs : Reachable s)
    (hIdle : s.m_bReportScheduled = false) (pPacket mem : List Octet) (nRandom hStart : Nat)
    (hQuery : IsMembershipQuery pPacket mem = true)
    (hGeneral : QueryGroup pPacket = CIPAddress.ofOctets 0 0 0 0) (hStarted : hStart ≠ 0) :
    ProcessPacket s pPacket mem nRandom hStart =
      match s.m_JoinedGroups.find? (fun p => !p.Address.IsLinkLocalMulticast) with
      | some p =>
        ({ s with m_hKernelTimer := hStart, m_bReportScheduled := true,
                  m_ScheduledGroupAddress := p.Address },
          [TCall.StartKernelTimer (nDelayTicks (randomDelayMs
            (maxRespTimeMs (TIGMPHeader.ofPacket pPacket).nMaxRespTime) nRandom))])
      | none => (s, []) := by
  rw [ProcessPacket_query_idle s hs.inv hIdle pPacket mem nRandom hStart hQuery,
    SelectGroup_general s _ (by rw [hGeneral]; decide)]
  cases List.find? (fun p => !p.Address.IsLinkLocalMulticast) s.m_JoinedGroups with
  | none => rfl
  | some p => simp [hStarted]

/-- Witness of C7: with 224.0.0.1 and 239.5.5.5 joined in this order, a general
query with maxRespTime 100 arms the report for 239.5.5.5. -/
theorem general_query_arms_first_reportable_group_witness :
    (ProcessPacket Sample.joined2 (Sample.query 100 (CIPAddress.ofOctets 0 0 0 0)) []
        123456 7).1.m_bReportScheduled = true ∧
    (ProcessPacket Sample.joined2 (Sample.query 100 (CIPAddress.ofOctets 0 0 0 0)) []
        123456 7).1.m_ScheduledGroupAddress = Sample.g239_5_5_5 :=
  have h := general_query_arms_first_reportable_group Sample.joined2
    (Reachable.join Sample.own Sample.g239_5_5_5 _
      (Reachable.join Sample.own Sample.g224_0_0_1 init Reachable.init (by decide)) (by decide))
    (by decide) (Sample.query 100 (CIPAddress.ofOctets 0 0 0 0)) [] 123456 7
    (by decide) (by decide) (by decide)
  ⟨by rw [h]; decide, by rw [h]; decide⟩

/-- C8: for every state the handler can be in with no report armed and every
group-specific query for a group q (q not 0.0.0.0) that passes the length and
checksum tests, when the timer is started with a non-zero handle, a report becomes
armed if and only if q is not link-local multicast and q is found in the joined
list; in that case the only call is the start of the timer, the handle is stored
and the scheduled group is q; otherwise the state is unchanged, armed stays false
and no call is made. -/
theorem group_query_arms_iff_member (s : CIGMPHandler) (hs : Reachable s)
    (hIdle : s.m_bReportScheduled = false) (pPacket mem : List Octet) (nRandom hStart : Nat)
    (hQuery : IsMembershipQuery pPacket mem = true)
    (hSpecific : (QueryGroup pPacket).IsNull = false) (hStarted : hStart ≠ 0) :
    ((ProcessPacket s pPacket mem nRandom hStart).1.m_bReportScheduled = true ↔
      ((QueryGroup pPacket).IsLinkLocalMulticast = false ∧
        (s.FindGroup (QueryGroup pPacket)).isSome = true)) ∧
    ProcessPacket s pPacket mem nRandom hStart =
      if (QueryGroup pPacket).IsLinkLocalMulticast = false ∧
          (s.FindGroup (QueryGroup pPacket)).isSome = true then
        ({ s with m_hKernelTimer := hStart, m_bReportScheduled := true,
                  m_ScheduledGroupAddress := QueryGroup pPacket },
          [TCall.StartKernelTimer (nDelayTicks (randomDelayMs
            (maxRespTimeMs (TIGMPHeader.ofPacket pPacket).nMaxRespTime) nRandom))])
      else (s, []) := by
  have heq : ProcessPacket s pPacket mem nRandom hStart =
      if (QueryGroup pPacket).IsLinkLocalMulticast = false ∧
          (s.FindGroup (QueryGroup pPacket)).isSome = true then
        ({ s with m_hKernelTimer := hStart, m_bReportScheduled := true,
                  m_ScheduledGroupAddress := QueryGroup pPacket },
          [TCall.StartKernelTimer (nDelayTicks (randomDelayMs
            (maxRespTimeMs (TIGMPHeader.ofPacket pPacket).nMaxRespTime) nRandom))])
      else (s, []) := by
    rw [ProcessPacket_query_idle s hs.inv hIdle pPacket mem nRandom hStart hQuery,
      SelectGroup_specific s _ hs.inv hSpecific rfl]
    by_cases hc : (QueryGroup pPacket).IsLinkLocalMulticast = false ∧
        (s.FindGroup (QueryGroup pPacket)).isSome = true
    · simp only [if_pos hc]
      simp [hStarted]
    · simp only [if_neg hc]
  refine ⟨?_, heq⟩
  rw [heq]
  by_cases hc : (QueryGroup pPacket).IsLinkLocalMulticast = false ∧
      (s.FindGroup (QueryGroup pPacket)).isSome = true
  · rw [if_pos hc]
    exact ⟨fun _ => hc, fun _ => rfl⟩
  · rw [if_neg hc]
    constructor
    · intro h
      rw [hIdle] at h
      cases h
    · intro h
      exact absurd h hc

/-- Witness of C8: with 239.5.5.5 joined, a query for 239.9.9.9 arms nothing. -/
theorem group_query_arms_iff_member_witness :
    ProcessPacket Sample.joined3 (Sample.query 100 Sample.g239_9_9_9) [] 123456 7 =
      (Sample.joined3, []) :=
  (group_query_arms_iff_member Sample.joined3
    (Reachable.join Sample.own Sample.g239_5_5_5 init Reachable.init (by decide))
    (by decide) (Sample.query 100 Sample.g239_9_9_9) [] 123456 7
    (by decide) (by decide) (by decide)).2.trans (by decide)

/-- C9: for every handler state, the handler of the deadline expiry, when a report
is armed, the scheduled group is set and multicast and a local IP is set, makes
exactly one call, a Send to the scheduled group with protocol 2 and length 8
carrying type 0x16, maxRespTime 0, the checksum and the scheduled group; in every
case the armed flag is false afterwards, the scheduled group is unset, the timer
handle is 0 and the joined list is unchanged. -/
theorem StaticTimerHandler_reports_and_clears (own : CIPAddress) (s : CIGMPHandler) :
    ((s.m_bReportScheduled = true ∧ s.m_ScheduledGroupAddress.IsSet = true ∧
        s.m_ScheduledGroupAddress.IsMulticast = true ∧ own.IsSet = true) →
      (StaticTimerHandler own s).2 =
        [TCall.Send s.m_ScheduledGroupAddress
          [0x16, 0,
            Fin.ofNat (SimpleCalculate [0x16, 0, 0, 0, s.m_ScheduledGroupAddress.o0,
              s.m_ScheduledGroupAddress.o1, s.m_ScheduledGroupAddress.o2,
              s.m_ScheduledGroupAddress.o3] / 256 % 256),
            Fin.ofNat (SimpleCalculate [0x16, 0, 0, 0, s.m_ScheduledGroupAddress.o0,
              s.m_ScheduledGroupAddress.o1, s.m_ScheduledGroupAddress.o2,
              s.m_ScheduledGroupAddress.o3] % 256),
            s.m_ScheduledGroupAddress.o0, s.m_ScheduledGroupAddress.o1,
            s.m_ScheduledGroupAddress.o2, s.m_ScheduledGroupAddress.o3] 8 2]) ∧
    (StaticTimerHandler own s).1.m_bReportScheduled = false ∧
    (StaticTimerHandler own s).1.m_ScheduledGroupAddress.IsSet = false ∧
    (StaticTimerHandler own s).1.m_hKernelTimer = 0 ∧
    (StaticTimerHandler own s).1.m_JoinedGroups = s.m_JoinedGroups := by
  refine ⟨?_, rfl, rfl, rfl, rfl⟩
  rintro ⟨h1, h2, h3, h4⟩
  simp only [StaticTimerHandler, InstanceTimerHandler, h1, h2, h3, Bool.and_self, if_true]
  exact SendMembershipReport_of_own_set own _ h4

/-- C10 does not hold as stated: in the state reached without a local IP by joining
239.5.5.5 and accepting a general query, a report is armed for 239.5.5.5 with timer
handle 7, and LeaveGroup(239.5.5.5) with no local IP set cancels the timer but
hands no leave-group message to Send. -/
theorem LeaveGroup_armed_no_local_ip_counterexample :
    Reachable Sample.armedNoIp ∧
    Sample.armedNoIp.m_bReportScheduled = true ∧
    Sample.armedNoIp.m_ScheduledGroupAddress = Sample.g239_5_5_5 ∧
    (LeaveGroup CIPAddress.unset Sample.armedNoIp Sample.g239_5_5_5).2 =
      [TCall.CancelKernelTimer 7] :=
  ⟨Reachable.packet _ _ _ _ _
      (Reachable.join CIPAddress.unset Sample.g239_5_5_5 init Reachable.init (by decide)),
    by decide, by decide, by decide⟩

/-- C10 as amended: for every state the handler can be in where a report is armed
for group g, with a local IP set, LeaveGroup(g) makes two calls, the Send of the
leave-group message for g to 224.0.0.2 and the cancellation of the timer, whose
handle was not 0; afterwards no report is armed, and a deadline expiry delivered
then makes no call, so no membership report is emitted. -/
theorem LeaveGroup_cancels_armed_report (own g : CIPAddress) (s : CIGMPHandler)
    (hs : Reachable s) (hOwn : own.IsSet = true) (hArmed : s.m_bReportScheduled = true)
    (hFor : s.m_ScheduledGroupAddress.opEq g = true) :
    (LeaveGroup own s g).2 =
      [TCall.Send (CIPAddress.ofOctets 224 0 0 2)
        [0x17, 0,
          Fin.ofNat (SimpleCalculate [0x17, 0, 0, 0, g.o0, g.o1, g.o2, g.o3] / 256 % 256),
          Fin.ofNat (SimpleCalculate [0x17, 0, 0, 0, g.o0, g.o1, g.o2, g.o3] % 256),
          g.o0, g.o1, g.o2, g.o3] 8 2,
        TCall.CancelKernelTimer s.m_hKernelTimer] ∧
    s.m_hKernelTimer ≠ 0 ∧
    (LeaveGroup own s g).1.m_bReportScheduled = false ∧
    ∀ own2 : CIPAddress, (StaticTimerHandler own2 (LeaveGroup own s g).1).2 = [] := by
  have hinv := hs.inv
  obtain ⟨_, a2, _, a4⟩ := hinv.armed_group hArmed
  have hMc : g.IsMulticast = true := by rw [← CIPAddress.IsMulticast_congr hFor]; exact a2
  have ht : s.m_hKernelTimer ≠ 0 := hinv.armed_timer hArmed
  have hsome := FindGroupFrom_isSome_of_mem g s.m_JoinedGroups 0 _ a4 hFor
  cases hf : s.FindGroup g with
  | none =>
    have : (s.FindGroup g).isSome = true := hsome
    rw [hf] at this; cases this
  | some r =>
    obtain ⟨i, p⟩ := r
    obtain ⟨l1, l2, _, _, _, h4⟩ := LeaveGroup_found own g s hMc i p hf
    rw [h4, SendLeaveGroup_of_own_set own g hOwn]
    simp [hArmed, hFor, ht, StaticTimerHandler, InstanceTimerHandler]

/-- Witness of the amended C10: in the state armed for 239.5.5.5 with timer handle
7 and own address 192.168.1.10, leaving 239.5.5.5 sends the leave-group message to
224.0.0.2 and cancels timer 7. -/
theorem LeaveGroup_cancels_armed_report_witness :
    (LeaveGroup Sample.own Sample.armed3 Sample.g239_5_5_5).2 =
      [TCall.Send (CIPAddress.ofOctets 224 0 0 2) [0x17, 0, 0xF4, 0xF4, 239, 5, 5, 5] 8 2,
        TCall.CancelKernelTimer 7] :=
  (LeaveGroup_cancels_armed_report Sample.own Sample.g239_5_5_5 Sample.armed3
    (Reachable.packet _ _ _ _ _
      (Reachable.join Sample.own Sample.g239_5_5_5 init Reachable.init (by decide)))
    (by decide) (by decide) (by decide)).1

/-! ## Dropped and accepted messages -/

/-- C11: for every handler state and every received buffer that is shorter than
eight octets, or whose checksum field differs from the checksum that ProcessPacket
computes, or whose type is not 0x11 (0x16, 0x17 or any other value), ProcessPacket
returns the state unchanged and makes no call, so no timer is started and nothing
is sent. -/
theorem ProcessPacket_drops_or_ignores (s : CIGMPHandler) (pPacket mem : List Octet)
    (nRandom hStart : Nat)
    (h : pPacket.length < 8 ∨ ChecksumMatches pPacket mem = false ∨
      (TIGMPHeader.ofPacket pPacket).nType ≠ 0x11) :
    ProcessPacket s pPacket mem nRandom hStart = (s, []) := by
  unfold ProcessPacket
  rcases h with h | h | h
  · simp [sizeofTIGMPHeader, h]
  · simp [h]
  · have h2 : ((TIGMPHeader.ofPacket pPacket).nType == IGMP_MEMBERSHIP_QUERY) = false := by
      simpa [IGMP_MEMBERSHIP_QUERY] using h
    simp [h2]

/-- Witness of C11: in the state with 239.5.5.5 joined, a buffer of type 0x16 for
239.5.5.5 whose checksum field holds F4 F4 changes nothing and makes no call. -/
theorem ProcessPacket_drops_or_ignores_witness :
    ProcessPacket Sample.joined3 [0x16, 0, 0xF4, 0xF4, 239, 5, 5, 5] [] 123456 7 =
      (Sample.joined3, []) :=
  ProcessPacket_drops_or_ignores Sample.joined3 [0x16, 0, 0xF4, 0xF4, 239, 5, 5, 5] []
    123456 7 (Or.inr (Or.inr (by decide)))

/-- The one's-complement sum of four words of which the second is the complement
of the sum of the other three is 0xFFFF, so that the checksum over the four is 0. -/
theorem checksumFold_complement (w0 f w2 w3 : Nat) (h0 : w0 < 65536) (h2 : w2 < 65536)
    (h3 : w3 < 65536)
    (hf : f = 65535 - checksumFold (checksumFold (checksumFold (checksumFold (0 + w0) + 0) + w2)
      + w3)) :
    65535 - checksumFold (checksumFold (checksumFold (checksumFold (0 + w0) + f) + w2) + w3)
      = 0 := by
  unfold checksumFold at *
  omega

/-- For a buffer of exactly eight octets that passes the checksum test of
`ProcessPacket`, the checksum over the eight octets, checksum field included, is
`CHECKSUM_OK`. -/
theorem ChecksumMatches_eight_octets (pPacket mem : List Octet) (hlen : pPacket.length = 8)
    (h : ChecksumMatches pPacket mem = true) : SimpleCalculate pPacket = CHECKSUM_OK := by
  match pPacket, hlen with
  | [b0, b1, b2, b3, b4, b5, b6, b7], _ =>
    have h0 : 256 * b0.val + b1.val < 65536 := by have := b0.isLt; have := b1.isLt; omega
    have h2 : 256 * b4.val + b5.val < 65536 := by have := b4.isLt; have := b5.isLt; omega
    have h3 : 256 * b6.val + b7.val < 65536 := by have := b6.isLt; have := b7.isLt; omega
    have hz : ((0 : Octet) : Nat) = 0 := rfl
    simp only [ChecksumMatches, TIGMPHeader.ofPacket, TIGMPHeader.bytes, List.getD_cons_zero,
      List.getD_cons_succ, beq_iff_eq, SimpleCalculate, checksumSum, List.cons_append,
      List.nil_append, List.length_cons, List.length_nil, List.take_succ_cons, List.take_zero,
      checksumWords, List.foldl, octet_ofNat_zero, Nat.zero_div, Nat.zero_mod, hz,
      Nat.mul_zero, Nat.add_zero] at h
    simp only [SimpleCalculate, checksumSum, checksumWords, List.foldl, CHECKSUM_OK]
    exact checksumFold_complement _ _ _ _ h0 h2 h3 h

/-- C12 at a buffer of ten octets: the buffer `Sample.longQuery` passes the length
and checksum tests of ProcessPacket when the two octets of memory that follow the
copy of the header are 00 01, and the report for 239.5.5.5 is armed; yet the
checksum over the first eight octets of the buffer is 1 and the checksum over all
ten octets is 0x5433, neither of which is CHECKSUM_OK. -/
theorem ProcessPacket_accepts_wrong_checksum_when_longer :
    IsMembershipQuery Sample.longQuery Sample.memAfterCopy = true ∧
    (ProcessPacket Sample.joined3 Sample.longQuery Sample.memAfterCopy 123456 7).1.m_bReportScheduled
      = true ∧
    SimpleCalculate (Sample.longQuery.take 8) = 1 ∧
    SimpleCalculate Sample.longQuery = 0x5433 ∧
    CHECKSUM_OK = 0 := by
  decide

/-- C13 does not hold as stated: the message built for a report of 239.1.2.3 is
16 00 F8 FA EF 01 02 03 and the one built for a leave is 17 00 F7 FA EF 01 02 03;
the checksum over the report with a zero checksum field is 0xF8FA, not 0xEEF9, and
over the leave it is 0xF7FA, not 0xEEF8, whichever octet of the field is read
first. -/
theorem report_checksum_counterexample :
    (BuildMessage IGMP_V2_MEMBERSHIP_REPORT Sample.g239_1_2_3).bytes =
      [0x16, 0, 0xF8, 0xFA, 0xEF, 1, 2, 3] ∧
    SimpleCalculate [0x16, 0, 0, 0, 0xEF, 1, 2, 3] ≠ 0xEEF9 ∧
    (0xFA : Nat) * 256 + 0xF8 ≠ 0xEEF9 ∧
    (BuildMessage IGMP_LEAVE_GROUP Sample.g239_1_2_3).bytes =
      [0x17, 0, 0xF7, 0xFA, 0xEF, 1, 2, 3] ∧
    SimpleCalculate [0x17, 0, 0, 0, 0xEF, 1, 2, 3] ≠ 0xEEF8 ∧
    (0xFA : Nat) * 256 + 0xF7 ≠ 0xEEF8 := by
  decide

/-- C13 as amended: the membership report emitted for group 239.1.2.3 has payload
16 00 F8 FA EF 01 02 03, the Internet checksum over the eight octets with the
checksum field zero being 0xF8FA; the leave-group message for 239.1.2.3 has payload
17 00 F7 FA EF 01 02 03 with checksum 0xF7FA. -/
theorem report_checksum_of_239_1_2_3 :
    SendMembershipReport Sample.own Sample.g239_1_2_3 =
      [TCall.Send Sample.g239_1_2_3 [0x16, 0, 0xF8, 0xFA, 0xEF, 1, 2, 3] 8 2] ∧
    SimpleCalculate [0x16, 0, 0, 0, 0xEF, 1, 2, 3] = 0xF8FA ∧
    SendLeaveGroup Sample.own Sample.g239_1_2_3 =
      [TCall.Send (CIPAddress.ofOctets 224 0 0 2) [0x17, 0, 0xF7, 0xFA, 0xEF, 1, 2, 3] 8 2] ∧
    SimpleCalculate [0x17, 0, 0, 0, 0xEF, 1, 2, 3] = 0xF7FA := by
  decide

end CIGMPHandler

end Circle

/-! ## Received frames -/

namespace Circle

namespace CNetworkLayer

/-- `ProcessFrame` in terms of the four checks: a frame that fails one of them
changes nothing, a frame that passes all is dispatched. -/
theorem ProcessFrame_eq (cfg : CNetConfig) (s : CNetworkLayer) (Buffer : List Octet)
    (beyond : Nat → Octet) (mem : List Octet) (nRandom hStart : Nat) :
    ProcessFrame cfg s Buffer beyond mem nRandom hStart =
      if Accepted cfg Buffer = true then Dispatch s Buffer beyond mem nRandom hStart
      else (s, []) := by
  unfold ProcessFrame Accepted
  by_cases h1 : PassesHeaderChecks Buffer = true
  · by_cases h2 : PassesDestinationCheck cfg Buffer = true
    · by_cases h3 : IsFragment Buffer = true
      · simp [h1, h2, h3]
      · by_cases h4 : Buffer.length < nTotalLength Buffer
        · simp [h1, h2, h3, h4]
        · simp [h1, h2, h3, h4]
    · simp [h1, h2]
  · simp [h1]

/-- C14: for every frame that passes the length, version, header-length and
header-checksum checks and every configuration: when the own address is not null
the frame passes the destination check if and only if the destination equals the
own address, or is 255.255.255.255, or is multicast, or equals the subnet broadcast
address; when the own address is null it passes if and only if the destination is
255.255.255.255 or multicast.  A frame that fails the check changes nothing and is
handed to no one; a frame that passes goes on to the fragment check. -/
theorem destination_acceptance (cfg : CNetConfig) (Buffer : List Octet)
    (hHdr : PassesHeaderChecks Buffer = true) :
    (cfg.m_IPAddress.IsNull = false →
      (PassesDestinationCheck cfg Buffer = true ↔
        cfg.m_IPAddress.opEq (IPAddressDestination Buffer) = true ∨
        (IPAddressDestination Buffer).IsBroadcast = true ∨
        (IPAddressDestination Buffer).IsMulticast = true ∨
        cfg.m_BroadcastAddress.opEq (IPAddressDestination Buffer) = true)) ∧
    (cfg.m_IPAddress.IsNull = true →
      (PassesDestinationCheck cfg Buffer = true ↔
        (IPAddressDestination Buffer).IsBroadcast = true ∨
        (IPAddressDestination Buffer).IsMulticast = true)) ∧
    (∀ (s : CNetworkLayer) (beyond : Nat → Octet) (mem : List Octet) (nRandom hStart : Nat),
      ProcessFrame cfg s Buffer beyond mem nRandom hStart =
        if PassesDestinationCheck cfg Buffer = true then
          if IsFragment Buffer = true then (s, [])
          else if Buffer.length < nTotalLength Buffer then (s, [])
          else Dispatch s Buffer beyond mem nRandom hStart
        else (s, [])) := by
  refine ⟨?_, ?_, ?_⟩
  · intro hn
    unfold PassesDestinationCheck
    cases h1 : cfg.m_IPAddress.opEq (IPAddressDestination Buffer) <;>
      cases h2 : (IPAddressDestination Buffer).IsBroadcast <;>
      cases h3 : (IPAddressDestination Buffer).IsMulticast <;>
      cases h4 : cfg.m_BroadcastAddress.opEq (IPAddressDestination Buffer) <;>
      simp [hn]
  · intro hn
    unfold PassesDestinationCheck
    cases h2 : (IPAddressDestination Buffer).IsBroadcast <;>
      cases h3 : (IPAddressDestination Buffer).IsMulticast <;>
      simp [hn]
  · intro s beyond mem nRandom hStart
    unfold ProcessFrame
    by_cases h2 : PassesDestinationCheck cfg Buffer = true
    · by_cases h3 : IsFragment Buffer = true
      · simp [hHdr, h2, h3]
      · simp [hHdr, h2, h3]
    · simp [hHdr, h2]

/-- Witness of C14: the frame `Sample.queryFrame` for 224.0.0.1 passes the header
checks and, with own address 192.168.1.10, the destination check. -/
theorem destination_acceptance_witness :
    PassesDestinationCheck Sample.config Sample.queryFrame = true :=
  ((destination_acceptance Sample.config Sample.queryFrame (by decide)).1 (by decide)).mpr
    (Or.inr (Or.inr (Or.inl (by decide))))

/-- C15: a received frame passes the header checks if and only if its length is
more than 20, the version is 4, the header length field is at least 5 and at most
15, the length is more than four times the header length field, and the Internet
checksum over that many octets is CHECKSUM_OK; a frame that fails the checks
changes no queue and no handler state and is handed to no one. -/
theorem header_validation (Buffer : List Octet) :
    (PassesHeaderChecks Buffer = true ↔
      20 < Buffer.length ∧ nVersionIHL Buffer / 16 = 4 ∧ 5 ≤ nVersionIHL Buffer % 16 ∧
      nVersionIHL Buffer % 16 ≤ 15 ∧ nVersionIHL Buffer % 16 * 4 < Buffer.length ∧
      SimpleCalculate (Buffer.take (nVersionIHL Buffer % 16 * 4)) = CHECKSUM_OK) ∧
    ∀ (cfg : CNetConfig) (s : CNetworkLayer) (beyond : Nat → Octet) (mem : List Octet)
      (nRandom hStart : Nat), PassesHeaderChecks Buffer = false →
      ProcessFrame cfg s Buffer beyond mem nRandom hStart = (s, []) := by
  constructor
  · unfold PassesHeaderChecks
    simp only [sizeofTIPHeader, IP_HEADER_LENGTH_DWORD_MIN, IP_HEADER_LENGTH_DWORD_MAX,
      IP_VERSION, nHeaderLength]
    constructor
    · intro h
      split at h
      · cases h
      · split at h
        · cases h
        · split at h
          · cases h
          · split at h
            · cases h
            · simp only [Bool.or_eq_true, decide_eq_true_eq, bne_iff_ne, ne_eq, not_or,
                Decidable.not_not] at *
              omega
    · rintro ⟨h1, h2, h3, h4, h5, h6⟩
      have a1 : ¬ Buffer.length ≤ 20 := by omega
      have a3 : ¬ Buffer.length ≤ nVersionIHL Buffer % 16 * 4 := by omega
      simp [a1, a3, h2, h6]
      omega
  · intro cfg s beyond mem nRandom hStart h
    simp [ProcessFrame, h]

/-- The fragment condition of `Process` in terms of the two octets of the field:
the more-fragments bit of the first octet is set, or the 13-bit offset is not 0. -/
theorem IsFragment_iff (Buffer : List Octet) :
    IsFragment Buffer = true ↔
      ((Buffer.getD 6 0).val / 32 % 2 = 1 ∨
        (256 * (Buffer.getD 6 0).val + (Buffer.getD 7 0).val) % 8192 ≠ 0) := by
  have ha := (Buffer.getD 6 0).isLt
  have hb := (Buffer.getD 7 0).isLt
  simp only [IsFragment, hasMoreFragments, nFlagsFragmentOffset, hostU16, le2be16,
    IP_FRAGMENT_OFFSET, IP_FRAGMENT_OFFSET_FIRST, Bool.or_eq_true, bne_iff_ne, ne_eq]
  generalize (Buffer.getD 6 0).val = a at *
  generalize (Buffer.getD 7 0).val = b at *
  have h1 : (a + 256 * b) / 32 % 2 = a / 32 % 2 := by omega
  have e1 : (a + 256 * b) % 256 = a := by omega
  have e2 : (a + 256 * b) / 256 = b := by omega
  have e3 : b % 256 = b := by omega
  have h2 : (256 * ((a + 256 * b) % 256) + (a + 256 * b) / 256 % 256) % 8192
      = (256 * a + b) % 8192 := by rw [e1, e2, e3]
  rw [h1, h2]
  constructor
  · rintro (h | h)
    · left; omega
    · right; exact h
  · rintro (h | h)
    · left; omega
    · right; exact h

/-- C16: every received frame whose more-fragments flag is set or whose fragment
offset is not zero is dropped: the queues and the IGMP handler are unchanged and
no call is made, whatever the protocol, so such a frame with protocol 2 does not
reach ProcessPacket. -/
theorem fragment_is_dropped (cfg : CNetConfig) (s : CNetworkLayer) (Buffer : List Octet)
    (beyond : Nat → Octet) (mem : List Octet) (nRandom hStart : Nat)
    (hFrag : (Buffer.getD 6 0).val / 32 % 2 = 1 ∨
      (256 * (Buffer.getD 6 0).val + (Buffer.getD 7 0).val) % 8192 ≠ 0) :
    ProcessFrame cfg s Buffer beyond mem nRandom hStart = (s, []) := by
  have h := (IsFragment_iff Buffer).mpr hFrag
  rw [ProcessFrame_eq]
  simp [Accepted, h]

/-- Witness of C16: `Sample.fragmentFrame` has protocol 2, more-fragments set and
offset 0; it passes the header and destination checks, and it leaves the network
layer and its IGMP handler unchanged, with no call to ProcessPacket. -/
theorem fragment_is_dropped_witness :
    nProtocol Sample.fragmentFrame = 2 ∧
    PassesHeaderChecks Sample.fragmentFrame = true ∧
    PassesDestinationCheck Sample.config Sample.fragmentFrame = true ∧
    ProcessFrame Sample.config Sample.layer Sample.fragmentFrame Sample.beyond [] 123456 7 =
      (Sample.layer, []) :=
  ⟨by decide, by decide, by decide,
    fragment_is_dropped Sample.config Sample.layer Sample.fragmentFrame Sample.beyond []
      123456 7 (Or.inl (by decide))⟩

/-- C17: for every frame that Process accepts, with the IGMP handler created:
when the protocol is 2 the payload, its length and the source address are handed to
ProcessPacket of the IGMP handler, whose state after the call is kept, and no queue
changes; when the protocol is 1 the payload is added at the end of the ICMP queue,
and at the end of the second ICMP queue exactly when that queue is enabled; for
every other protocol the payload is added at the end of the generic receive queue
with the protocol, source and destination of the header. -/
theorem dispatch_by_protocol (cfg : CNetConfig) (s : CNetworkLayer)
    (pIGMPHandler : CIGMPHandler) (Buffer : List Octet) (beyond : Nat → Octet)
    (mem : List Octet) (nRandom hStart : Nat) (hAcc : Accepted cfg Buffer = true)
    (hInit : s.m_pIGMPHandler = some pIGMPHandler) :
    ((nProtocol Buffer).val = 2 →
      ProcessFrame cfg s Buffer beyond mem nRandom hStart =
        ({ s with m_pIGMPHandler :=
              some (pIGMPHandler.ProcessPacket (Payload Buffer beyond) mem nRandom hStart).1 },
          TNetCall.ProcessPacket (Payload Buffer beyond) (nPayloadLength Buffer)
              (CIPAddress.ofOctets (Buffer.getD 12 0) (Buffer.getD 13 0) (Buffer.getD 14 0)
                (Buffer.getD 15 0))
            :: (pIGMPHandler.ProcessPacket (Payload Buffer beyond) mem nRandom hStart).2.map
                TNetCall.Handler)) ∧
    ((nProtocol Buffer).val = 1 →
      ProcessFrame cfg s Buffer beyond mem nRandom hStart =
        ({ s with
            m_ICMPRxQueue := s.m_ICMPRxQueue ++
              [{ pBuffer := Payload Buffer beyond, nLength := nPayloadLength Buffer,
                 pParam := { nProtocol := nProtocol Buffer,
                             SourceAddress := SourceAddress Buffer,
                             DestinationAddress := DestinationAddress Buffer } }]
            m_pICMPRxQueue2 := match s.m_pICMPRxQueue2 with
              | some q => some (q ++
                  [{ pBuffer := Payload Buffer beyond, nLength := nPayloadLength Buffer,
                     pParam := { nProtocol := nProtocol Buffer,
                                 SourceAddress := SourceAddress Buffer,
                                 DestinationAddress := DestinationAddress Buffer } }])
              | none => none }, [])) ∧
    ((nProtocol Buffer).val ≠ 1 → (nProtocol Buffer).val ≠ 2 →
      ProcessFrame cfg s Buffer beyond mem nRandom hStart =
        ({ s with
            m_RxQueue := s.m_RxQueue ++
              [{ pBuffer := Payload Buffer beyond, nLength := nPayloadLength Buffer,
                 pParam := { nProtocol := nProtocol Buffer,
                             SourceAddress := SourceAddress Buffer,
                             DestinationAddress := DestinationAddress Buffer } }] }, [])) := by
  rw [ProcessFrame_eq, if_pos hAcc]
  refine ⟨?_, ?_, ?_⟩
  · intro h
    simp [Dispatch, h, IPPROTO_ICMP, IPPROTO_IGMP, hInit]
  · intro h
    cases hq : s.m_pICMPRxQueue2 <;>
      simp [Dispatch, h, IPPROTO_ICMP, QueueEntry, PrivateData, hq]
  · intro h1 h2
    simp [Dispatch, h1, h2, IPPROTO_ICMP, IPPROTO_IGMP, QueueEntry, PrivateData]

/-- Witness of C17: the general query in `Sample.queryFrame` is accepted and handed
to the IGMP handler, which arms the report for 239.5.5.5; no queue changes. -/
theorem dispatch_by_protocol_witness :
    ProcessFrame Sample.config Sample.layer Sample.queryFrame Sample.beyond [] 123456 7 =
      ({ Sample.layer with m_pIGMPHandler := some Sample.armed3 },
        [TNetCall.ProcessPacket [0x11, 100, 0xEE, 0x9B, 0, 0, 0, 0] 8
            (CIPAddress.ofOctets 192 168 1 1),
          TNetCall.Handler (TCall.StartKernelTimer 345)]) :=
  ((dispatch_by_protocol Sample.config Sample.layer Sample.joined3 Sample.queryFrame
    Sample.beyond [] 123456 7 (by decide) rfl).1 (by decide)).trans (by decide)

/-! ## Sent packets -/

/-- The two octets stored for a 16-bit value after `le2be16`: high octet first. -/
theorem hostU16Octets_le2be16 (v : Nat) :
    hostU16Octets (le2be16 v) = [Fin.ofNat (v / 256 % 256), Fin.ofNat (v % 256)] := by
  have h1 : (256 * (v % 256) + v / 256 % 256) % 256 = v / 256 % 256 := by omega
  have h2 : (256 * (v % 256) + v / 256 % 256) / 256 % 256 = v % 256 := by omega
  simp only [hostU16Octets, le2be16, h1, h2]

/-- The octets of the packet that `Send` builds. -/
theorem PacketBuffer_octets (k : TIPConstants) (own rReceiver : CIPAddress)
    (pPacket : List Octet) (nPacketLength nProtocol : Nat) :
    PacketBuffer k own rReceiver pPacket nPacketLength nProtocol =
      [0x45, 0,
        Fin.ofNat (nPacketLength % 65536 / 256 % 256), Fin.ofNat (nPacketLength % 65536 % 256),
        Fin.ofNat (k.IP_IDENTIFICATION_DEFAULT / 256 % 256),
        Fin.ofNat (k.IP_IDENTIFICATION_DEFAULT % 256),
        0x40, 0,
        if rReceiver.IsMulticast = true then 1 else 64,
        Fin.ofNat (nProtocol % 256),
        Fin.ofNat (SimpleCalculate (BuildHeader k own rReceiver nPacketLength nProtocol 0)
          / 256 % 256),
        Fin.ofNat (SimpleCalculate (BuildHeader k own rReceiver nPacketLength nProtocol 0)
          % 256),
        own.o0, own.o1, own.o2, own.o3,
        rReceiver.o0, rReceiver.o1, rReceiver.o2, rReceiver.o3] ++ pPacket := by
  have hdf : hostU16Octets (IP_FLAGS_DF ||| le2be16 IP_FRAGMENT_OFFSET_FIRST) = [0x40, 0] := by
    decide
  have hv : (Fin.ofNat (IP_VERSION * 16 + IP_HEADER_LENGTH_DWORD_MIN) : Octet) = 0x45 := by
    decide
  simp only [PacketBuffer, BuildHeader, hostU16Octets_le2be16, hdf, hv, IP_TOS_ROUTINE,
    IP_TTL_MULTICAST, IP_TTL_DEFAULT, CIPAddress.CopyTo, List.cons_append, List.nil_append,
    List.append_assoc]

/-- What `Send` does once the length guard is passed. -/
theorem Send_of_length_ok (k : TIPConstants) (cfg : CNetConfig)
    (pGateway : Option (Octet × Octet × Octet × Octet)) (bLinkSent : Bool)
    (rReceiver : CIPAddress) (pPacket : List Octet) (nProtocol : Nat)
    (hLen : PassesLengthGuard k pPacket = true) :
    Send k cfg pGateway bLinkSent rReceiver pPacket nProtocol =
      if (cfg.m_IPAddress.IsNull && !rReceiver.IsBroadcast) = true then
        (false, [TNetCall.SendFailed ICMP_CODE_DEST_NET_UNREACH
          (PacketBuffer k cfg.m_IPAddress rReceiver pPacket
            ((sizeofTIPHeader + pPacket.length) % 4294967296) nProtocol)
          ((sizeofTIPHeader + pPacket.length) % 4294967296)])
      else if (!rReceiver.IsMulticast
          && !cfg.m_IPAddress.OnSameNetwork rReceiver cfg.m_NetMask) = true then
        match pGateway with
        | some (a, b, c, d) =>
          (bLinkSent, [TNetCall.LinkSend (CIPAddress.ofOctets a b c d)
            (PacketBuffer k cfg.m_IPAddress rReceiver pPacket
              ((sizeofTIPHeader + pPacket.length) % 4294967296) nProtocol)
            ((sizeofTIPHeader + pPacket.length) % 4294967296)])
        | none =>
          if cfg.m_DefaultGateway.IsNull = true then
            (false, [TNetCall.SendFailed ICMP_CODE_DEST_NET_UNREACH
              (PacketBuffer k cfg.m_IPAddress rReceiver pPacket
                ((sizeofTIPHeader + pPacket.length) % 4294967296) nProtocol)
              ((sizeofTIPHeader + pPacket.length) % 4294967296)])
          else
            (bLinkSent, [TNetCall.LinkSend cfg.m_DefaultGateway
              (PacketBuffer k cfg.m_IPAddress rReceiver pPacket
                ((sizeofTIPHeader + pPacket.length) % 4294967296) nProtocol)
              ((sizeofTIPHeader + pPacket.length) % 4294967296)])
      else
        (bLinkSent, [TNetCall.LinkSend rReceiver
          (PacketBuffer k cfg.m_IPAddress rReceiver pPacket
            ((sizeofTIPHeader + pPacket.length) % 4294967296) nProtocol)
          ((sizeofTIPHeader + pPacket.length) % 4294967296)]) := by
  simp only [PassesLengthGuard, Bool.and_eq_true, decide_eq_true_eq] at hLen
  have h1 : ¬ (sizeofTIPHeader + pPacket.length) % 4294967296 ≤ sizeofTIPHeader := by omega
  have h2 : ¬ (sizeofTIPHeader + pPacket.length) % 4294967296 > k.FRAME_BUFFER_SIZE := by omega
  simp only [Send, h1, h2, decide_False, Bool.or_self, Bool.false_eq_true, if_false]

/-- Nothing is handed to the link layer when the length guard is not passed. -/
theorem Send_of_length_bad (k : TIPConstants) (cfg : CNetConfig)
    (pGateway : Option (Octet × Octet × Octet × Octet)) (bLinkSent : Bool)
    (rReceiver : CIPAddress) (pPacket : List Octet) (nProtocol : Nat)
    (hLen : PassesLengthGuard k pPacket = false) :
    Send k cfg pGateway bLinkSent rReceiver pPacket nProtocol = (false, []) := by
  simp only [PassesLengthGuard, Bool.and_eq_false_iff, decide_eq_false_iff_not] at hLen
  have h : ((sizeofTIPHeader + pPacket.length) % 4294967296 ≤ sizeofTIPHeader
      || (sizeofTIPHeader + pPacket.length) % 4294967296 > k.FRAME_BUFFER_SIZE) = true := by
    simp only [Bool.or_eq_true, decide_eq_true_eq]
    omega
  simp only [Send, h, if_true]

/-- The twenty octets of the header that `Send` builds, for a given value of the
checksum field. -/
theorem BuildHeader_octets (k : TIPConstants) (own rReceiver : CIPAddress)
    (nPacketLength nProtocol nHeaderChecksum : Nat) :
    BuildHeader k own rReceiver nPacketLength nProtocol nHeaderChecksum =
      [0x45, 0,
        Fin.ofNat (nPacketLength % 65536 / 256 % 256), Fin.ofNat (nPacketLength % 65536 % 256),
        Fin.ofNat (k.IP_IDENTIFICATION_DEFAULT / 256 % 256),
        Fin.ofNat (k.IP_IDENTIFICATION_DEFAULT % 256),
        0x40, 0,
        if rReceiver.IsMulticast = true then 1 else 64,
        Fin.ofNat (nProtocol % 256),
        Fin.ofNat (nHeaderChecksum / 256 % 256), Fin.ofNat (nHeaderChecksum % 256),
        own.o0, own.o1, own.o2, own.o3,
        rReceiver.o0, rReceiver.o1, rReceiver.o2, rReceiver.o3] := by
  have hdf : hostU16Octets (IP_FLAGS_DF ||| le2be16 IP_FRAGMENT_OFFSET_FIRST) = [0x40, 0] := by
    decide
  have hv : (Fin.ofNat (IP_VERSION * 16 + IP_HEADER_LENGTH_DWORD_MIN) : Octet) = 0x45 := by
    decide
  simp only [BuildHeader, hostU16Octets_le2be16, hdf, hv, IP_TOS_ROUTINE,
    IP_TTL_MULTICAST, IP_TTL_DEFAULT, CIPAddress.CopyTo, List.cons_append, List.nil_append,
    List.append_assoc]

/-- C18: for every destination, protocol and payload of a 32-bit length that Send
hands to the link layer, with frame buffers of fewer than 65536 octets, the packet
handed over is twenty header octets followed by the payload unchanged, its length
is 20 plus the payload length, and the header octets are: 0x45 (version 4, header
length 5), type of service 0, the total length 20 + len with the high octet first,
the default identification with the high octet first, 0x40 0x00 (don't-fragment
set, offset 0), TTL 1 for a multicast destination and 64 otherwise, the protocol,
the two octets of the checksum computed over the twenty octets with a zero checksum
field, the own address and the destination. -/
theorem Send_packet_layout (k : TIPConstants) (cfg : CNetConfig)
    (pGateway : Option (Octet × Octet × Octet × Octet)) (bLinkSent : Bool)
    (rReceiver : CIPAddress) (pPacket : List Octet) (nProtocol : Nat)
    (rNextHop : CIPAddress) (pFrame : List Octet) (nLength : Nat)
    (hU32 : pPacket.length < 4294967296) (hFBS : k.FRAME_BUFFER_SIZE < 65536)
    (hSent : TNetCall.LinkSend rNextHop pFrame nLength ∈
      (Send k cfg pGateway bLinkSent rReceiver pPacket nProtocol).2) :
    ∃ nHeaderChecksum : Nat,
      nHeaderChecksum = SimpleCalculate
        [0x45, 0,
          Fin.ofNat ((20 + pPacket.length) / 256 % 256), Fin.ofNat ((20 + pPacket.length) % 256),
          Fin.ofNat (k.IP_IDENTIFICATION_DEFAULT / 256 % 256),
          Fin.ofNat (k.IP_IDENTIFICATION_DEFAULT % 256),
          0x40, 0,
          if rReceiver.IsMulticast = true then 1 else 64,
          Fin.ofNat (nProtocol % 256), 0, 0,
          cfg.m_IPAddress.o0, cfg.m_IPAddress.o1, cfg.m_IPAddress.o2, cfg.m_IPAddress.o3,
          rReceiver.o0, rReceiver.o1, rReceiver.o2, rReceiver.o3] ∧
      nHeaderChecksum < 65536 ∧
      pFrame =
        [0x45, 0,
          Fin.ofNat ((20 + pPacket.length) / 256 % 256), Fin.ofNat ((20 + pPacket.length) % 256),
          Fin.ofNat (k.IP_IDENTIFICATION_DEFAULT / 256 % 256),
          Fin.ofNat (k.IP_IDENTIFICATION_DEFAULT % 256),
          0x40, 0,
          if rReceiver.IsMulticast = true then 1 else 64,
          Fin.ofNat (nProtocol % 256),
          Fin.ofNat (nHeaderChecksum / 256 % 256), Fin.ofNat (nHeaderChecksum % 256),
          cfg.m_IPAddress.o0, cfg.m_IPAddress.o1, cfg.m_IPAddress.o2, cfg.m_IPAddress.o3,
          rReceiver.o0, rReceiver.o1, rReceiver.o2, rReceiver.o3] ++ pPacket ∧
      nLength = 20 + pPacket.length ∧
      20 + pPacket.length < 65536 := by
  cases hg : PassesLengthGuard k pPacket with
  | false =>
    rw [Send_of_length_bad k cfg pGateway bLinkSent rReceiver pPacket nProtocol hg] at hSent
    simp at hSent
  | true =>
    have hg2 := hg
    simp only [PassesLengthGuard, Bool.and_eq_true, decide_eq_true_eq, sizeofTIPHeader] at hg2
    have hn : (sizeofTIPHeader + pPacket.length) % 4294967296 = 20 + pPacket.length := by
      simp only [sizeofTIPHeader]; omega
    have hlt : 20 + pPacket.length < 65536 := by omega
    have hm : (20 + pPacket.length) % 65536 = 20 + pPacket.length := by omega
    have hframe : pFrame = PacketBuffer k cfg.m_IPAddress rReceiver pPacket
        (20 + pPacket.length) nProtocol ∧ nLength = 20 + pPacket.length := by
      rw [Send_of_length_ok k cfg pGateway bLinkSent rReceiver pPacket nProtocol hg, hn] at hSent
      split at hSent
      · simp at hSent
      · split at hSent
        · split at hSent
          · simp only [List.mem_singleton, TNetCall.LinkSend.injEq] at hSent
            exact ⟨hSent.2.1, hSent.2.2⟩
          · split at hSent
            · simp at hSent
            · simp only [List.mem_singleton, TNetCall.LinkSend.injEq] at hSent
              exact ⟨hSent.2.1, hSent.2.2⟩
        · simp only [List.mem_singleton, TNetCall.LinkSend.injEq] at hSent
          exact ⟨hSent.2.1, hSent.2.2⟩
    refine ⟨SimpleCalculate (BuildHeader k cfg.m_IPAddress rReceiver (20 + pPacket.length)
      nProtocol 0), ?_, CIGMPHandler.SimpleCalculate_lt _, ?_, hframe.2, hlt⟩
    · rw [BuildHeader_octets, hm]
      rfl
    · rw [hframe.1, PacketBuffer_octets, hm]

/-- Witness of C18: the membership report for 239.1.2.3 sent from 192.168.1.10 goes
to the link layer as the 28 octets 45 00 00 1C 00 00 40 00 01 02 C7 29, own address,
destination, payload. -/
theorem Send_packet_layout_witness :
    ∃ nHeaderChecksum : Nat,
      nHeaderChecksum = SimpleCalculate
        [0x45, 0,
          Fin.ofNat ((20 + 8) / 256 % 256), Fin.ofNat ((20 + 8) % 256),
          Fin.ofNat (0 / 256 % 256), Fin.ofNat (0 % 256),
          0x40, 0,
          if Sample.g239_1_2_3.IsMulticast = true then 1 else 64,
          Fin.ofNat (2 % 256), 0, 0,
          192, 168, 1, 10, 239, 1, 2, 3] ∧
      nHeaderChecksum < 65536 ∧
      ([0x45, 0, 0, 0x1C, 0, 0, 0x40, 0, 1, 2, 0xC7, 0x29, 192, 168, 1, 10, 239, 1, 2, 3,
          0x16, 0, 0xF8, 0xFA, 239, 1, 2, 3] : List Octet) =
        [0x45, 0,
          Fin.ofNat ((20 + 8) / 256 % 256), Fin.ofNat ((20 + 8) % 256),
          Fin.ofNat (0 / 256 % 256), Fin.ofNat (0 % 256),
          0x40, 0,
          if Sample.g239_1_2_3.IsMulticast = true then 1 else 64,
          Fin.ofNat (2 % 256),
          Fin.ofNat (nHeaderChecksum / 256 % 256), Fin.ofNat (nHeaderChecksum % 256),
          192, 168, 1, 10, 239, 1, 2, 3] ++ [0x16, 0, 0xF8, 0xFA, 239, 1, 2, 3] ∧
      28 = 20 + 8 ∧ 20 + 8 < 65536 :=
  Send_packet_layout Sample.constants Sample.config none true Sample.g239_1_2_3
    [0x16, 0, 0xF8, 0xFA, 239, 1, 2, 3] 2 Sample.g239_1_2_3
    [0x45, 0, 0, 0x1C, 0, 0, 0x40, 0, 1, 2, 0xC7, 0x29, 192, 168, 1, 10, 239, 1, 2, 3,
      0x16, 0, 0xF8, 0xFA, 239, 1, 2, 3] 28 (by decide) (by decide) (by decide)

/-- C19: for every call of Send that passes the length guard, when the own address
is null and the destination is not 255.255.255.255, Send returns false and makes
exactly one call, the destination-unreachable (net) notification with the packet
it built; nothing is handed to the link layer. -/
theorem Send_without_own_address (k : TIPConstants) (cfg : CNetConfig)
    (pGateway : Option (Octet × Octet × Octet × Octet)) (bLinkSent : Bool)
    (rReceiver : CIPAddress) (pPacket : List Octet) (nProtocol : Nat)
    (hLen : PassesLengthGuard k pPacket = true) (hNull : cfg.m_IPAddress.IsNull = true)
    (hDest : rReceiver.IsBroadcast = false) :
    Send k cfg pGateway bLinkSent rReceiver pPacket nProtocol =
      (false, [TNetCall.SendFailed ICMP_CODE_DEST_NET_UNREACH
        (PacketBuffer k cfg.m_IPAddress rReceiver pPacket
          ((sizeofTIPHeader + pPacket.length) % 4294967296) nProtocol)
        ((sizeofTIPHeader + pPacket.length) % 4294967296)]) := by
  rw [Send_of_length_ok k cfg pGateway bLinkSent rReceiver pPacket nProtocol hLen]
  simp [hNull, hDest]

/-- Witness of C19: with own address 0.0.0.0, sending the report for 239.1.2.3
returns false and raises the notification for the 28-octet packet. -/
theorem Send_without_own_address_witness :
    Send Sample.constants Sample.configNoIp none true Sample.g239_1_2_3
        [0x16, 0, 0xF8, 0xFA, 239, 1, 2, 3] 2 =
      (false, [TNetCall.SendFailed ICMP_CODE_DEST_NET_UNREACH
        [0x45, 0, 0, 0x1C, 0, 0, 0x40, 0, 1, 2, 0x88, 0xDC, 0, 0, 0, 0, 239, 1, 2, 3,
          0x16, 0, 0xF8, 0xFA, 239, 1, 2, 3] 28]) :=
  (Send_without_own_address Sample.constants Sample.configNoIp none true Sample.g239_1_2_3
    [0x16, 0, 0xF8, 0xFA, 239, 1, 2, 3] 2 (by decide) (by decide) (by decide)).trans
    (by decide)

/-- C20: for every call of Send that passes the length guard and the own-address
check, the next hop handed to the link layer is the destination when the
destination is multicast; else the destination when it is on the own subnet by own
address and netmask; else the gateway of the route cache when there is one; else
the default gateway when it is not null; and when none applies Send makes the
destination-unreachable notification and returns false without a call to the link
layer.  When the link layer is called Send returns what the link layer returns. -/
theorem Send_next_hop (k : TIPConstants) (cfg : CNetConfig)
    (pGateway : Option (Octet × Octet × Octet × Octet)) (bLinkSent : Bool)
    (rReceiver : CIPAddress) (pPacket : List Octet) (nProtocol : Nat)
    (hLen : PassesLengthGuard k pPacket = true)
    (hOwn : ¬ (cfg.m_IPAddress.IsNull = true ∧ rReceiver.IsBroadcast = false)) :
    Send k cfg pGateway bLinkSent rReceiver pPacket nProtocol =
      if rReceiver.IsMulticast = true then
        (bLinkSent, [TNetCall.LinkSend rReceiver
          (PacketBuffer k cfg.m_IPAddress rReceiver pPacket
            ((sizeofTIPHeader + pPacket.length) % 4294967296) nProtocol)
          ((sizeofTIPHeader + pPacket.length) % 4294967296)])
      else if cfg.m_IPAddress.OnSameNetwork rReceiver cfg.m_NetMask = true then
        (bLinkSent, [TNetCall.LinkSend rReceiver
          (PacketBuffer k cfg.m_IPAddress rReceiver pPacket
            ((sizeofTIPHeader + pPacket.length) % 4294967296) nProtocol)
          ((sizeofTIPHeader + pPacket.length) % 4294967296)])
      else
        match pGateway with
        | some (a, b, c, d) =>
          (bLinkSent, [TNetCall.LinkSend (CIPAddress.ofOctets a b c d)
            (PacketBuffer k cfg.m_IPAddress rReceiver pPacket
              ((sizeofTIPHeader + pPacket.length) % 4294967296) nProtocol)
            ((sizeofTIPHeader + pPacket.length) % 4294967296)])
        | none =>
          if cfg.m_DefaultGateway.IsNull = true then
            (false, [TNetCall.SendFailed ICMP_CODE_DEST_NET_UNREACH
              (PacketBuffer k cfg.m_IPAddress rReceiver pPacket
                ((sizeofTIPHeader + pPacket.length) % 4294967296) nProtocol)
              ((sizeofTIPHeader + pPacket.length) % 4294967296)])
          else
            (bLinkSent, [TNetCall.LinkSend cfg.m_DefaultGateway
              (PacketBuffer k cfg.m_IPAddress rReceiver pPacket
                ((sizeofTIPHeader + pPacket.length) % 4294967296) nProtocol)
              ((sizeofTIPHeader + pPacket.length) % 4294967296)]) := by
  rw [Send_of_length_ok k cfg pGateway bLinkSent rReceiver pPacket nProtocol hLen]
  have h0 : (cfg.m_IPAddress.IsNull && !rReceiver.IsBroadcast) = false := by
    cases h1 : cfg.m_IPAddress.IsNull <;> cases h2 : rReceiver.IsBroadcast <;> simp_all
  rw [if_neg (by simp [h0])]
  cases hm : rReceiver.IsMulticast <;>
    cases hn : cfg.m_IPAddress.OnSameNetwork rReceiver cfg.m_NetMask <;> simp

/-- Witness of C20: with own address 192.168.1.10 and netmask 255.255.255.0, a
packet for 8.8.8.8 with no route in the cache goes to the default gateway
192.168.1.1, and with the route 10.0.0.1 in the cache it goes to 10.0.0.1. -/
theorem Send_next_hop_witness :
    Send Sample.constants Sample.config none true (CIPAddress.ofOctets 8 8 8 8) [1, 2, 3] 17 =
      (true, [TNetCall.LinkSend (CIPAddress.ofOctets 192 168 1 1)
        [0x45, 0, 0, 23, 0, 0, 0x40, 0, 64, 17, 105, 20, 192, 168, 1, 10, 8, 8, 8, 8, 1, 2, 3]
        23]) ∧
    Send Sample.constants Sample.config (some (10, 0, 0, 1)) true (CIPAddress.ofOctets 8 8 8 8)
        [1, 2, 3] 17 =
      (true, [TNetCall.LinkSend (CIPAddress.ofOctets 10 0 0 1)
        [0x45, 0, 0, 23, 0, 0, 0x40, 0, 64, 17, 105, 20, 192, 168, 1, 10, 8, 8, 8, 8, 1, 2, 3]
        23]) :=
  ⟨(Send_next_hop Sample.constants Sample.config none true (CIPAddress.ofOctets 8 8 8 8)
      [1, 2, 3] 17 (by decide) (by decide)).trans (by decide),
    (Send_next_hop Sample.constants Sample.config (some (10, 0, 0, 1)) true
      (CIPAddress.ofOctets 8 8 8 8) [1, 2, 3] 17 (by decide) (by decide)).trans (by decide)⟩

end CNetworkLayer

end Circle

/-! ## UDP endpoints and multicast MAC addresses -/

namespace Circle

namespace CUDPConnection

/-- C22: for every UDP endpoint and address g, JoinMulticastGroup(g) returns -1,
leaves the endpoint unchanged and makes no call whenever g is not set, or not
multicast, or the endpoint is active-open; otherwise it returns 0, stores g as the
subscribed group, leaves the rest of the endpoint unchanged and makes exactly one
call, NotifyJoinGroup(g). -/
theorem JoinMulticastGroup_result (c : CUDPConnection) (g : CIPAddress) :
    ((g.IsSet = false ∨ g.IsMulticast = false ∨ c.m_bActiveOpen = true) →
      JoinMulticastGroup c g = (-1, c, [])) ∧
    (¬ (g.IsSet = false ∨ g.IsMulticast = false ∨ c.m_bActiveOpen = true) →
      JoinMulticastGroup c g =
        (0, { c with m_MulticastGroup := g }, [TUDPCall.NotifyJoinGroup g])) := by
  unfold JoinMulticastGroup
  cases h1 : g.IsSet <;> cases h2 : g.IsMulticast <;> cases h3 : c.m_bActiveOpen <;> simp

/-- C23: for every UDP endpoint and address g, LeaveMulticastGroup(g) returns 0; if
the subscribed group is set and equals g it makes exactly one call,
NotifyLeaveGroup(g), and leaves the subscribed group unset, so that
IsMulticastConnection is false afterwards; otherwise it changes nothing and makes
no call; and it makes the call only in the first case. -/
theorem LeaveMulticastGroup_result (c : CUDPConnection) (g : CIPAddress) :
    (LeaveMulticastGroup c g).1 = 0 ∧
    ((c.m_MulticastGroup.IsSet = true ∧ c.m_MulticastGroup.opEq g = true) →
      (LeaveMulticastGroup c g).2.2 = [TUDPCall.NotifyLeaveGroup g] ∧
      (LeaveMulticastGroup c g).2.1 = { c with m_MulticastGroup := CIPAddress.unset } ∧
      (LeaveMulticastGroup c g).2.1.m_MulticastGroup.IsSet = false ∧
      (LeaveMulticastGroup c g).2.1.IsMulticastConnection = false) ∧
    (¬ (c.m_MulticastGroup.IsSet = true ∧ c.m_MulticastGroup.opEq g = true) →
      LeaveMulticastGroup c g = (0, c, [])) ∧
    (TUDPCall.NotifyLeaveGroup g ∈ (LeaveMulticastGroup c g).2.2 ↔
      (c.m_MulticastGroup.IsSet = true ∧ c.m_MulticastGroup.opEq g = true)) := by
  unfold LeaveMulticastGroup
  cases h1 : c.m_MulticastGroup.IsSet <;> cases h2 : c.m_MulticastGroup.opEq g <;>
    simp [IsMulticastConnection, CIPAddress.unset, CIPAddress.IsSet]

end CUDPConnection

namespace CMACAddress

/-- C25: for every IPv4 address a.b.c.d, in particular every set multicast one as
the assertions of the source require, SetToMulticastIP gives the valid MAC address
01:00:5E:(b & 0x7F):c:d, where b & 0x7F is b modulo 128, and IsMulticast is true of
it; and IsMulticast of any MAC address is true if and only if the low bit of its
first octet is set. -/
theorem SetToMulticastIP_result (ip : CIPAddress) :
    (SetToMulticastIP ip).m_Address =
      [0x01, 0x00, 0x5E, Fin.ofNat (ip.o1.val &&& 0x7F), ip.o2, ip.o3] ∧
    ip.o1.val &&& 0x7F = ip.o1.val % 128 ∧
    (SetToMulticastIP ip).m_bValid = true ∧
    (SetToMulticastIP ip).IsMulticast = true ∧
    ∀ mac : CMACAddress, (mac.IsMulticast = true ↔ (mac.m_Address.getD 0 0).val % 2 = 1) := by
  refine ⟨rfl, ?_, rfl, ?_, ?_⟩
  · exact Nat.and_pow_two_sub_one_eq_mod ip.o1.val 7
  · simp [SetToMulticastIP, IsMulticast]
  · intro mac
    simp only [IsMulticast, Nat.and_one_is_mod, bne_iff_ne, ne_eq]
    omega

/-- Witness of C25: 239.129.2.3 gives 01:00:5E:01:02:03. -/
theorem SetToMulticastIP_result_witness :
    (SetToMulticastIP (CIPAddress.ofOctets 239 129 2 3)).m_Address =
      [0x01, 0x00, 0x5E, 0x01, 0x02, 0x03] :=
  (SetToMulticastIP_result (CIPAddress.ofOctets 239 129 2 3)).1.trans
    (by decide)

end CMACAddress

end Circle

/-! ## Emission without a local address, link-local groups and the timer -/

namespace Circle

namespace CIGMPHandler

/-- C27 at the link-local group 224.0.0.5: with own address 192.168.1.10,
JoinGroup(224.0.0.5) on the initial state hands to Send a membership report whose
group field is 224.0.0.5, and LeaveGroup(224.0.0.5) after it hands to Send a
leave-group message whose group field is 224.0.0.5; the state in between is one
the handler can be in. -/
theorem link_local_group_is_reported_and_left :
    Sample.g224_0_0_5.IsLinkLocalMulticast = true ∧
    (JoinGroup Sample.own init Sample.g224_0_0_5).2 =
      [TCall.Send Sample.g224_0_0_5 [0x16, 0, 0x09, 0xFA, 224, 0, 0, 5] 8 2] ∧
    Reachable (JoinGroup Sample.own init Sample.g224_0_0_5).1 ∧
    (LeaveGroup Sample.own (JoinGroup Sample.own init Sample.g224_0_0_5).1
        Sample.g224_0_0_5).2 =
      [TCall.Send (CIPAddress.ofOctets 224 0 0 2) [0x17, 0, 0x08, 0xFA, 224, 0, 0, 5] 8 2] :=
  ⟨by decide, by decide,
    Reachable.join Sample.own Sample.g224_0_0_5 init Reachable.init (by decide), by decide⟩

/-- C28 after a timer that could not be started: with 239.5.5.5 joined, a general
query for which StartKernelTimer returns 0 leaves the handler, in a state it can be
in, not armed and with timer handle 0, but with the scheduled group set to
239.5.5.5. -/
theorem scheduled_group_stays_set_when_timer_fails :
    Reachable (ProcessPacket Sample.joined3 (Sample.query 100 (CIPAddress.ofOctets 0 0 0 0)) []
      123456 0).1 ∧
    (ProcessPacket Sample.joined3 (Sample.query 100 (CIPAddress.ofOctets 0 0 0 0)) []
      123456 0).1.m_bReportScheduled = false ∧
    (ProcessPacket Sample.joined3 (Sample.query 100 (CIPAddress.ofOctets 0 0 0 0)) []
      123456 0).1.m_hKernelTimer = 0 ∧
    (ProcessPacket Sample.joined3 (Sample.query 100 (CIPAddress.ofOctets 0 0 0 0)) []
      123456 0).1.m_ScheduledGroupAddress = Sample.g239_5_5_5 ∧
    Sample.g239_5_5_5.IsSet = true :=
  ⟨Reachable.packet _ _ _ _ _
      (Reachable.join Sample.own Sample.g239_5_5_5 init Reachable.init (by decide)),
    by decide, by decide, by decide, by decide⟩

/-- C29: for every handler state and every multicast address g2: when a report is
armed for a group that differs from g2, LeaveGroup(g2) leaves the armed flag, the
scheduled group and the timer handle unchanged and does not cancel a timer; and
when g2 is not found in the joined list, whether a report is armed or not,
LeaveGroup(g2) returns the state unchanged and makes no call. -/
theorem LeaveGroup_other_group (own g2 : CIPAddress) (s : CIGMPHandler)
    (hMc : g2.IsMulticast = true) :
    (s.m_bReportScheduled = true → s.m_ScheduledGroupAddress.opEq g2 = false →
      (LeaveGroup own s g2).1.m_bReportScheduled = true ∧
      (LeaveGroup own s g2).1.m_ScheduledGroupAddress = s.m_ScheduledGroupAddress ∧
      (LeaveGroup own s g2).1.m_hKernelTimer = s.m_hKernelTimer ∧
      (∀ hTimer : Nat, TCall.CancelKernelTimer hTimer ∉ (LeaveGroup own s g2).2)) ∧
    (s.FindGroup g2 = none → LeaveGroup own s g2 = (s, [])) := by
  refine ⟨?_, ?_⟩
  · intro hArmed hOther
    cases hf : s.FindGroup g2 with
    | none => simp [LeaveGroup, hMc, hf, hArmed]
    | some r =>
      obtain ⟨i, p⟩ := r
      obtain ⟨l1, l2, _, _, _, h4⟩ := LeaveGroup_found own g2 s hMc i p hf
      rw [h4]
      have hc : ¬ (s.m_bReportScheduled && s.m_ScheduledGroupAddress.opEq g2) = true := by
        simp [hOther]
      rw [if_neg hc]
      refine ⟨hArmed, rfl, rfl, ?_⟩
      intro hTimer
      simp only [SendLeaveGroup]
      split <;> simp
  · intro hf
    simp [LeaveGroup, hMc, hf]

/-- Witness of C29: leaving 239.9.9.9, which is not joined, changes nothing and
makes no call, both in the state with 239.5.5.5 joined and no report armed and in
the state armed for 239.5.5.5 with timer handle 7; and in the state armed for
239.5.5.5 after 239.1.2.3 has been joined as well, leaving 239.1.2.3 keeps the
report armed for 239.5.5.5 with the timer handle 7. -/
theorem LeaveGroup_other_group_witness :
    Sample.g239_9_9_9.IsMulticast = true ∧
    Sample.joined3.m_bReportScheduled = false ∧
    LeaveGroup Sample.own Sample.joined3 Sample.g239_9_9_9 = (Sample.joined3, []) ∧
    LeaveGroup Sample.own Sample.armed3 Sample.g239_9_9_9 = (Sample.armed3, []) ∧
    (LeaveGroup Sample.own (JoinGroup Sample.own Sample.armed3 Sample.g239_1_2_3).1
      Sample.g239_1_2_3).1.m_bReportScheduled = true ∧
    (LeaveGroup Sample.own (JoinGroup Sample.own Sample.armed3 Sample.g239_1_2_3).1
      Sample.g239_1_2_3).1.m_hKernelTimer = 7 :=
  ⟨by decide, by decide,
    (LeaveGroup_other_group Sample.own Sample.g239_9_9_9 Sample.joined3 (by decide)).2
      (by decide),
    (LeaveGroup_other_group Sample.own Sample.g239_9_9_9 Sample.armed3 (by decide)).2
      (by decide),
    ((LeaveGroup_other_group Sample.own Sample.g239_1_2_3
      (JoinGroup Sample.own Sample.armed3 Sample.g239_1_2_3).1 (by decide)).1
      (by decide) (by decide)).1,
    ((LeaveGroup_other_group Sample.own Sample.g239_1_2_3
      (JoinGroup Sample.own Sample.armed3 Sample.g239_1_2_3).1 (by decide)).1
      (by decide) (by decide)).2.2.1.trans (by decide)⟩

/-- C30: for every raw maxRespTime field r and every random number, the response
window is 100 r milliseconds when r is not 0 and 10000 when r is 0; the delay d
chosen is less than the window (and at least 10); the number of ticks computed from
d is at least 1 whenever d is more than 0, and the ticks taken at 1000 / HZ
milliseconds each do not exceed d nor the window; and every timer that the query
case starts is started with that number of ticks. -/
theorem query_delay_bounds (r : Octet) (nRandom : Nat) :
    maxRespTimeMs r = (if r.val = 0 then 10000 else 100 * r.val) ∧
    randomDelayMs (maxRespTimeMs r) nRandom < maxRespTimeMs r ∧
    10 ≤ randomDelayMs (maxRespTimeMs r) nRandom ∧
    (0 < randomDelayMs (maxRespTimeMs r) nRandom →
      1 ≤ nDelayTicks (randomDelayMs (maxRespTimeMs r) nRandom)) ∧
    nDelayTicks (randomDelayMs (maxRespTimeMs r) nRandom) * (1000 / HZ)
      ≤ randomDelayMs (maxRespTimeMs r) nRandom ∧
    nDelayTicks (randomDelayMs (maxRespTimeMs r) nRandom) * (1000 / HZ) ≤ maxRespTimeMs r ∧
    ∀ (s : CIGMPHandler) (pHeader : TIGMPHeader) (hStart nDelay : Nat),
      pHeader.nMaxRespTime = r →
      TCall.StartKernelTimer nDelay ∈ (s.ProcessQuery pHeader nRandom hStart).2 →
      nDelay = nDelayTicks (randomDelayMs (maxRespTimeMs r) nRandom) := by
  have hlast : ∀ (s : CIGMPHandler) (pHeader : TIGMPHeader) (hStart nDelay : Nat),
      pHeader.nMaxRespTime = r →
      TCall.StartKernelTimer nDelay ∈ (s.ProcessQuery pHeader nRandom hStart).2 →
      nDelay = nDelayTicks (randomDelayMs (maxRespTimeMs r) nRandom) := by
    intro s pHeader hStart nDelay hp hmem
    subst hp
    simp only [ProcessQuery] at hmem
    split at hmem
    · simp at hmem
    · split at hmem
      · simp at hmem
      · split at hmem
        · rcases List.mem_append.mp hmem with h | h
          · split at h <;> simp at h
          · simpa using h
        · simp at hmem
  have hr := r.isLt
  have hmax : maxRespTimeMs r = (if r.val = 0 then 10000 else 100 * r.val) := by
    simp only [maxRespTimeMs, IGMP_MAX_RESPONSE_DELAY_DEFAULT]
    split <;> omega
  have hlo : 100 ≤ maxRespTimeMs r := by rw [hmax]; split <;> omega
  have hhi : maxRespTimeMs r ≤ 25500 := by rw [hmax]; split <;> omega
  generalize maxRespTimeMs r = m at *
  have hmod : nRandom % m < m := Nat.mod_lt _ (by omega)
  have hd : randomDelayMs m nRandom = if nRandom % m < 10 then 10 else nRandom % m := by
    simp only [randomDelayMs]
    have h1 : m > 0 := by omega
    have h2 : m ≥ 10 := by omega
    simp only [h1, h2, if_true, decide_True, Bool.and_true, decide_eq_true_eq]
    by_cases h3 : nRandom % m < 10
    · simp [h3]
    · have h4 : ¬ nRandom % m = 0 := by omega
      simp [h3, h4]
  have hdlo : 10 ≤ randomDelayMs m nRandom := by rw [hd]; split <;> omega
  have hdhi : randomDelayMs m nRandom < m := by rw [hd]; split <;> omega
  generalize randomDelayMs m nRandom = d at *
  have ht : nDelayTicks d = d / 10 := by
    have h5 : d * 100 % 4294967296 / 1000 = d / 10 := by omega
    have h6 : ¬ d / 10 = 0 := by omega
    simp [nDelayTicks, MSEC2HZ, HZ, h5, h6]
  have hz : 1000 / HZ = 10 := by decide
  refine ⟨hmax, hdhi, hdlo, ?_, ?_, ?_, hlast⟩
  · intro _; rw [ht]; omega
  · rw [ht, hz]; omega
  · rw [ht, hz]; omega

end CIGMPHandler

end Circle

/-! ## Received UDP datagrams -/

namespace Circle

namespace CUDPConnection

/-- What `PacketReceived` does with a UDP datagram whose length is more than the
header size and at least the length field, and whose checksum is absent or right:
it is accepted when the destination port is the own port and the datagram is for
this connection, and otherwise passed over with 0. -/
theorem PacketReceived_of_wellformed (cfg : CNetConfig) (c : CUDPConnection)
    (pPacket : List Octet) (rSenderIP rReceiverIP : CIPAddress) (nCalculated : Nat)
    (hLen : sizeofTUDPHeader < pPacket.length)
    (hField : nHeaderLengthField pPacket ≤ pPacket.length)
    (hSum : nChecksumField pPacket = UDP_CHECKSUM_NONE ∨ nCalculated = CHECKSUM_OK) :
    PacketReceived cfg c pPacket rSenderIP rReceiverIP IPPROTO_UDP nCalculated =
      if c.m_nOwnPort = nDestPort pPacket ∧
          isForThisConnection cfg c pPacket rSenderIP rReceiverIP = true then
        (1, { c with m_RxQueue := c.m_RxQueue ++
                [{ pBuffer := pPacket.drop sizeofTUDPHeader
                   nLength := pPacket.length - sizeofTUDPHeader
                   pParam := { SourceAddress := rSenderIP.CopyTo
                               nSourcePort := nSourcePort pPacket } }] },
          [TUDPCall.EventSet])
      else (0, c, []) := by
  have h1 : ¬ pPacket.length ≤ sizeofTUDPHeader := by omega
  have h2 : ¬ pPacket.length < nHeaderLengthField pPacket := by omega
  have h3 : (nChecksumField pPacket != UDP_CHECKSUM_NONE && nCalculated != CHECKSUM_OK)
      = false := by
    rcases hSum with h | h <;> simp [h]
  unfold PacketReceived
  by_cases hp : c.m_nOwnPort = nDestPort pPacket
  · by_cases hf : isForThisConnection cfg c pPacket rSenderIP rReceiverIP = true
    · simp [h1, h2, h3, hp, hf]
    · simp [h1, hp, hf]
  · simp [h1, hp]

/-- When `isForThisConnection` is set. -/
theorem isForThisConnection_iff (cfg : CNetConfig) (c : CUDPConnection)
    (pPacket : List Octet) (rSenderIP rReceiverIP : CIPAddress) :
    isForThisConnection cfg c pPacket rSenderIP rReceiverIP = true ↔
      ((rReceiverIP.IsMulticast = true ∧ c.IsMulticastConnection = true ∧
          c.m_MulticastGroup.opEq rReceiverIP = true) ∨
       (rReceiverIP.IsMulticast = false ∧ c.m_bActiveOpen = true ∧
          c.m_nForeignPort = nSourcePort pPacket ∧ c.m_ForeignIP.opEq rSenderIP = true) ∨
       (rReceiverIP.IsMulticast = false ∧ c.m_bActiveOpen = false ∧
          (rReceiverIP.IsBroadcast = true ∨
            rReceiverIP.opEq cfg.m_BroadcastAddress = true) ∧
          c.m_bBroadcastsAllowed = true) ∨
       (rReceiverIP.IsMulticast = false ∧ c.m_bActiveOpen = false ∧
          rReceiverIP.IsBroadcast = false ∧
          rReceiverIP.opEq cfg.m_BroadcastAddress = false)) := by
  unfold isForThisConnection
  cases hm : rReceiverIP.IsMulticast
  · cases ha : c.m_bActiveOpen
    · cases hb : rReceiverIP.IsBroadcast <;>
        cases hs : rReceiverIP.opEq cfg.m_BroadcastAddress <;>
        cases hal : c.m_bBroadcastsAllowed <;> simp
    · simp
  · simp

/-- C24 does not hold as stated.  The endpoint on port 5000 subscribed to 239.1.2.3
is passed a datagram for receiver 239.1.2.3 and destination port 6000: the receiver
is multicast, the endpoint is a multicast connection and the receiver is the
subscribed group, yet PacketReceived returns 0 and enqueues nothing.  The
active-open endpoint on port 5000 connected to 192.168.1.20 port 7000 is passed a
datagram from that sender to port 5000 for receiver 239.1.2.3: sender and ports
match, yet PacketReceived returns 0. -/
theorem PacketReceived_counterexample :
    (Sample.g239_1_2_3.IsMulticast = true ∧ Sample.udpSubscribed.IsMulticastConnection = true ∧
      Sample.udpSubscribed.m_MulticastGroup.opEq Sample.g239_1_2_3 = true ∧
      PacketReceived Sample.config Sample.udpSubscribed Sample.datagramTo6000
        (CIPAddress.ofOctets 192 168 1 20) Sample.g239_1_2_3 IPPROTO_UDP 0 =
        (0, Sample.udpSubscribed, [])) ∧
    (Sample.udpActive.m_bActiveOpen = true ∧
      Sample.udpActive.m_ForeignIP.opEq (CIPAddress.ofOctets 192 168 1 20) = true ∧
      Sample.udpActive.m_nForeignPort = nSourcePort Sample.datagramTo5000 ∧
      Sample.udpActive.m_nOwnPort = nDestPort Sample.datagramTo5000 ∧
      PacketReceived Sample.config Sample.udpActive Sample.datagramTo5000
        (CIPAddress.ofOctets 192 168 1 20) Sample.g239_1_2_3 IPPROTO_UDP 0 =
        (0, Sample.udpActive, [])) := by
  decide

/-- C24 as amended: for every UDP endpoint and every UDP datagram whose length is
more than the header size and at least its length field and whose checksum is
absent or right, with sender S, receiver R, PacketReceived returns 1 if and only if
the own port is the destination port and: R is multicast, the endpoint is a
multicast connection and R is the subscribed group; or R is not multicast, the
endpoint is active-open and the sender address and port are the foreign ones; or R
is not multicast, the endpoint is passive, R is the link or subnet broadcast and
broadcasts are allowed; or R is not multicast, the endpoint is passive and R is
neither the link nor the subnet broadcast.  When it returns 1 the data after the
header is added at the end of the receive queue with the sender address and port
and the event is set; otherwise it returns 0 and changes nothing.  In the last case
of the four, a receiver that passed the destination check of the IP layer is the
own address. -/
theorem PacketReceived_accepts_iff (cfg : CNetConfig) (c : CUDPConnection)
    (pPacket : List Octet) (rSenderIP rReceiverIP : CIPAddress) (nCalculated : Nat)
    (hLen : sizeofTUDPHeader < pPacket.length)
    (hField : nHeaderLengthField pPacket ≤ pPacket.length)
    (hSum : nChecksumField pPacket = UDP_CHECKSUM_NONE ∨ nCalculated = CHECKSUM_OK) :
    ((PacketReceived cfg c pPacket rSenderIP rReceiverIP IPPROTO_UDP nCalculated).1 = 1 ↔
      c.m_nOwnPort = nDestPort pPacket ∧
      ((rReceiverIP.IsMulticast = true ∧ c.IsMulticastConnection = true ∧
          c.m_MulticastGroup.opEq rReceiverIP = true) ∨
       (rReceiverIP.IsMulticast = false ∧ c.m_bActiveOpen = true ∧
          c.m_nForeignPort = nSourcePort pPacket ∧ c.m_ForeignIP.opEq rSenderIP = true) ∨
       (rReceiverIP.IsMulticast = false ∧ c.m_bActiveOpen = false ∧
          (rReceiverIP.IsBroadcast = true ∨
            rReceiverIP.opEq cfg.m_BroadcastAddress = true) ∧
          c.m_bBroadcastsAllowed = true) ∨
       (rReceiverIP.IsMulticast = false ∧ c.m_bActiveOpen = false ∧
          rReceiverIP.IsBroadcast = false ∧
          rReceiverIP.opEq cfg.m_BroadcastAddress = false))) ∧
    ((PacketReceived cfg c pPacket rSenderIP rReceiverIP IPPROTO_UDP nCalculated).1 = 1 →
      (PacketReceived cfg c pPacket rSenderIP rReceiverIP IPPROTO_UDP nCalculated).2 =
        ({ c with m_RxQueue := c.m_RxQueue ++
              [{ pBuffer := pPacket.drop 8
                 nLength := pPacket.length - 8
                 pParam := { SourceAddress := rSenderIP.CopyTo
                             nSourcePort := nSourcePort pPacket } }] },
          [TUDPCall.EventSet])) ∧
    ((PacketReceived cfg c pPacket rSenderIP rReceiverIP IPPROTO_UDP nCalculated).1 ≠ 1 →
      PacketReceived cfg c pPacket rSenderIP rReceiverIP IPPROTO_UDP nCalculated =
        (0, c, [])) ∧
    ((cfg.m_IPAddress.opEq rReceiverIP = true ∨ rReceiverIP.IsBroadcast = true ∨
        rReceiverIP.IsMulticast = true ∨ cfg.m_BroadcastAddress.opEq rReceiverIP = true) →
      rReceiverIP.IsMulticast = false → rReceiverIP.IsBroadcast = false →
      rReceiverIP.opEq cfg.m_BroadcastAddress = false →
      cfg.m_IPAddress.opEq rReceiverIP = true) := by
  rw [PacketReceived_of_wellformed cfg c pPacket rSenderIP rReceiverIP nCalculated hLen hField
    hSum, ← isForThisConnection_iff cfg c pPacket rSenderIP rReceiverIP]
  refine ⟨?_, ?_, ?_, ?_⟩
  · by_cases h : c.m_nOwnPort = nDestPort pPacket ∧
        isForThisConnection cfg c pPacket rSenderIP rReceiverIP = true
    · simp [h]
    · rw [if_neg h]
      simp only [h, iff_false]
      decide
  · intro h1
    by_cases h : c.m_nOwnPort = nDestPort pPacket ∧
        isForThisConnection cfg c pPacket rSenderIP rReceiverIP = true
    · rw [if_pos h]; rfl
    · rw [if_neg h] at h1; cases h1
  · intro h1
    by_cases h : c.m_nOwnPort = nDestPort pPacket ∧
        isForThisConnection cfg c pPacket rSenderIP rReceiverIP = true
    · rw [if_pos h] at h1; exact absurd rfl h1
    · rw [if_neg h]
  · intro hnet hm hb hs
    rcases hnet with h | h | h | h
    · exact h
    · rw [hb] at h; cases h
    · rw [hm] at h; cases h
    · rw [CIPAddress.opEq_iff] at h
      rw [CIPAddress.opEq_false_iff] at hs
      exact absurd ⟨h.1.symm, h.2.1.symm, h.2.2.1.symm, h.2.2.2.symm⟩ hs

/-- Witness of the amended C24: the endpoint on port 5000 subscribed to 239.1.2.3
accepts the datagram for 239.1.2.3 and port 5000 and enqueues its one octet of
data. -/
theorem PacketReceived_accepts_iff_witness :
    (PacketReceived Sample.config Sample.udpSubscribed Sample.datagramTo5000
      (CIPAddress.ofOctets 192 168 1 20) Sample.g239_1_2_3 IPPROTO_UDP 0).1 = 1 :=
  (PacketReceived_accepts_iff Sample.config Sample.udpSubscribed Sample.datagramTo5000
    (CIPAddress.ofOctets 192 168 1 20) Sample.g239_1_2_3 0 (by decide) (by decide)
    (Or.inl (by decide))).1.mpr ⟨by decide, Or.inl ⟨by decide, by decide, by decide⟩⟩

end CUDPConnection

end Circle

/-! ## The checksum of a range that holds its own checksum -/

namespace Circle

/-- The value of the octet made from a number. -/
theorem octet_ofNat_val (n : Nat) : ((Fin.ofNat n : Octet) : Nat) = n % 256 := rfl

/-- One step of the one's-complement sum: the result is a 16-bit value, it is
congruent to the sum modulo 0xFFFF, and it is 0 only when both terms are 0. -/
theorem checksumFold_step (nSum w : Nat) (h1 : nSum ≤ 65535) (h2 : w ≤ 65535) :
    checksumFold (nSum + w) ≤ 65535 ∧
    checksumFold (nSum + w) % 65535 = (nSum + w) % 65535 ∧
    (checksumFold (nSum + w) = 0 → nSum = 0 ∧ w = 0) := by
  unfold checksumFold
  omega

/-- The one's-complement sum of a list of 16-bit words: a 16-bit value, congruent
to the sum of the words modulo 0xFFFF, and 0 only when every term is 0. -/
theorem checksum_foldl_facts (ws : List Nat) (nSum : Nat) (h1 : nSum ≤ 65535)
    (h2 : ∀ w ∈ ws, w ≤ 65535) :
    ws.foldl (fun nSum w => checksumFold (nSum + w)) nSum ≤ 65535 ∧
    ws.foldl (fun nSum w => checksumFold (nSum + w)) nSum % 65535
      = (nSum + ws.sum) % 65535 ∧
    (ws.foldl (fun nSum w => checksumFold (nSum + w)) nSum = 0 →
      nSum = 0 ∧ ∀ w ∈ ws, w = 0) := by
  induction ws generalizing nSum with
  | nil => simp [h1]
  | cons w rest ih =>
    have hw : w ≤ 65535 := h2 w (List.mem_cons_self _ _)
    obtain ⟨s1, s2, s3⟩ := checksumFold_step nSum w h1 hw
    obtain ⟨i1, i2, i3⟩ := ih (checksumFold (nSum + w)) s1
      (fun x hx => h2 x (List.mem_cons_of_mem _ hx))
    simp only [List.foldl_cons, List.sum_cons]
    refine ⟨i1, ?_, ?_⟩
    · rw [i2]; omega
    · intro h0
      obtain ⟨j1, j2⟩ := i3 h0
      obtain ⟨k1, k2⟩ := s3 j1
      refine ⟨k1, ?_⟩
      intro x hx
      rcases List.mem_cons.mp hx with hx | hx
      · rw [hx]; exact k2
      · exact j2 x hx

/-- When the word at one place of a list of 16-bit words, not all of them 0, is the
complement of the one's-complement sum of the list with 0 at that place, the
one's-complement sum of the list is 0xFFFF. -/
theorem checksum_foldl_complement (pre post : List Nat) (c : Nat)
    (hpre : ∀ w ∈ pre, w ≤ 65535) (hpost : ∀ w ∈ post, w ≤ 65535)
    (hnz : ∃ w ∈ pre ++ post, w ≠ 0)
    (hc : c = 65535 - (pre ++ 0 :: post).foldl (fun nSum w => checksumFold (nSum + w)) 0) :
    (pre ++ c :: post).foldl (fun nSum w => checksumFold (nSum + w)) 0 = 65535 := by
  have h0 : ∀ w ∈ pre ++ 0 :: post, w ≤ 65535 := by
    intro w hw
    rcases List.mem_append.mp hw with h | h
    · exact hpre w h
    · rcases List.mem_cons.mp h with h | h
      · omega
      · exact hpost w h
  have hcle : c ≤ 65535 := by omega
  have h1 : ∀ w ∈ pre ++ c :: post, w ≤ 65535 := by
    intro w hw
    rcases List.mem_append.mp hw with h | h
    · exact hpre w h
    · rcases List.mem_cons.mp h with h | h
      · omega
      · exact hpost w h
  obtain ⟨a1, a2, _⟩ := checksum_foldl_facts (pre ++ 0 :: post) 0 (by omega) h0
  obtain ⟨b1, b2, b3⟩ := checksum_foldl_facts (pre ++ c :: post) 0 (by omega) h1
  have hne : (pre ++ c :: post).foldl (fun nSum w => checksumFold (nSum + w)) 0 ≠ 0 := by
    intro hz
    obtain ⟨_, hall⟩ := b3 hz
    obtain ⟨w, hw, hwne⟩ := hnz
    apply hwne
    apply hall
    rcases List.mem_append.mp hw with h | h
    · exact List.mem_append_left _ h
    · exact List.mem_append_right _ (List.mem_cons_of_mem _ h)
  simp only [List.sum_append, List.sum_cons] at a2 b2
  generalize (pre ++ 0 :: post).foldl (fun nSum w => checksumFold (nSum + w)) 0 = r0 at *
  generalize (pre ++ c :: post).foldl (fun nSum w => checksumFold (nSum + w)) 0 = r1 at *
  generalize pre.sum = sp at *
  generalize post.sum = sq at *
  omega

/-- The words of a range that follows an even number of octets are the words of the
two ranges one after the other. -/
theorem checksumWords_append_even : ∀ (pre rest : List Octet), pre.length % 2 = 0 →
    checksumWords (pre ++ rest) = checksumWords pre ++ checksumWords rest
  | [], rest, _ => by simp [checksumWords]
  | [_], _, h => by simp at h
  | b0 :: b1 :: t, rest, h => by
    have ht : t.length % 2 = 0 := by
      simp only [List.length_cons] at h
      omega
    have e : (b0 :: b1 :: t) ++ rest = b0 :: b1 :: (t ++ rest) := rfl
    rw [e]
    simp only [checksumWords]
    rw [checksumWords_append_even t rest ht]
    rfl

/-- Every word of a range is a 16-bit value. -/
theorem checksumWords_le : ∀ (buf : List Octet), ∀ w ∈ checksumWords buf, w ≤ 65535
  | [], w, hw => by simp [checksumWords] at hw
  | [b], w, hw => by
    simp only [checksumWords, List.mem_singleton] at hw
    have := b.isLt
    omega
  | b0 :: b1 :: t, w, hw => by
    simp only [checksumWords, List.mem_cons] at hw
    rcases hw with hw | hw
    · have := b0.isLt
      have := b1.isLt
      omega
    · exact checksumWords_le t w hw

/-- A range whose checksum field, at an even offset, holds the checksum computed
with the field zero, and whose other words are not all 0, has the checksum
`CHECKSUM_OK`. -/
theorem SimpleCalculate_with_checksum (pre post : List Octet) (hEven : pre.length % 2 = 0)
    (hnz : ∃ w ∈ checksumWords pre ++ checksumWords post, w ≠ 0) :
    SimpleCalculate (pre ++ Fin.ofNat (SimpleCalculate (pre ++ 0 :: 0 :: post) / 256 % 256)
      :: Fin.ofNat (SimpleCalculate (pre ++ 0 :: 0 :: post) % 256) :: post) = CHECKSUM_OK := by
  have hlt : SimpleCalculate (pre ++ 0 :: 0 :: post) < 65536 := by
    unfold SimpleCalculate; omega
  generalize hc : SimpleCalculate (pre ++ 0 :: 0 :: post) = c at hlt
  unfold SimpleCalculate checksumSum at hc
  unfold SimpleCalculate checksumSum
  rw [checksumWords_append_even _ _ hEven] at hc
  rw [checksumWords_append_even _ _ hEven]
  simp only [checksumWords, octet_ofNat_val] at hc
  simp only [checksumWords, octet_ofNat_val]
  have hz : 256 * ((0 : Octet) : Nat) + ((0 : Octet) : Nat) = 0 := rfl
  have hcw : 256 * (c / 256 % 256 % 256) + c % 256 % 256 = c := by omega
  rw [hz] at hc
  rw [hcw, checksum_foldl_complement (checksumWords pre) (checksumWords post) c
    (checksumWords_le pre) (checksumWords_le post) hnz hc.symm]
  rfl

namespace CNetworkLayer

/-- The header that `Send` builds, with the checksum it computes in the checksum
field, has the checksum `CHECKSUM_OK`. -/
theorem BuildHeader_checksum_ok (k : TIPConstants) (own rReceiver : CIPAddress)
    (nPacketLength nProtocol : Nat) :
    SimpleCalculate (BuildHeader k own rReceiver nPacketLength nProtocol
      (SimpleCalculate (BuildHeader k own rReceiver nPacketLength nProtocol 0))) = CHECKSUM_OK := by
  rw [BuildHeader_octets k own rReceiver nPacketLength nProtocol 0]
  rw [BuildHeader_octets]
  exact SimpleCalculate_with_checksum
    [0x45, 0,
      Fin.ofNat (nPacketLength % 65536 / 256 % 256), Fin.ofNat (nPacketLength % 65536 % 256),
      Fin.ofNat (k.IP_IDENTIFICATION_DEFAULT / 256 % 256),
      Fin.ofNat (k.IP_IDENTIFICATION_DEFAULT % 256),
      0x40, 0,
      if rReceiver.IsMulticast = true then 1 else 64,
      Fin.ofNat (nProtocol % 256)]
    [own.o0, own.o1, own.o2, own.o3,
      rReceiver.o0, rReceiver.o1, rReceiver.o2, rReceiver.o3] (by simp)
    ⟨256 * ((0x45 : Octet) : Nat) + ((0 : Octet) : Nat), by simp [checksumWords], by decide⟩

end CNetworkLayer

/-! ## A sent packet read back -/

namespace CIGMPHandler

/-- The eight octets of the message that `BuildMessage` composes. -/
theorem BuildMessage_bytes (nType : Octet) (g : CIPAddress) :
    (BuildMessage nType g).bytes =
      [nType, 0,
        Fin.ofNat (SimpleCalculate [nType, 0, 0, 0, g.o0, g.o1, g.o2, g.o3] / 256 % 256),
        Fin.ofNat (SimpleCalculate [nType, 0, 0, 0, g.o0, g.o1, g.o2, g.o3] % 256),
        g.o0, g.o1, g.o2, g.o3] := by
  simp [BuildMessage, TIGMPHeader.bytes, CIPAddress.CopyTo, octet_ofNat_zero]

/-- The message that `BuildMessage` composes passes the checksum test of
`ProcessPacket`, whatever follows the copy of the header in memory. -/
theorem ChecksumMatches_BuildMessage (nType : Octet) (g : CIPAddress) (mem : List Octet) :
    ChecksumMatches (BuildMessage nType g).bytes mem = true := by
  have hcw : ∀ c < 65536, 256 * (c / 256 % 256 % 256) + c % 256 % 256 = c := by
    intro c h
    omega
  have hlt := SimpleCalculate_lt [nType, 0, 0, 0, g.o0, g.o1, g.o2, g.o3]
  rw [BuildMessage_bytes]
  simp only [ChecksumMatches, TIGMPHeader.ofPacket, TIGMPHeader.bytes, List.getD_cons_zero,
    List.getD_cons_succ, octet_ofNat_val, List.length_cons, List.length_nil, List.cons_append,
    List.nil_append, List.take_succ_cons, List.take_zero, octet_ofNat_zero, Nat.zero_div,
    Nat.zero_mod, beq_iff_eq]
  exact hcw _ hlt

end CIGMPHandler

namespace CNetworkLayer

/-- The first twenty octets of the packet that `Send` builds are its header. -/
theorem PacketBuffer_take (k : TIPConstants) (own rReceiver : CIPAddress)
    (pPacket : List Octet) (nPacketLength nProtocol : Nat) :
    (PacketBuffer k own rReceiver pPacket nPacketLength nProtocol).take 20 =
      BuildHeader k own rReceiver nPacketLength nProtocol
        (SimpleCalculate (BuildHeader k own rReceiver nPacketLength nProtocol 0)) := by
  unfold PacketBuffer
  apply List.take_left'
  rw [BuildHeader_octets]
  rfl

/-- The octets after the first twenty of the packet that `Send` builds are the
payload. -/
theorem PacketBuffer_drop (k : TIPConstants) (own rReceiver : CIPAddress)
    (pPacket : List Octet) (nPacketLength nProtocol : Nat) :
    (PacketBuffer k own rReceiver pPacket nPacketLength nProtocol).drop 20 = pPacket := by
  unfold PacketBuffer
  apply List.drop_left'
  rw [BuildHeader_octets]
  rfl

/-- The length of the packet that `Send` builds. -/
theorem PacketBuffer_length (k : TIPConstants) (own rReceiver : CIPAddress)
    (pPacket : List Octet) (nPacketLength nProtocol : Nat) :
    (PacketBuffer k own rReceiver pPacket nPacketLength nProtocol).length
      = 20 + pPacket.length := by
  unfold PacketBuffer
  rw [List.length_append, BuildHeader_octets]
  rfl

/-- The header fields that `Process` reads from the packet that `Send` builds. -/
theorem PacketBuffer_fields (k : TIPConstants) (own rReceiver : CIPAddress)
    (pPacket : List Octet) (nPacketLength nProtocol : Nat) :
    nVersionIHL (PacketBuffer k own rReceiver pPacket nPacketLength nProtocol) = 69 ∧
    nHeaderLength (PacketBuffer k own rReceiver pPacket nPacketLength nProtocol) = 20 ∧
    nFlagsFragmentOffset (PacketBuffer k own rReceiver pPacket nPacketLength nProtocol) = 64 ∧
    nTotalLength (PacketBuffer k own rReceiver pPacket nPacketLength nProtocol)
      = nPacketLength % 65536 ∧
    CNetworkLayer.nProtocol (PacketBuffer k own rReceiver pPacket nPacketLength nProtocol)
      = Fin.ofNat (nProtocol % 256) ∧
    SourceAddress (PacketBuffer k own rReceiver pPacket nPacketLength nProtocol)
      = own.CopyTo ∧
    DestinationAddress (PacketBuffer k own rReceiver pPacket nPacketLength nProtocol)
      = rReceiver.CopyTo ∧
    IPAddressDestination (PacketBuffer k own rReceiver pPacket nPacketLength nProtocol)
      = CIPAddress.ofOctets rReceiver.o0 rReceiver.o1 rReceiver.o2 rReceiver.o3 := by
  have hv : ((0x45 : Octet) : Nat) = 69 := rfl
  have hd : hostU16 (0x40 : Octet) (0 : Octet) = 64 := rfl
  have ht : ∀ n : Nat, n < 65536 →
      256 * ((n / 256 % 256 % 256 + 256 * (n % 256 % 256)) % 256)
        + (n / 256 % 256 % 256 + 256 * (n % 256 % 256)) / 256 % 256 = n := by
    intro n h
    have e1 : n / 256 % 256 % 256 = n / 256 := by omega
    have e2 : n % 256 % 256 = n % 256 := by omega
    have e3 : (n / 256 + 256 * (n % 256)) % 256 = n / 256 := by omega
    have e4 : (n / 256 + 256 * (n % 256)) / 256 % 256 = n % 256 := by omega
    rw [e1, e2, e3, e4]
    omega
  have hn : nPacketLength % 65536 < 65536 := Nat.mod_lt _ (by decide)
  rw [PacketBuffer_octets]
  refine ⟨?_, ?_, ?_, ?_, ?_, ?_, ?_, ?_⟩
  · simp only [nVersionIHL, List.cons_append, List.getD_cons_zero, hv]
  · simp only [nHeaderLength, nVersionIHL, List.cons_append, List.getD_cons_zero, hv]
  · simp only [nFlagsFragmentOffset, List.cons_append, List.getD_cons_zero,
      List.getD_cons_succ, hd]
  · simp only [nTotalLength, List.cons_append, List.getD_cons_zero, List.getD_cons_succ,
      hostU16, le2be16, octet_ofNat_val]
    exact ht _ hn
  · simp only [CNetworkLayer.nProtocol, List.cons_append, List.getD_cons_zero,
      List.getD_cons_succ]
  · simp only [SourceAddress, List.cons_append, List.getD_cons_zero, List.getD_cons_succ,
      CIPAddress.CopyTo]
  · simp only [DestinationAddress, List.cons_append, List.getD_cons_zero,
      List.getD_cons_succ, CIPAddress.CopyTo]
  · simp only [IPAddressDestination, List.cons_append, List.getD_cons_zero,
      List.getD_cons_succ]

/-- The packet that `Send` builds around a payload that is not empty passes the
header checks of `Process` and is not a fragment. -/
theorem PacketBuffer_passes (k : TIPConstants) (own rReceiver : CIPAddress)
    (pPacket : List Octet) (nPacketLength nProtocol : Nat) (hLen : 0 < pPacket.length) :
    PassesHeaderChecks (PacketBuffer k own rReceiver pPacket nPacketLength nProtocol) = true ∧
    IsFragment (PacketBuffer k own rReceiver pPacket nPacketLength nProtocol) = false := by
  obtain ⟨hv, hh, hf, _, _, _, _, _⟩ :=
    PacketBuffer_fields k own rReceiver pPacket nPacketLength nProtocol
  have h1 : ¬ (20 + pPacket.length ≤ 20) := by omega
  refine ⟨?_, ?_⟩
  · simp only [PassesHeaderChecks, hh, hv, PacketBuffer_length, PacketBuffer_take,
      BuildHeader_checksum_ok, sizeofTIPHeader, h1, if_false]
    decide
  · simp only [IsFragment, hf]
    decide

/-- C21: for every multicast group g, every configuration whose own address is set
and not null, and frame buffers of at least 28 octets: SendMembershipReport hands
the eight octets of the report to Send with destination g and protocol 2, and Send
hands the frame of 28 octets to the link layer for g.  That frame, given to Process
under any configuration of the receiver, passes the header checks (length, header
length, header checksum, version), the destination check, the fragment check and
the total-length check; its payload is the eight octets of the report, which pass
the checksum test of ProcessPacket whatever follows them in memory; with the IGMP
handler created the frame is handed to ProcessPacket with length 8 and the own
address as sender, and nothing else changes.  The fields read back are: source the
own address, destination g, protocol 2, type 0x16, maxRespTime 0, group g. -/
theorem report_round_trip (k : TIPConstants) (cfg cfgRx : CNetConfig) (g : CIPAddress)
    (pGateway : Option (Octet × Octet × Octet × Octet)) (bLinkSent : Bool)
    (hSet : cfg.m_IPAddress.IsSet = true) (hNonNull : cfg.m_IPAddress.IsNull = false)
    (hMc : g.IsMulticast = true) (hSize : 28 ≤ k.FRAME_BUFFER_SIZE) :
    CIGMPHandler.SendMembershipReport cfg.m_IPAddress g = [TCall.Send g (CIGMPHandler.BuildMessage
        IGMP_V2_MEMBERSHIP_REPORT g).bytes 8 2] ∧
    Send k cfg pGateway bLinkSent g (CIGMPHandler.BuildMessage IGMP_V2_MEMBERSHIP_REPORT g).bytes 2
        = (bLinkSent, [TNetCall.LinkSend g (ReportFrame k cfg.m_IPAddress g) 28]) ∧
    PassesHeaderChecks (ReportFrame k cfg.m_IPAddress g) = true ∧
    PassesDestinationCheck cfgRx (ReportFrame k cfg.m_IPAddress g) = true ∧
    IsFragment (ReportFrame k cfg.m_IPAddress g) = false ∧
    ¬ (ReportFrame k cfg.m_IPAddress g).length < nTotalLength (ReportFrame k cfg.m_IPAddress g) ∧
    nPayloadLength (ReportFrame k cfg.m_IPAddress g) = 8 ∧
    (∀ beyond : Nat → Octet, Payload (ReportFrame k cfg.m_IPAddress g) beyond =
        (CIGMPHandler.BuildMessage IGMP_V2_MEMBERSHIP_REPORT g).bytes) ∧
    (CIGMPHandler.BuildMessage IGMP_V2_MEMBERSHIP_REPORT g).bytes.length = 8 ∧
    (∀ mem : List Octet, CIGMPHandler.ChecksumMatches (CIGMPHandler.BuildMessage
        IGMP_V2_MEMBERSHIP_REPORT g).bytes mem = true) ∧
    (∀ (s : CNetworkLayer) (pIGMPHandler : CIGMPHandler) (beyond : Nat → Octet)
        (mem : List Octet) (nRandom hStart : Nat), s.m_pIGMPHandler = some pIGMPHandler →
      ProcessFrame cfgRx s (ReportFrame k cfg.m_IPAddress g) beyond mem nRandom hStart =
        (s, [TNetCall.ProcessPacket (CIGMPHandler.BuildMessage IGMP_V2_MEMBERSHIP_REPORT g).bytes 8
            cfg.m_IPAddress])) ∧
    SourceAddress (ReportFrame k cfg.m_IPAddress g) = cfg.m_IPAddress.CopyTo ∧
    DestinationAddress (ReportFrame k cfg.m_IPAddress g) = g.CopyTo ∧
    (IPAddressDestination (ReportFrame k cfg.m_IPAddress g)).opEq g = true ∧
    (nProtocol (ReportFrame k cfg.m_IPAddress g)).val = 2 ∧
    (TIGMPHeader.ofPacket (CIGMPHandler.BuildMessage IGMP_V2_MEMBERSHIP_REPORT g).bytes).nType =
        0x16 ∧
    (TIGMPHeader.ofPacket (CIGMPHandler.BuildMessage IGMP_V2_MEMBERSHIP_REPORT
        g).bytes).nMaxRespTime = 0 ∧
    (TIGMPHeader.ofPacket (CIGMPHandler.BuildMessage IGMP_V2_MEMBERSHIP_REPORT
        g).bytes).GroupAddress = g.CopyTo := by
  have hblen : (CIGMPHandler.BuildMessage IGMP_V2_MEMBERSHIP_REPORT g).bytes.length = 8 := by
    rw [CIGMPHandler.BuildMessage_bytes]
    rfl
  obtain ⟨_, hh, _, htl, hp, hsrc, hdst, hipd⟩ :=
    PacketBuffer_fields k cfg.m_IPAddress g (CIGMPHandler.BuildMessage IGMP_V2_MEMBERSHIP_REPORT
        g).bytes 28 IPPROTO_IGMP
  obtain ⟨hpass, hfrag⟩ :=
    PacketBuffer_passes k cfg.m_IPAddress g (CIGMPHandler.BuildMessage IGMP_V2_MEMBERSHIP_REPORT
        g).bytes 28 IPPROTO_IGMP (by omega)
  have hlen := PacketBuffer_length k cfg.m_IPAddress g (CIGMPHandler.BuildMessage
      IGMP_V2_MEMBERSHIP_REPORT g).bytes 28 IPPROTO_IGMP
  have hdrop := PacketBuffer_drop k cfg.m_IPAddress g (CIGMPHandler.BuildMessage
      IGMP_V2_MEMBERSHIP_REPORT g).bytes 28 IPPROTO_IGMP
  have hFrame : (ReportFrame k cfg.m_IPAddress g) = PacketBuffer k cfg.m_IPAddress g
      (CIGMPHandler.BuildMessage IGMP_V2_MEMBERSHIP_REPORT g).bytes 28 IPPROTO_IGMP := rfl
  rw [← hFrame] at hh htl hp hsrc hdst hipd hpass hfrag hlen hdrop
  have htl2 : nTotalLength (ReportFrame k cfg.m_IPAddress g) = 28 := htl
  have hm : (CIPAddress.ofOctets g.o0 g.o1 g.o2 g.o3).IsMulticast = true := hMc
  have hdest : PassesDestinationCheck cfgRx (ReportFrame k cfg.m_IPAddress g) = true := by
    cases hn : cfgRx.m_IPAddress.IsNull <;> simp [PassesDestinationCheck, hipd, hm, hn]
  have hnotlt : ¬ (ReportFrame k cfg.m_IPAddress g).length < nTotalLength (ReportFrame k
      cfg.m_IPAddress g) := by
    rw [hlen, htl2]
    omega
  have hpl : nPayloadLength (ReportFrame k cfg.m_IPAddress g) = 8 := by
    simp only [nPayloadLength, htl2, hh]
  have hpay : ∀ beyond : Nat → Octet, Payload (ReportFrame k cfg.m_IPAddress g) beyond =
      (CIGMPHandler.BuildMessage IGMP_V2_MEMBERSHIP_REPORT g).bytes := by
    intro beyond
    have ht : (CIGMPHandler.BuildMessage IGMP_V2_MEMBERSHIP_REPORT g).bytes.take 8 =
        (CIGMPHandler.BuildMessage IGMP_V2_MEMBERSHIP_REPORT g).bytes := List.take_of_length_le (by
        omega)
    simp only [Payload, hh, hpl, hdrop, readOctets, hblen, ht, Nat.sub_self, List.range_zero,
      List.map_nil, List.append_nil]
  have htype : (TIGMPHeader.ofPacket (CIGMPHandler.BuildMessage IGMP_V2_MEMBERSHIP_REPORT
      g).bytes).nType = 0x16 := by
    rw [CIGMPHandler.BuildMessage_bytes]
    rfl
  have hsender : CIPAddress.ofOctets ((ReportFrame k cfg.m_IPAddress g).getD 12 0) ((ReportFrame k
      cfg.m_IPAddress g).getD 13 0) ((ReportFrame k cfg.m_IPAddress g).getD 14 0)
      ((ReportFrame k cfg.m_IPAddress g).getD 15 0) = cfg.m_IPAddress := by
    have h4 := hsrc
    simp only [SourceAddress, CIPAddress.CopyTo, List.cons.injEq, and_true] at h4
    obtain ⟨a0, a1, a2, a3⟩ := h4
    rw [a0, a1, a2, a3]
    cases hown : cfg.m_IPAddress with
    | mk v o0 o1 o2 o3 =>
      rw [hown] at hSet
      simp only [CIPAddress.IsSet] at hSet
      subst hSet
      rfl
  have hAcc : Accepted cfgRx (ReportFrame k cfg.m_IPAddress g) = true := by
    simp [Accepted, hpass, hdest, hfrag, hnotlt]
  have hLenGuard : PassesLengthGuard k (CIGMPHandler.BuildMessage IGMP_V2_MEMBERSHIP_REPORT
      g).bytes = true := by
    simp only [PassesLengthGuard, hblen, sizeofTIPHeader, Bool.and_eq_true, decide_eq_true_eq]
    omega
  refine ⟨?_, ?_, hpass, hdest, hfrag, hnotlt, hpl, hpay, hblen,
    fun mem => CIGMPHandler.ChecksumMatches_BuildMessage _ _ mem, ?_, hsrc, hdst, ?_, ?_, htype,
    ?_, ?_⟩
  · simp [CIGMPHandler.SendMembershipReport, hSet, sizeofTIGMPHeader, IPPROTO_IGMP]
  · rw [Send_of_length_ok k cfg pGateway bLinkSent g (CIGMPHandler.BuildMessage
      IGMP_V2_MEMBERSHIP_REPORT g).bytes 2 hLenGuard]
    simp only [hNonNull, hMc, hblen, sizeofTIPHeader, Bool.false_and, Bool.not_true,
      Bool.false_eq_true, if_false]
    rfl
  · intro s pIGMPHandler beyond mem nRandom hStart hInit
    have hPP : pIGMPHandler.ProcessPacket (CIGMPHandler.BuildMessage IGMP_V2_MEMBERSHIP_REPORT
        g).bytes mem nRandom hStart = (pIGMPHandler, []) := by
      have hq : (TIGMPHeader.ofPacket (CIGMPHandler.BuildMessage IGMP_V2_MEMBERSHIP_REPORT
          g).bytes).nType ≠ IGMP_MEMBERSHIP_QUERY := by
        rw [htype]
        decide
      simp [CIGMPHandler.ProcessPacket, hblen, sizeofTIGMPHeader,
        CIGMPHandler.ChecksumMatches_BuildMessage, hq]
    have hpv : ((nProtocol (ReportFrame k cfg.m_IPAddress g) : Octet) : Nat) = 2 := by
      rw [hp]
      rfl
    rw [ProcessFrame_eq, if_pos hAcc]
    simp only [Dispatch, hpv, IPPROTO_ICMP, IPPROTO_IGMP, hInit, hpay, hPP, hpl, hsender]
    cases s
    simp_all
  · rw [hipd]
    simp [CIPAddress.opEq, CIPAddress.ofOctets]
  · rw [hp]
    rfl
  · rw [CIGMPHandler.BuildMessage_bytes]
    rfl
  · rw [CIGMPHandler.BuildMessage_bytes]
    rfl

/-- Witness of C21: the report for 239.1.2.3 sent from 192.168.1.10, with frame
buffers of 1600 octets, read back under the same configuration. -/
theorem report_round_trip_witness :
    Sample.config.m_IPAddress.IsSet = true ∧ Sample.config.m_IPAddress.IsNull = false ∧
    Sample.g239_1_2_3.IsMulticast = true ∧ 28 ≤ Sample.constants.FRAME_BUFFER_SIZE ∧
    ReportFrame Sample.constants Sample.own Sample.g239_1_2_3 =
      [0x45, 0, 0, 28, 0, 0, 0x40, 0, 1, 2, 0xC7, 0x29, 192, 168, 1, 10, 239, 1, 2, 3,
        0x16, 0, 0xF8, 0xFA, 239, 1, 2, 3] ∧
    ProcessFrame Sample.config Sample.layer
        (ReportFrame Sample.constants Sample.config.m_IPAddress Sample.g239_1_2_3)
        Sample.beyond [] 123456 7 =
      (Sample.layer,
        [TNetCall.ProcessPacket
          (CIGMPHandler.BuildMessage IGMP_V2_MEMBERSHIP_REPORT Sample.g239_1_2_3).bytes 8
          Sample.config.m_IPAddress]) :=
  ⟨by decide, by decide, by decide, by decide, by decide,
    (report_round_trip Sample.constants Sample.config Sample.config Sample.g239_1_2_3 none true
      (by decide) (by decide) (by decide) (by decide)).2.2.2.2.2.2.2.2.2.2.1
      Sample.layer Sample.joined3 Sample.beyond [] 123456 7 rfl⟩

end CNetworkLayer

end Circle

/-! ## The two forms of the checksum test -/

namespace Circle

/-- For four 16-bit words: the second word is the complement of the one's-complement
sum of the four with 0 in its place, if and only if the complement of the sum of the
four is 0 and the second word is 0xFFFF only when the other three are 0; and when
the complement of the sum of the four is 0 but the second word is not that
complement, the second word is 0xFFFF and the sum with 0 in its place is 0xFFFF. -/
theorem checksum_two_forms (w0 f w2 w3 : Nat) (h0 : w0 ≤ 65535) (hf : f ≤ 65535)
    (h2 : w2 ≤ 65535) (h3 : w3 ≤ 65535) :
    ((f = 65535 - [w0, 0, w2, w3].foldl (fun nSum w => checksumFold (nSum + w)) 0) ↔
      (65535 - [w0, f, w2, w3].foldl (fun nSum w => checksumFold (nSum + w)) 0 = 0 ∧
        (f = 65535 → w0 = 0 ∧ w2 = 0 ∧ w3 = 0))) ∧
    (65535 - [w0, f, w2, w3].foldl (fun nSum w => checksumFold (nSum + w)) 0 = 0 →
      f ≠ 65535 - [w0, 0, w2, w3].foldl (fun nSum w => checksumFold (nSum + w)) 0 →
      f = 65535 ∧
        65535 - [w0, 0, w2, w3].foldl (fun nSum w => checksumFold (nSum + w)) 0 = 0) := by
  have hb0 : ∀ w ∈ [w0, 0, w2, w3], w ≤ 65535 := by
    intro w hw
    simp only [List.mem_cons, List.mem_singleton, List.not_mem_nil, or_false] at hw
    rcases hw with h | h | h | h <;> omega
  have hb1 : ∀ w ∈ [w0, f, w2, w3], w ≤ 65535 := by
    intro w hw
    simp only [List.mem_cons, List.mem_singleton, List.not_mem_nil, or_false] at hw
    rcases hw with h | h | h | h <;> omega
  obtain ⟨a1, a2, a3⟩ := checksum_foldl_facts [w0, 0, w2, w3] 0 (by omega) hb0
  obtain ⟨b1, b2, b3⟩ := checksum_foldl_facts [w0, f, w2, w3] 0 (by omega) hb1
  have a4 : [w0, 0, w2, w3].foldl (fun nSum w => checksumFold (nSum + w)) 0 = 0 →
      w0 + w2 + w3 = 0 := by
    intro h
    obtain ⟨_, hall⟩ := a3 h
    have e0 := hall w0 (by simp)
    have e2 := hall w2 (by simp)
    have e3 := hall w3 (by simp)
    omega
  have a5 : w0 + w2 + w3 = 0 →
      [w0, 0, w2, w3].foldl (fun nSum w => checksumFold (nSum + w)) 0 = 0 := by
    intro h
    have e0 : w0 = 0 := by omega
    have e2 : w2 = 0 := by omega
    have e3 : w3 = 0 := by omega
    subst e0 e2 e3
    rfl
  have b4 : [w0, f, w2, w3].foldl (fun nSum w => checksumFold (nSum + w)) 0 = 0 →
      w0 + w2 + w3 = 0 ∧ f = 0 := by
    intro h
    obtain ⟨_, hall⟩ := b3 h
    have e0 := hall w0 (by simp)
    have ef := hall f (by simp)
    have e2 := hall w2 (by simp)
    have e3 := hall w3 (by simp)
    omega
  have b5 : w0 + w2 + w3 = 0 → f = 0 →
      [w0, f, w2, w3].foldl (fun nSum w => checksumFold (nSum + w)) 0 = 0 := by
    intro h hf0
    have e0 : w0 = 0 := by omega
    have e2 : w2 = 0 := by omega
    have e3 : w3 = 0 := by omega
    subst e0 e2 e3 hf0
    rfl
  simp only [List.sum_cons, List.sum_nil] at a2 b2
  clear a3 b3 hb0 hb1
  generalize [w0, 0, w2, w3].foldl (fun nSum w => checksumFold (nSum + w)) 0 = r0 at *
  generalize [w0, f, w2, w3].foldl (fun nSum w => checksumFold (nSum + w)) 0 = r1 at *
  have A : (r0 = 0 ∧ w0 + w2 + w3 = 0) ∨ (r0 ≠ 0 ∧ w0 + w2 + w3 ≠ 0) := by
    by_cases h : r0 = 0
    · exact Or.inl ⟨h, a4 h⟩
    · exact Or.inr ⟨h, fun h5 => h (a5 h5)⟩
  have B : (r1 = 0 ∧ w0 + w2 + w3 = 0 ∧ f = 0) ∨ (r1 ≠ 0 ∧ (w0 + w2 + w3 ≠ 0 ∨ f ≠ 0)) := by
    by_cases h : r1 = 0
    · exact Or.inl ⟨h, b4 h⟩
    · refine Or.inr ⟨h, ?_⟩
      by_cases h5 : w0 + w2 + w3 = 0
      · exact Or.inr (fun h6 => h (b5 h5 h6))
      · exact Or.inl h5
  clear a4 a5 b4 b5
  refine ⟨⟨?_, ?_⟩, ?_⟩
  · intro h
    refine ⟨by omega, fun h1 => ⟨by omega, by omega, by omega⟩⟩
  · rintro ⟨h1, h5⟩
    by_cases hff : f = 65535
    · obtain ⟨z0, z2, z3⟩ := h5 hff
      omega
    · omega
  · intro h1 h5
    refine ⟨by omega, by omega⟩

namespace CIGMPHandler

/-- C31 at a buffer of eight octets: the group-specific query
`Sample.queryFieldFFFF`, whose checksum field is 0xFFFF while the checksum of the
buffer with a zero field is 0, fails the checksum test of ProcessPacket, yet the
checksum over the whole buffer is CHECKSUM_OK. -/
theorem checksum_forms_counterexample :
    Sample.queryFieldFFFF.length = 8 ∧
    ChecksumMatches Sample.queryFieldFFFF [] = false ∧
    SimpleCalculate [0x11, 0x64, 0, 0, 0xEE, 0x9B, 0, 0] = 0 ∧
    ChecksumOkOverWhole Sample.queryFieldFFFF = true := by
  decide

/-- C31, amended: for every buffer of eight octets, whatever follows the copy of
the header in memory, the checksum test of ProcessPacket accepts the buffer if and
only if the checksum over the whole buffer is CHECKSUM_OK and the checksum field
is not 0xFFFF, or the buffer is 00 00 FF FF 00 00 00 00.  So every buffer the test
accepts has the checksum CHECKSUM_OK over the whole buffer, and the buffers on
which the two forms differ are those with the field 0xFFFF and other octets, not
all zero, that add up to 0xFFFF: the whole-buffer form accepts them, the test of
ProcessPacket does not. -/
theorem ChecksumMatches_iff_whole (pPacket mem : List Octet) (hlen : pPacket.length = 8) :
    (ChecksumMatches pPacket mem = true ↔
      (ChecksumOkOverWhole pPacket = true ∧ (TIGMPHeader.ofPacket pPacket).nChecksum ≠ 0xFFFF)
        ∨ pPacket = [0, 0, 0xFF, 0xFF, 0, 0, 0, 0]) ∧
    (ChecksumMatches pPacket mem = true → ChecksumOkOverWhole pPacket = true) ∧
    (ChecksumOkOverWhole pPacket = true → ChecksumMatches pPacket mem = false →
      (TIGMPHeader.ofPacket pPacket).nChecksum = 0xFFFF ∧
      SimpleCalculate ({ TIGMPHeader.ofPacket pPacket with nChecksum := 0 }).bytes = 0) := by
  match pPacket, hlen with
  | [b0, b1, b2, b3, b4, b5, b6, b7], _ =>
    have i0 := b0.isLt
    have i1 := b1.isLt
    have i2 := b2.isLt
    have i3 := b3.isLt
    have i4 := b4.isLt
    have i5 := b5.isLt
    have i6 := b6.isLt
    have i7 := b7.isLt
    have h0 : 256 * b0.val + b1.val ≤ 65535 := by omega
    have hf : 256 * b2.val + b3.val ≤ 65535 := by omega
    have h2 : 256 * b4.val + b5.val ≤ 65535 := by omega
    have h3 : 256 * b6.val + b7.val ≤ 65535 := by omega
    obtain ⟨key, key2⟩ := checksum_two_forms (256 * b0.val + b1.val) (256 * b2.val + b3.val)
      (256 * b4.val + b5.val) (256 * b6.val + b7.val) h0 hf h2 h3
    have hz : ((0 : Octet) : Nat) = 0 := rfl
    have hff : ((0xFF : Octet) : Nat) = 255 := rfl
    have e0 : 256 * b0.val + b1.val = 0 → b0 = 0 ∧ b1 = 0 := by
      intro h
      simp only [Fin.ext_iff, hz]
      omega
    have e2 : 256 * b4.val + b5.val = 0 → b4 = 0 ∧ b5 = 0 := by
      intro h
      simp only [Fin.ext_iff, hz]
      omega
    have e3 : 256 * b6.val + b7.val = 0 → b6 = 0 ∧ b7 = 0 := by
      intro h
      simp only [Fin.ext_iff, hz]
      omega
    have ef : 256 * b2.val + b3.val = 65535 → b2 = 0xFF ∧ b3 = 0xFF := by
      intro h
      simp only [Fin.ext_iff, hff]
      omega
    have hA : ChecksumMatches [b0, b1, b2, b3, b4, b5, b6, b7] mem = true ↔
        256 * b2.val + b3.val = 65535 -
          [256 * b0.val + b1.val, 0, 256 * b4.val + b5.val, 256 * b6.val + b7.val].foldl
            (fun nSum w => checksumFold (nSum + w)) 0 := by
      simp only [ChecksumMatches, TIGMPHeader.ofPacket, TIGMPHeader.bytes, List.getD_cons_zero,
        List.getD_cons_succ, beq_iff_eq, SimpleCalculate, checksumSum, List.cons_append,
        List.nil_append, List.length_cons, List.length_nil, List.take_succ_cons, List.take_zero,
        checksumWords, octet_ofNat_zero, Nat.zero_div, Nat.zero_mod, hz, Nat.mul_zero,
        Nat.add_zero]
    have hB : ChecksumOkOverWhole [b0, b1, b2, b3, b4, b5, b6, b7] = true ↔
        65535 - [256 * b0.val + b1.val, 256 * b2.val + b3.val, 256 * b4.val + b5.val,
          256 * b6.val + b7.val].foldl (fun nSum w => checksumFold (nSum + w)) 0 = 0 := by
      simp only [ChecksumOkOverWhole, SimpleCalculate, checksumSum, checksumWords, beq_iff_eq,
        CHECKSUM_OK]
    have hC : (TIGMPHeader.ofPacket [b0, b1, b2, b3, b4, b5, b6, b7]).nChecksum
        = 256 * b2.val + b3.val := by
      simp only [TIGMPHeader.ofPacket, List.getD_cons_zero, List.getD_cons_succ]
    have hD : SimpleCalculate
        ({ TIGMPHeader.ofPacket [b0, b1, b2, b3, b4, b5, b6, b7] with nChecksum := 0 }).bytes
        = 65535 - [256 * b0.val + b1.val, 0, 256 * b4.val + b5.val,
          256 * b6.val + b7.val].foldl (fun nSum w => checksumFold (nSum + w)) 0 := by
      simp only [TIGMPHeader.ofPacket, TIGMPHeader.bytes, List.getD_cons_zero,
        List.getD_cons_succ, SimpleCalculate, checksumSum, List.cons_append, List.nil_append,
        checksumWords, octet_ofNat_zero, Nat.zero_div, Nat.zero_mod, hz, Nat.mul_zero,
        Nat.add_zero]
    have hAll : ChecksumMatches [0, 0, 0xFF, 0xFF, 0, 0, 0, 0] mem = true := by
      simp only [ChecksumMatches, TIGMPHeader.ofPacket, TIGMPHeader.bytes, List.getD_cons_zero,
        List.getD_cons_succ, beq_iff_eq, List.cons_append, List.nil_append, List.length_cons,
        List.length_nil, List.take_succ_cons, List.take_zero, octet_ofNat_zero, Nat.zero_div,
        Nat.zero_mod]
      decide
    refine ⟨⟨?_, ?_⟩, ?_, ?_⟩
    · intro h
      obtain ⟨x, y⟩ := key.mp (hA.mp h)
      by_cases hw : 256 * b2.val + b3.val = 65535
      · right
        obtain ⟨z0, z2, z3⟩ := y hw
        obtain ⟨c0, c1⟩ := e0 z0
        obtain ⟨c2, c3⟩ := ef hw
        obtain ⟨c4, c5⟩ := e2 z2
        obtain ⟨c6, c7⟩ := e3 z3
        rw [c0, c1, c2, c3, c4, c5, c6, c7]
      · left
        exact ⟨hB.mpr x, by rw [hC]; exact hw⟩
    · rintro (⟨h1, h5⟩ | h6)
      · rw [hC] at h5
        exact hA.mpr (key.mpr ⟨hB.mp h1, fun h7 => absurd h7 h5⟩)
      · rw [h6]
        exact hAll
    · intro h
      exact hB.mpr (key.mp (hA.mp h)).1
    · intro h1 h5
      have h6 : ¬ ChecksumMatches [b0, b1, b2, b3, b4, b5, b6, b7] mem = true := by
        rw [h5]
        decide
      rw [hC, hD]
      exact key2 (hB.mp h1) (fun h7 => h6 (hA.mpr h7))

/-- Witness of C31: the general query `11 64 EE 9B 00 00 00 00` has eight octets
and passes the checksum test of ProcessPacket, so its checksum over the whole
buffer is CHECKSUM_OK. -/
theorem ChecksumMatches_iff_whole_witness :
    (Sample.query 100 (CIPAddress.ofOctets 0 0 0 0)).length = 8 ∧
    ChecksumMatches (Sample.query 100 (CIPAddress.ofOctets 0 0 0 0)) [] = true ∧
    ChecksumOkOverWhole (Sample.query 100 (CIPAddress.ofOctets 0 0 0 0)) = true :=
  ⟨by decide, by decide,
    (ChecksumMatches_iff_whole (Sample.query 100 (CIPAddress.ofOctets 0 0 0 0)) []
      (by decide)).2.1 (by decide)⟩

end CIGMPHandler

/-! ## The total length of a received frame -/

namespace CNetworkLayer

/-- The total-length field is a 16-bit value. -/
theorem nTotalLength_lt (Buffer : List Octet) : nTotalLength Buffer < 65536 := by
  unfold nTotalLength le2be16
  omega

/-- The header length is at most 60 octets. -/
theorem nHeaderLength_le (Buffer : List Octet) : nHeaderLength Buffer ≤ 60 := by
  unfold nHeaderLength
  omega

/-- Reading `n` octets from a pointer gives `n` octets. -/
theorem readOctets_length (pBuffer : List Octet) (beyond : Nat → Octet) (n : Nat) :
    (readOctets pBuffer beyond n).length = n := by
  simp only [readOctets, List.length_append, List.length_take, List.length_map,
    List.length_range]
  omega

/-- The payload has as many octets as the payload length says. -/
theorem Payload_length (Buffer : List Octet) (beyond : Nat → Octet) :
    (Payload Buffer beyond).length = nPayloadLength Buffer :=
  readOctets_length _ _ _

/-- With a total length that is at least the header length and at most the length
received, the payload length is their difference and the payload is the octets of
the frame from the end of the header up to the total length. -/
theorem Payload_of_total_ok (Buffer : List Octet) (beyond : Nat → Octet)
    (h1 : nHeaderLength Buffer ≤ nTotalLength Buffer)
    (h2 : nTotalLength Buffer ≤ Buffer.length) :
    nPayloadLength Buffer = nTotalLength Buffer - nHeaderLength Buffer ∧
    Payload Buffer beyond = (Buffer.take (nTotalLength Buffer)).drop (nHeaderLength Buffer) := by
  have hlt := nTotalLength_lt Buffer
  have hn : nPayloadLength Buffer = nTotalLength Buffer - nHeaderLength Buffer := by
    unfold nPayloadLength
    omega
  refine ⟨hn, ?_⟩
  have h3 : nTotalLength Buffer - nHeaderLength Buffer
      - (Buffer.drop (nHeaderLength Buffer)).length = 0 := by
    rw [List.length_drop]
    omega
  simp only [Payload, readOctets, hn, h3, List.range_zero, List.map_nil, List.append_nil,
    List.drop_take]

/-- C32 at a frame whose total-length field is less than the header length: the
frame `Sample.zeroTotalFrame` of 29 octets, protocol 17, with header length 20 and
total length 0, passes the header checks, the destination check and the fragment
check, and its length is not less than the total length; Process adds an entry to
the receive queue whose length is 4294967276, the 32-bit difference 0 - 20, with as
many octets, where nine octets follow the header in the frame. -/
theorem zero_total_length_is_enqueued :
    PassesHeaderChecks Sample.zeroTotalFrame = true ∧
    PassesDestinationCheck Sample.config Sample.zeroTotalFrame = true ∧
    IsFragment Sample.zeroTotalFrame = false ∧
    Sample.zeroTotalFrame.length = 29 ∧
    nHeaderLength Sample.zeroTotalFrame = 20 ∧
    nTotalLength Sample.zeroTotalFrame = 0 ∧
    ProcessFrame Sample.config Sample.layer Sample.zeroTotalFrame Sample.beyond [] 123456 7 =
      ({ Sample.layer with m_RxQueue := [QueueEntry Sample.zeroTotalFrame Sample.beyond] }, []) ∧
    (QueueEntry Sample.zeroTotalFrame Sample.beyond).nLength = 4294967276 ∧
    (QueueEntry Sample.zeroTotalFrame Sample.beyond).pBuffer.length = 4294967276 := by
  have hAcc : Accepted Sample.config Sample.zeroTotalFrame = true := by decide
  have hp : ((nProtocol Sample.zeroTotalFrame : Octet) : Nat) = 17 := by decide
  have hn : nPayloadLength Sample.zeroTotalFrame = 4294967276 := by decide
  refine ⟨by decide, by decide, by decide, by decide, by decide, by decide, ?_, hn, ?_⟩
  · rw [ProcessFrame_eq, if_pos hAcc]
    simp [Dispatch, hp, IPPROTO_ICMP, IPPROTO_IGMP, Sample.layer]
  · show (Payload Sample.zeroTotalFrame Sample.beyond).length = 4294967276
    rw [Payload_length, hn]

/-- What `Process` hands on for a frame that passes the header checks, the
destination check and the fragment check, with received length L, header length
hdrLen and total-length field T: when L < T nothing changes and nothing is handed
on; when T <= L and hdrLen <= T the payload length is T - hdrLen, the payload is
the octets of the frame from hdrLen up to T, whatever follows the frame in memory
and whatever padding follows the first T octets, and this payload with this length
is what goes to the ICMP queues (protocol 1), to ProcessPacket of the IGMP handler
(protocol 2) or to the receive queue (any other protocol). -/
theorem total_length_check (cfg : CNetConfig) (s : CNetworkLayer) (Buffer : List Octet)
    (beyond : Nat → Octet) (mem : List Octet) (nRandom hStart : Nat)
    (hHdr : PassesHeaderChecks Buffer = true) (hDst : PassesDestinationCheck cfg Buffer = true)
    (hFrag : IsFragment Buffer = false) :
    (Buffer.length < nTotalLength Buffer →
      ProcessFrame cfg s Buffer beyond mem nRandom hStart = (s, [])) ∧
    (¬ Buffer.length < nTotalLength Buffer → nHeaderLength Buffer ≤ nTotalLength Buffer →
      nPayloadLength Buffer = nTotalLength Buffer - nHeaderLength Buffer ∧
      Payload Buffer beyond = (Buffer.take (nTotalLength Buffer)).drop (nHeaderLength Buffer) ∧
      ((Buffer.take (nTotalLength Buffer)).drop (nHeaderLength Buffer)).length
        = nTotalLength Buffer - nHeaderLength Buffer ∧
      ((nProtocol Buffer).val = 1 →
        ProcessFrame cfg s Buffer beyond mem nRandom hStart =
          ({ s with
              m_ICMPRxQueue := s.m_ICMPRxQueue ++
                [{ pBuffer := (Buffer.take (nTotalLength Buffer)).drop (nHeaderLength Buffer),
                   nLength := nTotalLength Buffer - nHeaderLength Buffer,
                   pParam := PrivateData Buffer }]
              m_pICMPRxQueue2 := s.m_pICMPRxQueue2.map (fun q => q ++
                [{ pBuffer := (Buffer.take (nTotalLength Buffer)).drop (nHeaderLength Buffer),
                   nLength := nTotalLength Buffer - nHeaderLength Buffer,
                   pParam := PrivateData Buffer }]) }, [])) ∧
      ((nProtocol Buffer).val = 2 → ∀ pIGMPHandler : CIGMPHandler,
        s.m_pIGMPHandler = some pIGMPHandler →
        ProcessFrame cfg s Buffer beyond mem nRandom hStart =
          ({ s with m_pIGMPHandler := some (pIGMPHandler.ProcessPacket
                ((Buffer.take (nTotalLength Buffer)).drop (nHeaderLength Buffer))
                mem nRandom hStart).1 },
            TNetCall.ProcessPacket
                ((Buffer.take (nTotalLength Buffer)).drop (nHeaderLength Buffer))
                (nTotalLength Buffer - nHeaderLength Buffer)
                (CIPAddress.ofOctets (Buffer.getD 12 0) (Buffer.getD 13 0) (Buffer.getD 14 0)
                  (Buffer.getD 15 0))
              :: (pIGMPHandler.ProcessPacket
                  ((Buffer.take (nTotalLength Buffer)).drop (nHeaderLength Buffer))
                  mem nRandom hStart).2.map TNetCall.Handler)) ∧
      ((nProtocol Buffer).val ≠ 1 → (nProtocol Buffer).val ≠ 2 →
        ProcessFrame cfg s Buffer beyond mem nRandom hStart =
          ({ s with
              m_RxQueue := s.m_RxQueue ++
                [{ pBuffer := (Buffer.take (nTotalLength Buffer)).drop (nHeaderLength Buffer),
                   nLength := nTotalLength Buffer - nHeaderLength Buffer,
                   pParam := PrivateData Buffer }] }, []))) := by
  refine ⟨?_, ?_⟩
  · intro hlt
    have hAcc : ¬ Accepted cfg Buffer = true := by
      simp [Accepted, hlt]
    rw [ProcessFrame_eq, if_neg hAcc]
  · intro hge hTot
    have hAcc : Accepted cfg Buffer = true := by
      simp [Accepted, hHdr, hDst, hFrag, hge]
    obtain ⟨hn, hP⟩ := Payload_of_total_ok Buffer beyond hTot (by omega)
    have hPlen : ((Buffer.take (nTotalLength Buffer)).drop (nHeaderLength Buffer)).length
        = nTotalLength Buffer - nHeaderLength Buffer := by
      rw [← hP, Payload_length, hn]
    rw [ProcessFrame_eq, if_pos hAcc]
    refine ⟨hn, hP, hPlen, ?_, ?_, ?_⟩
    · intro h
      simp [Dispatch, h, IPPROTO_ICMP, QueueEntry, hP, hn]
    · intro h pIGMPHandler hInit
      simp [Dispatch, h, IPPROTO_ICMP, IPPROTO_IGMP, hInit, hP, hn]
    · intro h1 h2
      simp [Dispatch, h1, h2, IPPROTO_ICMP, IPPROTO_IGMP, QueueEntry, hP, hn]

/-- An instance: the general query in `Sample.queryFrame`, 28 octets with total
length 28 and header length 20, has a payload of eight octets. -/
theorem total_length_check_witness :
    PassesHeaderChecks Sample.queryFrame = true ∧
    PassesDestinationCheck Sample.config Sample.queryFrame = true ∧
    IsFragment Sample.queryFrame = false ∧
    nPayloadLength Sample.queryFrame = nTotalLength Sample.queryFrame
      - nHeaderLength Sample.queryFrame ∧
    Payload Sample.queryFrame Sample.beyond = [0x11, 100, 0xEE, 0x9B, 0, 0, 0, 0] :=
  ⟨by decide, by decide, by decide,
    ((total_length_check Sample.config Sample.layer Sample.queryFrame Sample.beyond []
      123456 7 (by decide) (by decide) (by decide)).2 (by decide) (by decide)).1,
    by decide⟩

/-- C33 at a frame whose total-length field is less than the header length: the
frame `Sample.shortTotalFrame` of 28 octets, protocol 2, with header length 20 and
total length 8, is accepted by Process; the payload length is the 32-bit difference
8 - 20 = 4294967284, and ProcessPacket of the IGMP handler is called with that
length and as many octets, read from the frame and from the memory that follows
it, where the frame has 8 octets after its header. -/
theorem payload_length_wraps :
    Accepted Sample.config Sample.shortTotalFrame = true ∧
    Sample.shortTotalFrame.length = 28 ∧
    nHeaderLength Sample.shortTotalFrame = 20 ∧
    nTotalLength Sample.shortTotalFrame = 8 ∧
    nPayloadLength Sample.shortTotalFrame = 4294967284 ∧
    (ProcessFrame Sample.config Sample.layer Sample.shortTotalFrame Sample.beyond []
        123456 7).2.head? =
      some (TNetCall.ProcessPacket (Payload Sample.shortTotalFrame Sample.beyond) 4294967284
        (CIPAddress.ofOctets 192 168 1 1)) ∧
    (Payload Sample.shortTotalFrame Sample.beyond).length = 4294967284 ∧
    Sample.shortTotalFrame.length - nHeaderLength Sample.shortTotalFrame = 8 := by
  have hAcc : Accepted Sample.config Sample.shortTotalFrame = true := by decide
  have hp : ((nProtocol Sample.shortTotalFrame : Octet) : Nat) = 2 := by decide
  have hn : nPayloadLength Sample.shortTotalFrame = 4294967284 := by decide
  have hsrc : CIPAddress.ofOctets (Sample.shortTotalFrame.getD 12 0)
      (Sample.shortTotalFrame.getD 13 0) (Sample.shortTotalFrame.getD 14 0)
      (Sample.shortTotalFrame.getD 15 0) = CIPAddress.ofOctets 192 168 1 1 := by decide
  refine ⟨hAcc, by decide, by decide, by decide, hn, ?_, ?_, by decide⟩
  · rw [ProcessFrame_eq, if_pos hAcc]
    simp only [Dispatch, hp, IPPROTO_ICMP, IPPROTO_IGMP, Sample.layer, hn, hsrc]
    rfl
  · rw [Payload_length, hn]

/-! ## The length guard of Send -/

/-- C36: for every payload whose length nLength is a 32-bit value, with frame
buffers of fewer than 65536 octets: Send goes past its length guard if and only if
1 <= nLength and 20 + nLength <= FRAME_BUFFER_SIZE, the sum taken without
wrap-around; when the guard is not passed, in particular for nLength = 0 and for
every nLength for which 20 + nLength reaches 2^32, Send returns false and makes no
call, so no packet goes to the link layer or to the ICMP handler; when the guard is
passed Send makes a call, every call it makes carries the packet it built with the
length 20 + nLength, and the total-length field of that packet is 20 + nLength. -/
theorem Send_length_guard (k : TIPConstants) (cfg : CNetConfig)
    (pGateway : Option (Octet × Octet × Octet × Octet)) (bLinkSent : Bool)
    (rReceiver : CIPAddress) (pPacket : List Octet) (nProtocol : Nat)
    (hLen : pPacket.length < 4294967296) (hSize : k.FRAME_BUFFER_SIZE < 65536) :
    (PassesLengthGuard k pPacket = true ↔
      1 ≤ pPacket.length ∧ 20 + pPacket.length ≤ k.FRAME_BUFFER_SIZE) ∧
    (PassesLengthGuard k pPacket = false →
      Send k cfg pGateway bLinkSent rReceiver pPacket nProtocol = (false, [])) ∧
    (pPacket.length = 0 ∨ 4294967296 ≤ 20 + pPacket.length →
      Send k cfg pGateway bLinkSent rReceiver pPacket nProtocol = (false, [])) ∧
    (PassesLengthGuard k pPacket = true →
      (Send k cfg pGateway bLinkSent rReceiver pPacket nProtocol).2 ≠ [] ∧
      (∀ call ∈ (Send k cfg pGateway bLinkSent rReceiver pPacket nProtocol).2,
        (∃ rNextHop, call = TNetCall.LinkSend rNextHop
          (PacketBuffer k cfg.m_IPAddress rReceiver pPacket (20 + pPacket.length) nProtocol)
          (20 + pPacket.length)) ∨
        call = TNetCall.SendFailed ICMP_CODE_DEST_NET_UNREACH
          (PacketBuffer k cfg.m_IPAddress rReceiver pPacket (20 + pPacket.length) nProtocol)
          (20 + pPacket.length)) ∧
      nTotalLength
        (PacketBuffer k cfg.m_IPAddress rReceiver pPacket (20 + pPacket.length) nProtocol)
        = 20 + pPacket.length) := by
  have hiff : PassesLengthGuard k pPacket = true ↔
      1 ≤ pPacket.length ∧ 20 + pPacket.length ≤ k.FRAME_BUFFER_SIZE := by
    simp only [PassesLengthGuard, sizeofTIPHeader, Bool.and_eq_true, decide_eq_true_eq]
    omega
  refine ⟨hiff, Send_of_length_bad k cfg pGateway bLinkSent rReceiver pPacket nProtocol, ?_, ?_⟩
  · intro h
    apply Send_of_length_bad
    cases hg : PassesLengthGuard k pPacket with
    | false => rfl
    | true =>
      have := hiff.mp hg
      omega
  · intro hg
    obtain ⟨h1, h2⟩ := hiff.mp hg
    have hmod : (sizeofTIPHeader + pPacket.length) % 4294967296 = 20 + pPacket.length := by
      unfold sizeofTIPHeader
      omega
    have htot := (PacketBuffer_fields k cfg.m_IPAddress rReceiver pPacket
      (20 + pPacket.length) nProtocol).2.2.2.1
    have h16 : (20 + pPacket.length) % 65536 = 20 + pPacket.length := by omega
    rw [h16] at htot
    rw [Send_of_length_ok k cfg pGateway bLinkSent rReceiver pPacket nProtocol hg, hmod]
    refine ⟨?_, ?_, htot⟩
    · split
      · simp
      · split
        · cases pGateway with
          | none =>
            simp only
            split <;> simp
          | some g =>
            obtain ⟨a, b, c, d⟩ := g
            simp
        · simp
    · intro call hcall
      split at hcall
      · right
        simpa using hcall
      · split at hcall
        · cases pGateway with
          | none =>
            simp only at hcall
            split at hcall
            · right
              simpa using hcall
            · left
              exact ⟨cfg.m_DefaultGateway, by simpa using hcall⟩
          | some g =>
            obtain ⟨a, b, c, d⟩ := g
            left
            exact ⟨CIPAddress.ofOctets a b c d, by simpa using hcall⟩
        · left
          exact ⟨rReceiver, by simpa using hcall⟩

/-- Witness of C36: with frame buffers of 1600 octets the datagram of nine octets
`Sample.datagramTo5000` passes the length guard, and the total-length field of the
packet built for it is 29. -/
theorem Send_length_guard_witness :
    Sample.datagramTo5000.length < 4294967296 ∧ Sample.constants.FRAME_BUFFER_SIZE < 65536 ∧
    PassesLengthGuard Sample.constants Sample.datagramTo5000 = true ∧
    nTotalLength (PacketBuffer Sample.constants Sample.config.m_IPAddress
      (CIPAddress.ofOctets 192 168 1 1) Sample.datagramTo5000
      (20 + Sample.datagramTo5000.length) 17) = 20 + Sample.datagramTo5000.length :=
  ⟨by decide, by decide, by decide,
    ((Send_length_guard Sample.constants Sample.config none true
      (CIPAddress.ofOctets 192 168 1 1) Sample.datagramTo5000 17 (by decide) (by decide)).2.2.2
      (by decide)).2.2⟩

end CNetworkLayer

end Circle

/-! ## The joined list over sequences of events -/

namespace Circle

/-- If `a` compares equal to `b` and `c` does not compare equal to `b`, then `c`
does not compare equal to `a`. -/
theorem CIPAddress.opEq_false_of_opEq {a b c : CIPAddress} (h : a.opEq b = true)
    (hc : c.opEq b = false) : c.opEq a = false := by
  rw [CIPAddress.opEq_iff] at h
  rw [CIPAddress.opEq_false_iff] at hc ⊢
  rw [h.1, h.2.1, h.2.2.1, h.2.2.2]
  exact hc

namespace CIGMPHandler

/-- `FindGroup` finds nothing exactly when no membership has the address. -/
theorem FindGroup_eq_none (s : CIGMPHandler) (g : CIPAddress) :
    s.FindGroup g = none ↔ ∀ p ∈ s.m_JoinedGroups, p.Address.opEq g = false :=
  FindGroupFrom_eq_none g s.m_JoinedGroups 0

/-- `FindGroup` finds nothing for an address when it finds nothing for one that
compares equal to it. -/
theorem FindGroup_eq_none_of_opEq (s : CIGMPHandler) {a b : CIPAddress}
    (h : a.opEq b = true) (hb : s.FindGroup b = none) : s.FindGroup a = none := by
  rw [FindGroup_eq_none] at hb ⊢
  intro p hp
  have h1 := hb p hp
  rw [CIPAddress.opEq_false_iff] at h1 ⊢
  rw [CIPAddress.opEq_iff] at h
  rw [h.1, h.2.1, h.2.2.1, h.2.2.2]
  exact h1

/-- `JoinGroup` of an address that is found changes nothing and makes no call. -/
theorem JoinGroup_of_found (own g : CIPAddress) (s : CIGMPHandler)
    (hf : (s.FindGroup g).isSome = true) : JoinGroup own s g = (s, []) := by
  unfold JoinGroup
  split
  · rfl
  · simp [hf]

/-- After `JoinGroup` of a multicast address the address is found. -/
theorem FindGroup_JoinGroup (own g : CIPAddress) (s : CIGMPHandler)
    (hMc : g.IsMulticast = true) : ((JoinGroup own s g).1.FindGroup g).isSome = true := by
  by_cases hf : (s.FindGroup g).isSome = true
  · rw [JoinGroup_of_found own g s hf]
    exact hf
  · simp only [JoinGroup, hMc, hf, Bool.not_true, Bool.false_eq_true, if_false]
    exact FindGroupFrom_isSome_of_mem g _ 0 { Address := g } (by simp) (CIPAddress.opEq_self g)

/-- An address that is found is still found after `JoinGroup` of any address. -/
theorem FindGroup_isSome_JoinGroup (own g g2 : CIPAddress) (s : CIGMPHandler)
    (hf : (s.FindGroup g).isSome = true) : ((JoinGroup own s g2).1.FindGroup g).isSome = true := by
  cases hr : s.FindGroup g with
  | none => rw [hr] at hf; cases hf
  | some r =>
    obtain ⟨i, p⟩ := r
    obtain ⟨l1, l2, h1, _, h3, _⟩ := FindGroupFrom_eq_some g s.m_JoinedGroups 0 i p hr
    have hp : p ∈ s.m_JoinedGroups := by rw [h1]; simp
    unfold JoinGroup
    split
    · exact hf
    · split
      · exact hf
      · exact FindGroupFrom_isSome_of_mem g _ 0 p (List.mem_append_left _ hp) h3

/-- `JoinGroup` keeps the joined list free of non-multicast addresses and of
repeated addresses. -/
theorem joined_JoinGroup (own g : CIPAddress) (s : CIGMPHandler)
    (h1 : ∀ p ∈ s.m_JoinedGroups, p.Address.IsMulticast = true)
    (h2 : s.m_JoinedGroups.Pairwise (fun p q => p.Address.opEq q.Address = false)) :
    (∀ p ∈ (JoinGroup own s g).1.m_JoinedGroups, p.Address.IsMulticast = true) ∧
    (JoinGroup own s g).1.m_JoinedGroups.Pairwise
      (fun p q => p.Address.opEq q.Address = false) := by
  unfold JoinGroup
  by_cases hm : g.IsMulticast = true
  · cases hf : s.FindGroup g with
    | some r => simpa [hm, hf] using ⟨h1, h2⟩
    | none =>
      have hnone := (FindGroupFrom_eq_none g s.m_JoinedGroups 0).mp hf
      simp only [hm, hf, Bool.not_true, Bool.false_eq_true, if_false, Option.isSome_none]
      constructor
      · intro p hp
        rcases List.mem_append.mp hp with hp | hp
        · exact h1 p hp
        · simp at hp; subst hp; exact hm
      · simp only [List.pairwise_append]
        refine ⟨h2, by simp, ?_⟩
        intro p hp q hq
        simp at hq; subst hq
        exact hnone p hp
  · simpa [hm] using ⟨h1, h2⟩

/-- The joined list after `LeaveGroup` is a sublist of the list before, and the
address left is not found in it when the list before had no repeated address and
only multicast addresses. -/
theorem joined_LeaveGroup (own g : CIPAddress) (s : CIGMPHandler)
    (h1 : ∀ p ∈ s.m_JoinedGroups, p.Address.IsMulticast = true)
    (h2 : s.m_JoinedGroups.Pairwise (fun p q => p.Address.opEq q.Address = false)) :
    (LeaveGroup own s g).1.m_JoinedGroups.Sublist s.m_JoinedGroups ∧
    (LeaveGroup own s g).1.FindGroup g = none := by
  by_cases hm : g.IsMulticast = true
  · cases hf : s.FindGroup g with
    | none =>
      have he : LeaveGroup own s g = (s, []) := by simp [LeaveGroup, hm, hf]
      rw [he]
      exact ⟨List.Sublist.refl _, hf⟩
    | some r =>
      obtain ⟨i, p⟩ := r
      obtain ⟨l1, l2, e1, e2, e3, e4⟩ := LeaveGroup_found own g s hm i p hf
      have hl : (LeaveGroup own s g).1.m_JoinedGroups = l1 ++ l2 := by
        rw [e4]
        split <;> rfl
      have hsub : (l1 ++ l2).Sublist (l1 ++ p :: l2) :=
        List.Sublist.append_left (List.sublist_cons_self p l2) l1
      rw [e1] at h2
      refine ⟨by rw [hl, e1]; exact hsub, ?_⟩
      rw [FindGroup_eq_none, hl]
      intro q hq
      rcases List.mem_append.mp hq with hq | hq
      · exact e3 q hq
      · have hpq : p.Address.opEq q.Address = false := by
          have h3 := (List.pairwise_append.mp h2).2.1
          exact (List.pairwise_cons.mp h3).1 q hq
        cases hqg : q.Address.opEq g with
        | false => rfl
        | true =>
          rw [CIPAddress.opEq_iff] at hqg e2
          rw [CIPAddress.opEq_false_iff] at hpq
          exact absurd ⟨e2.1.trans hqg.1.symm, e2.2.1.trans hqg.2.1.symm,
            e2.2.2.1.trans hqg.2.2.1.symm, e2.2.2.2.trans hqg.2.2.2.symm⟩ hpq
  · have he : LeaveGroup own s g = (s, []) := by simp [LeaveGroup, hm]
    rw [he]
    refine ⟨List.Sublist.refl _, ?_⟩
    rw [FindGroup_eq_none]
    intro p hp
    cases hpg : p.Address.opEq g with
    | false => rfl
    | true =>
      have := CIPAddress.IsMulticast_congr hpg
      rw [h1 p hp] at this
      exact absurd this.symm hm

/-- `ProcessPacket` does not change the joined list. -/
theorem ProcessPacket_joined (s : CIGMPHandler) (pPacket mem : List Octet)
    (nRandom hStart : Nat) :
    (ProcessPacket s pPacket mem nRandom hStart).1.m_JoinedGroups = s.m_JoinedGroups := by
  unfold ProcessPacket
  split
  · rfl
  · split
    · rfl
    · simp only
      split
      · unfold ProcessQuery
        simp only
        split
        · rfl
        · split
          · rfl
          · split <;> rfl
      · rfl

/-- The expiry of the timer does not change the joined list. -/
theorem StaticTimerHandler_joined (own : CIPAddress) (s : CIGMPHandler) :
    (StaticTimerHandler own s).1.m_JoinedGroups = s.m_JoinedGroups := rfl

/-- Every event keeps the joined list free of non-multicast addresses and of
repeated addresses. -/
theorem joined_Handle (s : CIGMPHandler) (e : TEvent)
    (h1 : ∀ p ∈ s.m_JoinedGroups, p.Address.IsMulticast = true)
    (h2 : s.m_JoinedGroups.Pairwise (fun p q => p.Address.opEq q.Address = false)) :
    (∀ p ∈ (Handle s e).1.m_JoinedGroups, p.Address.IsMulticast = true) ∧
    (Handle s e).1.m_JoinedGroups.Pairwise (fun p q => p.Address.opEq q.Address = false) := by
  cases e with
  | JoinGroup own g => exact joined_JoinGroup own g s h1 h2
  | LeaveGroup own g =>
    have hsub := (joined_LeaveGroup own g s h1 h2).1
    exact ⟨fun p hp => h1 p (hsub.subset hp), h2.sublist hsub⟩
  | ProcessPacket pPacket mem nRandom hStart =>
    simp only [Handle, ProcessPacket_joined]
    exact ⟨h1, h2⟩
  | TimerExpired own =>
    simp only [Handle, StaticTimerHandler_joined]
    exact ⟨h1, h2⟩

/-- Every sequence of events keeps the joined list free of non-multicast addresses
and of repeated addresses. -/
theorem joined_HandleAll (events : List TEvent) (s : CIGMPHandler)
    (h1 : ∀ p ∈ s.m_JoinedGroups, p.Address.IsMulticast = true)
    (h2 : s.m_JoinedGroups.Pairwise (fun p q => p.Address.opEq q.Address = false)) :
    (∀ p ∈ (HandleAll s events).1.m_JoinedGroups, p.Address.IsMulticast = true) ∧
    (HandleAll s events).1.m_JoinedGroups.Pairwise
      (fun p q => p.Address.opEq q.Address = false) := by
  induction events generalizing s with
  | nil => exact ⟨h1, h2⟩
  | cons e rest ih =>
    obtain ⟨a1, a2⟩ := joined_Handle s e h1 h2
    exact ih (Handle s e).1 a1 a2

/-- C35: in every state that a sequence of JoinGroup, LeaveGroup, ProcessPacket and
timer-expiry events, with any arguments, leads to from the initial state, every
address in the joined list is multicast and no two entries of the list have the
same address; and in such a state, for every address g, FindGroup(g) finds nothing
after LeaveGroup(g). -/
theorem joined_list_invariant (events : List TEvent) :
    (∀ p ∈ (HandleAll init events).1.m_JoinedGroups, p.Address.IsMulticast = true) ∧
    (HandleAll init events).1.m_JoinedGroups.Pairwise
      (fun p q => p.Address.opEq q.Address = false) ∧
    (∀ own g : CIPAddress,
      (LeaveGroup own (HandleAll init events).1 g).1.FindGroup g = none) := by
  obtain ⟨h1, h2⟩ := joined_HandleAll events init (by simp [init]) (by simp [init])
  exact ⟨h1, h2, fun own g => (joined_LeaveGroup own g _ h1 h2).2⟩

end CIGMPHandler

end Circle

/-! ## Notifications from UDP endpoints -/

namespace Circle

namespace CNetworkLayer

/-- `NotifyJoinGroup` with the IGMP handler created. -/
theorem NotifyJoinGroup_of_handler (cfg : CNetConfig) (s : CNetworkLayer)
    (pIGMPHandler : CIGMPHandler) (g : CIPAddress) (hInit : s.m_pIGMPHandler = some pIGMPHandler) :
    NotifyJoinGroup cfg s g =
      ({ s with m_pIGMPHandler := some (pIGMPHandler.JoinGroup cfg.m_IPAddress g).1 },
        (pIGMPHandler.JoinGroup cfg.m_IPAddress g).2.map TNetCall.Handler) := by
  simp only [NotifyJoinGroup, hInit]

/-- `NotifyLeaveGroup` with the IGMP handler created. -/
theorem NotifyLeaveGroup_of_handler (cfg : CNetConfig) (s : CNetworkLayer)
    (pIGMPHandler : CIGMPHandler) (g : CIPAddress) (hInit : s.m_pIGMPHandler = some pIGMPHandler) :
    NotifyLeaveGroup cfg s g =
      ({ s with m_pIGMPHandler := some (pIGMPHandler.LeaveGroup cfg.m_IPAddress g).1 },
        (pIGMPHandler.LeaveGroup cfg.m_IPAddress g).2.map TNetCall.Handler) := by
  simp only [NotifyLeaveGroup, hInit]

/-- C34 without a local address: with an own address that is not set, from the
layer `Sample.layer` whose handler has joined 239.5.5.5, the calls
NotifyJoinGroup(239.1.2.3), NotifyJoinGroup(239.1.2.3), NotifyLeaveGroup(239.1.2.3)
leave the layer as it was, 239.1.2.3 is not in the joined list, and none of the
three makes a call: no leave-group message has been sent. -/
theorem leave_without_local_ip_counterexample :
    Sample.configUnset.m_IPAddress.IsSet = false ∧
    Sample.g239_1_2_3.IsMulticast = true ∧
    (NotifyJoinGroup Sample.configUnset Sample.layer Sample.g239_1_2_3).2 = [] ∧
    (NotifyJoinGroup Sample.configUnset
      (NotifyJoinGroup Sample.configUnset Sample.layer Sample.g239_1_2_3).1
      Sample.g239_1_2_3).2 = [] ∧
    NotifyLeaveGroup Sample.configUnset
      (NotifyJoinGroup Sample.configUnset
        (NotifyJoinGroup Sample.configUnset Sample.layer Sample.g239_1_2_3).1
        Sample.g239_1_2_3).1 Sample.g239_1_2_3 = (Sample.layer, []) ∧
    Sample.joined3.FindGroup Sample.g239_1_2_3 = none := by
  decide

/-- C34, amended: for every multicast address g, every handler state that a
sequence of events leads to from the initial state, and an own address that is
set: after NotifyJoinGroup(g), NotifyJoinGroup(g), NotifyLeaveGroup(g) the handler
is in the state after JoinGroup(g), JoinGroup(g), LeaveGroup(g); the second
notification makes no call and changes nothing; the calls of the third include
the Send of the leave-group message for g to 224.0.0.2; g is not found in the
joined list; and every membership query for the group g that passes the length and
checksum tests then changes nothing and makes no call, so that no report is
armed by it. -/
theorem membership_not_reference_counted (cfg : CNetConfig) (s : CNetworkLayer)
    (events : List CIGMPHandler.TEvent) (g : CIPAddress)
    (hInit : s.m_pIGMPHandler = some (CIGMPHandler.HandleAll CIGMPHandler.init events).1)
    (hOwn : cfg.m_IPAddress.IsSet = true) (hMc : g.IsMulticast = true) :
    (NotifyLeaveGroup cfg (NotifyJoinGroup cfg (NotifyJoinGroup cfg s g).1 g).1 g).1.m_pIGMPHandler
      = some (CIGMPHandler.LeaveGroup cfg.m_IPAddress
          (CIGMPHandler.JoinGroup cfg.m_IPAddress
            (CIGMPHandler.JoinGroup cfg.m_IPAddress
              (CIGMPHandler.HandleAll CIGMPHandler.init events).1 g).1 g).1 g).1 ∧
    NotifyJoinGroup cfg (NotifyJoinGroup cfg s g).1 g = ((NotifyJoinGroup cfg s g).1, []) ∧
    TNetCall.Handler (TCall.Send (CIPAddress.ofOctets 224 0 0 2)
        (CIGMPHandler.BuildMessage IGMP_LEAVE_GROUP g).bytes 8 2)
      ∈ (NotifyLeaveGroup cfg (NotifyJoinGroup cfg (NotifyJoinGroup cfg s g).1 g).1 g).2 ∧
    (CIGMPHandler.LeaveGroup cfg.m_IPAddress
      (CIGMPHandler.JoinGroup cfg.m_IPAddress
        (CIGMPHandler.JoinGroup cfg.m_IPAddress
          (CIGMPHandler.HandleAll CIGMPHandler.init events).1 g).1 g).1 g).1.FindGroup g = none ∧
    (∀ (pPacket mem : List Octet) (nRandom hStart : Nat),
      CIGMPHandler.IsMembershipQuery pPacket mem = true →
      (CIGMPHandler.QueryGroup pPacket).opEq g = true →
      CIGMPHandler.ProcessPacket
        (CIGMPHandler.LeaveGroup cfg.m_IPAddress
          (CIGMPHandler.JoinGroup cfg.m_IPAddress
            (CIGMPHandler.JoinGroup cfg.m_IPAddress
              (CIGMPHandler.HandleAll CIGMPHandler.init events).1 g).1 g).1 g).1
        pPacket mem nRandom hStart =
      ((CIGMPHandler.LeaveGroup cfg.m_IPAddress
          (CIGMPHandler.JoinGroup cfg.m_IPAddress
            (CIGMPHandler.JoinGroup cfg.m_IPAddress
              (CIGMPHandler.HandleAll CIGMPHandler.init events).1 g).1 g).1 g).1, [])) := by
  obtain ⟨i0, n0⟩ := CIGMPHandler.joined_HandleAll events CIGMPHandler.init
    (by simp [CIGMPHandler.init]) (by simp [CIGMPHandler.init])
  generalize (CIGMPHandler.HandleAll CIGMPHandler.init events).1 = h0 at *
  obtain ⟨i1, n1⟩ := CIGMPHandler.joined_JoinGroup cfg.m_IPAddress g h0 i0 n0
  have hf1 := CIGMPHandler.FindGroup_JoinGroup cfg.m_IPAddress g h0 hMc
  have hJ2 := CIGMPHandler.JoinGroup_of_found cfg.m_IPAddress g _ hf1
  have hN1 := NotifyJoinGroup_of_handler cfg s h0 g hInit
  generalize (CIGMPHandler.JoinGroup cfg.m_IPAddress h0 g).1 = h1 at *
  have hs1 : (NotifyJoinGroup cfg s g).1.m_pIGMPHandler = some h1 := by
    rw [hN1]
  have hN2 : NotifyJoinGroup cfg (NotifyJoinGroup cfg s g).1 g
      = ((NotifyJoinGroup cfg s g).1, []) := by
    rw [NotifyJoinGroup_of_handler cfg _ h1 g hs1, hJ2]
    simp only [List.map_nil, Prod.mk.injEq, and_true]
    generalize (NotifyJoinGroup cfg s g).1 = s1 at hs1
    cases s1
    simp only at hs1
    simp only [hs1]
  rw [hN2, hJ2]
  simp only
  rw [NotifyLeaveGroup_of_handler cfg _ h1 g hs1]
  simp only
  have hnone := (CIGMPHandler.joined_LeaveGroup cfg.m_IPAddress g h1 i1 n1).2
  have hall : CIGMPHandler.AllRoutersIP = CIPAddress.ofOctets 224 0 0 2 := by decide
  refine ⟨trivial, trivial, ?_, hnone, ?_⟩
  · cases hr : h1.FindGroup g with
    | none => rw [hr] at hf1; cases hf1
    | some r =>
      obtain ⟨i, p⟩ := r
      obtain ⟨l1, l2, _, _, _, e4⟩ := CIGMPHandler.LeaveGroup_found cfg.m_IPAddress g h1 hMc i p hr
      rw [e4]
      have hsend : CIGMPHandler.SendLeaveGroup cfg.m_IPAddress g =
          [TCall.Send (CIPAddress.ofOctets 224 0 0 2)
            (CIGMPHandler.BuildMessage IGMP_LEAVE_GROUP g).bytes 8 2] := by
        simp [CIGMPHandler.SendLeaveGroup, hOwn, hall, sizeofTIGMPHeader, IPPROTO_IGMP]
      rw [hsend]
      split <;> simp
  · intro pPacket mem nRandom hStart hQuery hq
    have hqe : CIPAddress.ofOctets ((TIGMPHeader.ofPacket pPacket).GroupAddress.getD 0 0)
        ((TIGMPHeader.ofPacket pPacket).GroupAddress.getD 1 0)
        ((TIGMPHeader.ofPacket pPacket).GroupAddress.getD 2 0)
        ((TIGMPHeader.ofPacket pPacket).GroupAddress.getD 3 0)
        = CIGMPHandler.QueryGroup pPacket := by
      simp [TIGMPHeader.ofPacket, CIGMPHandler.QueryGroup]
    have hqnone := CIGMPHandler.FindGroup_eq_none_of_opEq _ hq hnone
    have hqmc : (CIGMPHandler.QueryGroup pPacket).IsMulticast = true := by
      rw [CIPAddress.IsMulticast_congr hq]
      exact hMc
    have hqnn : (CIGMPHandler.QueryGroup pPacket).IsNull = false := by
      generalize CIGMPHandler.QueryGroup pPacket = q at hqmc
      simp only [CIPAddress.IsMulticast, Bool.and_eq_true, decide_eq_true_eq] at hqmc
      have h0 : q.o0 ≠ 0 := by
        intro h
        rw [h] at hqmc
        simp at hqmc
      simp [CIPAddress.IsNull, h0]
    rw [CIGMPHandler.ProcessPacket_of_query _ pPacket mem nRandom hStart hQuery]
    generalize CIGMPHandler.LeaveGroup cfg.m_IPAddress h1 g = r3 at *
    have hsel : r3.1.SelectGroup (CIGMPHandler.QueryGroup pPacket) = none := by
      simp [CIGMPHandler.SelectGroup, hqnn, hqnone]
    simp only [CIGMPHandler.ProcessQuery, hqe, hsel]
    split <;> rfl

/-- Witness of C34: with own address 192.168.1.10 and the handler of
`Sample.layer`, which has joined 239.5.5.5, after two joins and one leave of
239.1.2.3 the address 239.1.2.3 is not found in the joined list. -/
theorem membership_not_reference_counted_witness :
    Sample.config.m_IPAddress.IsSet = true ∧ Sample.g239_1_2_3.IsMulticast = true ∧
    (CIGMPHandler.LeaveGroup Sample.config.m_IPAddress
      (CIGMPHandler.JoinGroup Sample.config.m_IPAddress
        (CIGMPHandler.JoinGroup Sample.config.m_IPAddress
          (CIGMPHandler.HandleAll CIGMPHandler.init
            [CIGMPHandler.TEvent.JoinGroup Sample.own Sample.g239_5_5_5]).1
          Sample.g239_1_2_3).1 Sample.g239_1_2_3).1 Sample.g239_1_2_3).1.FindGroup
      Sample.g239_1_2_3 = none :=
  ⟨by decide, by decide,
    (membership_not_reference_counted Sample.config Sample.layer
      [CIGMPHandler.TEvent.JoinGroup Sample.own Sample.g239_5_5_5] Sample.g239_1_2_3
      (by decide) (by decide) (by decide)).2.2.2.1⟩

end CNetworkLayer

namespace CUDPConnection

/-- C37: for every UDP endpoint that is not active-open, subscribed to a group g1,
and every set multicast address g2 that does not compare equal to g1:
JoinMulticastGroup(g2) returns 0, stores g2 as the subscribed group and makes one
call, NotifyJoinGroup(g2), so NotifyLeaveGroup(g1) is not called; a
LeaveMulticastGroup(g1) that follows returns 0, changes nothing and makes no call;
and when the calls of both are carried out in a network layer whose IGMP handler
has g1 in its joined list, the handler is the one after JoinGroup(g2) and g1 is
still found in its joined list. -/
theorem JoinMulticastGroup_replaces_group (c : CUDPConnection) (g2 : CIPAddress)
    (hPassive : c.m_bActiveOpen = false) (hSet : g2.IsSet = true)
    (hMc : g2.IsMulticast = true) (hNe : g2.opEq c.m_MulticastGroup = false) :
    JoinMulticastGroup c g2 =
      (0, { c with m_MulticastGroup := g2 }, [TUDPCall.NotifyJoinGroup g2]) ∧
    TUDPCall.NotifyLeaveGroup c.m_MulticastGroup ∉ (JoinMulticastGroup c g2).2.2 ∧
    LeaveMulticastGroup (JoinMulticastGroup c g2).2.1 c.m_MulticastGroup =
      (0, (JoinMulticastGroup c g2).2.1, []) ∧
    (∀ (cfg : CNetConfig) (s : CNetworkLayer) (pIGMPHandler : CIGMPHandler),
      s.m_pIGMPHandler = some pIGMPHandler →
      (pIGMPHandler.FindGroup c.m_MulticastGroup).isSome = true →
      (CNetworkLayer.NotifiedAll cfg s ((JoinMulticastGroup c g2).2.2 ++
          (LeaveMulticastGroup (JoinMulticastGroup c g2).2.1
            c.m_MulticastGroup).2.2)).1.m_pIGMPHandler
        = some (pIGMPHandler.JoinGroup cfg.m_IPAddress g2).1 ∧
      ((pIGMPHandler.JoinGroup cfg.m_IPAddress g2).1.FindGroup c.m_MulticastGroup).isSome
        = true) := by
  have hJ : JoinMulticastGroup c g2 =
      (0, { c with m_MulticastGroup := g2 }, [TUDPCall.NotifyJoinGroup g2]) := by
    simp [JoinMulticastGroup, hSet, hMc, hPassive]
  have hL : LeaveMulticastGroup { c with m_MulticastGroup := g2 } c.m_MulticastGroup =
      (0, { c with m_MulticastGroup := g2 }, []) := by
    simp [LeaveMulticastGroup, hNe]
  rw [hJ]
  refine ⟨rfl, by simp, hL, ?_⟩
  intro cfg s pIGMPHandler hInit hJoined
  simp only [hL, List.append_nil]
  refine ⟨?_, CIGMPHandler.FindGroup_isSome_JoinGroup cfg.m_IPAddress _ g2 pIGMPHandler hJoined⟩
  simp only [CNetworkLayer.NotifiedAll, CNetworkLayer.Notified,
    CNetworkLayer.NotifyJoinGroup_of_handler cfg s pIGMPHandler g2 hInit]

/-- Witness of C37: the endpoint `Sample.udpSubscribed`, subscribed to 239.1.2.3,
joins 239.5.5.5 with the single call NotifyJoinGroup(239.5.5.5), and leaving
239.1.2.3 afterwards makes no call. -/
theorem JoinMulticastGroup_replaces_group_witness :
    Sample.udpSubscribed.m_bActiveOpen = false ∧ Sample.g239_5_5_5.IsSet = true ∧
    Sample.g239_5_5_5.IsMulticast = true ∧
    Sample.g239_5_5_5.opEq Sample.udpSubscribed.m_MulticastGroup = false ∧
    JoinMulticastGroup Sample.udpSubscribed Sample.g239_5_5_5 =
      (0, { Sample.udpSubscribed with m_MulticastGroup := Sample.g239_5_5_5 },
        [TUDPCall.NotifyJoinGroup Sample.g239_5_5_5]) ∧
    LeaveMulticastGroup (JoinMulticastGroup Sample.udpSubscribed Sample.g239_5_5_5).2.1
        Sample.g239_1_2_3 =
      (0, (JoinMulticastGroup Sample.udpSubscribed Sample.g239_5_5_5).2.1, []) :=
  ⟨by decide, by decide, by decide, by decide,
    (JoinMulticastGroup_replaces_group Sample.udpSubscribed Sample.g239_5_5_5
      (by decide) (by decide) (by decide) (by decide)).1,
    (JoinMulticastGroup_replaces_group Sample.udpSubscribed Sample.g239_5_5_5
      (by decide) (by decide) (by decide) (by decide)).2.2.1⟩

end CUDPConnection

end Circle
